import Mathlib

/-!
Coach assignment server: booking engine and inbound reconciler.

A shallow embedding of `internal/handlers/scheduling.go`, `internal/db/redis.go`,
`internal/structs/structs.go` and the delivery loops of `internal/clients`.

* Instants and durations are integers counted in nanoseconds (Go `time.Time` read in UTC,
  `time.Duration`).
* `Coach.Score` is a `float64` in the source and is only ever compared; it is embedded as a
  rational number (finite scores, no NaN).
* `ComputeFairnessScore` is written over an arbitrary number type and read over the real
  numbers, or over `F64`, which adds NaN and the infinities to exact numbers.
* The relational store is a record of tables, each table a list of rows in scan order.
* The cache is a list of entries carrying the marshalled JSON document and its expiry.
* Everything a handler draws from outside (the auth reply, generated uuids, the clock,
  statement failures, the CRM and calendar replies) is an explicit environment record.
* A handler returns the world after the request together with what it wrote to the HTTP
  response; the world carries a trace of the interactions the handler performed.
-/

namespace CoachAssignment

/-! ## Data model (`internal/structs/structs.go`) -/

/-- Instants and durations in nanoseconds. -/
abbrev Time := Int

/-- Go `time.Minute`. -/
def minute : Time := 60000000000

/-- Go `time.Hour`. -/
def hour : Time := 60 * minute

/-- Length of a calendar day. -/
def dayLength : Time := 24 * hour

/-- Wrap-around of Go `int64` arithmetic (`time.Duration`). -/
def wrapInt64 (x : Int) : Int :=
  (x + 9223372036854775808) % 18446744073709551616 - 9223372036854775808

/-- Go `structs.BaseResponse`. -/
structure BaseResponse where
  Error : String
  Message : String
  ErrorDetails : String
deriving DecidableEq

/-- Go `structs.Coach`; the working hours are offsets from midnight. -/
structure Coach where
  ID : String
  Name : String
  Email : String
  Score : Rat
  MaxDailyAppointments : Int
  WorkingHoursStart : Time
  WorkingHoursEnd : Time
  Timezone : String
deriving DecidableEq

/-- Go `structs.BookAppointmentRequest`. `StartTime` is the instant of the decoded `time.Time`
and `StartOffset` the offset east of UTC of the zone it was written in, which the decoded
value keeps as its location. -/
structure BookAppointmentRequest where
  CalendarID : String
  ContactEmail : String
  ContactName : String
  StartTime : Time
  StartOffset : Time
  TimeZone : String
  Notes : String
deriving DecidableEq

/-- Go `structs.BookAppointmentResponse`. -/
structure BookAppointmentResponse extends BaseResponse where
  AppointmentID : String
  CoachID : String
  StartTime : Time
  EndTime : Time
  Status : String
deriving DecidableEq

/-- Go `structs.WebHookRequest`. -/
structure WebHookRequest where
  EventType : String
  AppointmentID : String
deriving DecidableEq

/-- Go `structs.WebHookResponse`. -/
structure WebHookResponse extends BaseResponse where
  Received : Bool
  EventID : String
deriving DecidableEq

/-- Go `structs.ValidateResponse` (the fields the handlers read or log). -/
structure ValidateResponse where
  Valid : Bool
  Error : String
  KeyType : String
deriving DecidableEq

/-- Go `structs.AppointmentCreatedRequest`. -/
structure AppointmentCreatedRequest where
  AppointmentID : String
  CoachID : String
  StartTime : Time
  EndTime : Time
  ClientID : String
deriving DecidableEq

/-- Go `structs.AppointmentCreatedResponse`. -/
structure AppointmentCreatedResponse where
  Success : Bool
  CrmID : String
  ProcessedAt : String
  Message : String
deriving DecidableEq

/-- Go `structs.BlockSlotResponse`. -/
structure BlockSlotResponse where
  Success : Bool
  CoachId : String
  StartTime : Time
  EndTime : Time
  BlockedAt : Time
  BlockId : String
deriving DecidableEq

/-- Go `structs.ReleaseSlotResponse`. -/
structure ReleaseSlotResponse where
  Success : Bool
  CoachId : String
  ReleasedAt : Time
  BlockId : String
deriving DecidableEq

/-- A Go `(*T, error)` result pair: the pointer (none for nil) and the error (none for nil). -/
abbrev GoResult (α : Type) := Option α × Option String

/-! ## Relational store -/

/-- Row of `calendars`. -/
structure CalendarRow where
  id : String
  name : String
  slot_duration : Int
deriving DecidableEq

/-- Row of `coach_calendars`. -/
structure CoachCalendarRow where
  coach_id : String
  calendar_id : String
deriving DecidableEq

/-- Row of `coach_slots`. -/
structure SlotRow where
  coach_id : String
  start_time : Time
  available : Bool
  updated_at : Time
deriving DecidableEq

/-- Row of `coach_appointments`, with the columns the handlers read or write. -/
structure AppointmentRow where
  id : String
  coach_id : String
  calendar_id : String
  contact_id : String
  title : String
  start_time : Time
  end_time : Time
  status : String
  source : String
  crm_contact_id : Option String
  external_calendar_id : Option String
  updated_at : Option Time
  cancelled_at : Option Time
  confirmed_at : Option Time
  webhook_attempts : Nat
  webhook_last_attempt : Option Time
deriving DecidableEq

/-- Row of `distribution_log`. -/
structure DistributionLogRow where
  appointment_id : String
  coaches_considered : String
  selected_coach_id : String
  selection_reason : String
  distribution_score : Rat
deriving DecidableEq

/-- Row of `webhook_events`. -/
structure WebhookEventRow where
  id : String
  event_type : String
  event_source : String
  payload : WebHookRequest
  last_attempt : Time
  processed_at : Time
  created_at : Time
deriving DecidableEq

/-- The relational store: one list of rows per table. -/
structure Store where
  coaches : List Coach
  calendars : List CalendarRow
  coach_calendars : List CoachCalendarRow
  coach_slots : List SlotRow
  coach_appointments : List AppointmentRow
  distribution_log : List DistributionLogRow
  webhook_events : List WebhookEventRow
deriving DecidableEq

/-! ## Cache, interaction trace and world -/

/-- JSON scalar values occurring in the documents the cache holds. -/
inductive JValue where
  | str (s : String)
  | bool (b : Bool)
deriving DecidableEq

/-- A marshalled JSON object: its members in order. -/
abbrev JObject := List (String × JValue)

/-- One cache entry: key, marshalled value and the instant it expires. -/
structure CacheEntry where
  key : String
  value : JObject
  expires_at : Time
deriving DecidableEq

/-- The key/value cache. -/
abbrev Cache := List CacheEntry

/-- Interactions a handler performs with its collaborators. -/
inductive Effect where
  | authValidate (apiKey : String)
  | storeRead (table : String)
  | storeWrite (table : String)
  | cacheGet (key : String)
  | cacheSet (key : String)
  | crmAppointmentCreated (appointmentID : String) (idemKey : String)
  | calendarGetAvailability (coachID : String)
  | calendarBlockSlot (coachID : String)
  | calendarReleaseSlot (coachID : String) (blockID : String)
deriving DecidableEq

/-- The relational store, the cache and the trace of interactions so far. -/
structure World where
  db : Store
  rdb : Cache
  trace : List Effect
deriving DecidableEq

/-- Append one interaction to the trace. -/
def World.log (w : World) (e : Effect) : World :=
  { w with trace := w.trace ++ [e] }

/-- Append several interactions to the trace. -/
def World.logs (w : World) (es : List Effect) : World :=
  { w with trace := w.trace ++ es }

/-- What a handler did to the HTTP response: whether it panicked before finishing, the
status code (200 unless `WriteHeader` was called) and the JSON documents it encoded. -/
structure Reply (β : Type) where
  panicked : Bool
  status : Nat
  bodies : List β

/-- The zero `BookAppointmentResponse` with the error fields set. -/
def bookError (code message details : String) : BookAppointmentResponse :=
  { Error := code, Message := message, ErrorDetails := details,
    AppointmentID := "", CoachID := "", StartTime := 0, EndTime := 0, Status := "" }

/-- The zero `WebHookResponse` with the error fields set. -/
def webhookError (code message details : String) : WebHookResponse :=
  { Error := code, Message := message, ErrorDetails := details,
    Received := false, EventID := "" }

/-! ## Transactions

The store is PostgreSQL reached through `lib/pq`. A statement that fails inside a
transaction puts the transaction in the failed state: every later statement is rejected
and `Commit` rolls back and returns an error. -/

/-- An open transaction: its working copy of the store and whether it is in the failed state. -/
structure Tx where
  work : Store
  failed : Bool

/-- Go `DB.BeginTx`. -/
def Tx.begin (db : Store) : Tx :=
  { work := db, failed := false }

/-- Go `tx.ExecContext`: run one statement, which may be rejected by an injected fault or by
the statement itself (a constraint violation). -/
def Tx.exec (tx : Tx) (fault : Option String) (stmt : Store → Option Store) :
    Tx × Option String :=
  if tx.failed then
    (tx, some "pq: current transaction is aborted, commands ignored until end of transaction block")
  else
    match fault with
    | some e => ({ tx with failed := true }, some e)
    | none =>
      match stmt tx.work with
      | none => ({ tx with failed := true }, some "pq: duplicate key value violates unique constraint")
      | some s => ({ tx with work := s }, none)

/-- Go `tx.Commit`: the store after the commit attempt and the error returned. -/
def Tx.commit (tx : Tx) (fault : Option String) (db : Store) : Store × Option String :=
  if tx.failed then
    (db, some "pq: Could not complete operation in a failed transaction")
  else
    match fault with
    | some e => (db, some e)
    | none => (tx.work, none)

/-! ## BookAppointment: eligibility pipeline and selection (`scheduling.go` 265-421) -/

/-- The calendar query of lines 267-269: name and slot duration of the calendar. -/
def calendarQuery (db : Store) (calendarID : String) : Option (String × Int) :=
  (db.calendars.find? (fun c => c.id = calendarID)).map (fun c => (c.name, c.slot_duration))

/-- Stage 1, the query of lines 281-319: the coaches that have the requested calendar. -/
def coachesQuery (db : Store) (calendarID : String) : List Coach :=
  db.coaches.filter (fun c =>
    db.coach_calendars.any (fun cc => cc.calendar_id = calendarID ∧ cc.coach_id = c.ID))

/-- Midnight of the calendar day on which a wall-clock reading falls. Line 327,
`req.StartTime.Format("2006-01-02")`, prints the date that the start time shows in its own
location, the zone offset the client wrote it with, and the count query casts the text back
to a date: `BookAppointment` applies this function to `StartTime + StartOffset`. -/
def appointmentDay (start : Time) : Time :=
  (start / dayLength) * dayLength

/-- The count query of lines 330-338 for one coach: no row when no appointment matches,
otherwise the number of matching appointments and the daily limit. -/
def dailyCountQuery (db : Store) (c : Coach) (dayStart : Time) : Option (Nat × Int) :=
  let n := (db.coach_appointments.filter (fun a =>
    a.coach_id = c.ID ∧ a.start_time ≥ dayStart + c.WorkingHoursStart ∧
    a.end_time ≤ dayStart + c.WorkingHoursEnd ∧ a.status = "scheduled")).length
  if n = 0 then none else some (n, c.MaxDailyAppointments)

/-- Stage 2, the loop of lines 340-358. `countErr` gives, per coach id, the error other than
`sql.ErrNoRows` that the `Scan` of the coach's count query returns, if any: such a candidate
is skipped (lines 347-352). Otherwise the query yields no row (`sql.ErrNoRows`, the candidate
is kept) or one row, and the candidate is kept when the count is below the limit. -/
def stage2 (db : Store) (countErr : String → Option String) (coaches : List Coach)
    (dayStart : Time) : List Coach :=
  coaches.foldl (fun coachLister c =>
    match countErr c.ID with
    | some _ => coachLister
    | none =>
      match dailyCountQuery db c dayStart with
      | none => coachLister ++ [c]
      | some (currentAppointments, maxDaily) =>
        if (currentAppointments : Int) < maxDaily then coachLister ++ [c] else coachLister) []

/-- The availability query of lines 369-386 for one coach and start time. -/
def isAvailable (db : Store) (coachID : String) (start : Time) : Bool :=
  db.coach_slots.any (fun s => s.coach_id = coachID ∧ s.start_time = start ∧ s.available = true)
  && !(db.coach_appointments.any (fun a =>
        a.coach_id = coachID ∧ a.start_time = start ∧ a.status = "scheduled"))

/-- Stage 3, the loop of lines 366-396: position `i` of `coachLister` is tested and
position `i` of `coaches` is appended. -/
def stage3 (db : Store) (coaches coachLister : List Coach) (start : Time) : List Coach :=
  (List.range coachLister.length).foldl (fun newCoachList i =>
    match coachLister[i]?, coaches[i]? with
    | some tested, some appended =>
      if isAvailable db tested.ID start then newCoachList ++ [appended] else newCoachList
    | _, _ => newCoachList) []

/-- The selection loop of lines 412-417 over `newCoachList[0]` and `newCoachList[1:]`. -/
def selectTop (first : Coach) (rest : List Coach) : Coach :=
  rest.foldl (fun top c => if c.Score > top.Score then c else top) first

/-- The value of `selectionReason` when the distribution log is written: the assignments
of lines 323-325, 362-364, 408-410 and 421, in program order. -/
def selectionReason (coaches coachLister newCoachList : List Coach) : String :=
  let reason := ""
  let reason := if coaches.length = 1 then "Only coach with this slot duration" else reason
  let reason :=
    if coachLister.length = 1 then "Only coach not reaching daily appointment limit" else reason
  let reason := if newCoachList.length = 1 then "Only coach available at this time" else reason
  let _unused := reason
  "Selected coach with highest score"

/-! ## BookAppointment: the handler (`scheduling.go` 203-531) -/

/-- The HTTP request as `BookAppointment` reads it: the two headers (empty when absent) and
the decoded body (none when decoding fails). -/
structure BookRequest where
  apiKey : String
  idempotencyKey : String
  body : Option BookAppointmentRequest

/-- Everything `BookAppointment` draws from outside during one run. -/
structure BookEnv where
  auth : GoResult ValidateResponse
  now : Time
  appointmentID : String
  contactUUID : String
  newIdemKey : String
  beginTxErr : Option String
  countErr : String → Option String
  insertErr : Option String
  slotUpdateErr : Option String
  logInsertErr : Option String
  commitErr : Option String
  crm : GoResult AppointmentCreatedResponse
  crmIdUpdateErr : Option String
  blockSlot : GoResult BlockSlotResponse
  blockIdUpdateErr : Option String

/-- A handler run that ended in a nil dereference: nothing is sent. -/
def panicReply {β : Type} : Reply β :=
  { panicked := true, status := 0, bodies := [] }

/-- The insert of lines 439-443.
Modelled from the spec: the relational store has a unique constraint on the appointment id
(section 6); the schema itself is not part of the sources. -/
def appointmentInsert (row : AppointmentRow) (db : Store) : Option Store :=
  if db.coach_appointments.any (fun a => a.id = row.id) then none
  else some { db with coach_appointments := db.coach_appointments ++ [row] }

/-- The update of lines 454-456: every slot of the coach starting in `[start, endTime)`
becomes unavailable. -/
def slotsUnavailable (coachID : String) (start endTime now : Time) (db : Store) :
    Option Store :=
  some { db with coach_slots := db.coach_slots.map (fun s =>
    if s.coach_id = coachID ∧ s.start_time ≥ start ∧ s.start_time < endTime
    then { s with available := false, updated_at := now } else s) }

/-- The insert of lines 458-462. -/
def distributionLogInsert (row : DistributionLogRow) (db : Store) : Option Store :=
  some { db with distribution_log := db.distribution_log ++ [row] }

/-- The update of lines 485-487. -/
def setCrmContactId (db : Store) (appointmentID crmID : String) : Store :=
  { db with coach_appointments := db.coach_appointments.map (fun a =>
    if a.id = appointmentID then { a with crm_contact_id := some crmID } else a) }

/-- The update of lines 510-512. -/
def setExternalCalendarId (db : Store) (appointmentID blockID : String) : Store :=
  { db with coach_appointments := db.coach_appointments.map (fun a =>
    if a.id = appointmentID then { a with external_calendar_id := some blockID } else a) }

/-- Lines 474-531: the side effects after a successful commit. -/
def bookPostCommit (w : World) (req : BookAppointmentRequest) (env : BookEnv) (top : Coach)
    (endTime : Time) (idemKey : String) : World × Reply BookAppointmentResponse :=
  let w := w.log (.crmAppointmentCreated env.appointmentID idemKey)
  match env.crm with
  | (_, some e) =>
    (w, { panicked := false, status := 502, bodies :=
      [bookError "GATEWAY_ERROR" "Failed to send appointment creation request to CRM" e] })
  | (none, none) => (w, panicReply)
  | (some response, none) =>
    let w := w.log (.storeWrite "coach_appointments")
    match env.crmIdUpdateErr with
    | some e =>
      (w, { panicked := false, status := 500, bodies :=
        [bookError "INTERNAL_ERROR" "Database failure" e] })
    | none =>
      let w := { w with db := setCrmContactId w.db env.appointmentID response.CrmID }
      let w := w.log (.calendarBlockSlot top.ID)
      match env.blockSlot with
      | (_, some e) =>
        (w, { panicked := false, status := 502, bodies :=
          [bookError "GATEWAY_ERROR" "Failed to send a request to block slot to calendar" e] })
      | (none, none) => (w, panicReply)
      | (some blockSlotResponse, none) =>
        let w := w.log (.storeWrite "coach_appointments")
        match env.blockIdUpdateErr with
        | some e =>
          (w, { panicked := false, status := 500, bodies :=
            [bookError "INTERNAL_ERROR" "Database failure" e] })
        | none =>
          let w := { w with db :=
            setExternalCalendarId w.db env.appointmentID blockSlotResponse.BlockId }
          (w, { panicked := false, status := 200, bodies :=
            [{ Error := "", Message := "", ErrorDetails := "",
               AppointmentID := env.appointmentID, CoachID := top.ID,
               StartTime := req.StartTime, EndTime := endTime, Status := "scheduled" }] })

/-- Lines 423-472: the three writes inside the transaction and the commit. -/
def bookWrites (w : World) (tx : Tx) (r : BookRequest) (req : BookAppointmentRequest)
    (env : BookEnv) (top : Coach) (endTime : Time) (reason : String) :
    World × Reply BookAppointmentResponse :=
  let idemKey := if r.idempotencyKey = "" then env.newIdemKey else r.idempotencyKey
  let w := w.log (.storeWrite "coach_appointments")
  let row : AppointmentRow :=
    { id := env.appointmentID, coach_id := top.ID, calendar_id := req.CalendarID,
      contact_id := "user-" ++ env.contactUUID, title := req.Notes,
      start_time := req.StartTime, end_time := endTime, status := "scheduled",
      source := "api", crm_contact_id := none, external_calendar_id := none,
      updated_at := none, cancelled_at := none, confirmed_at := none,
      webhook_attempts := 0, webhook_last_attempt := none }
  match tx.exec env.insertErr (appointmentInsert row) with
  | (_, some e) =>
    (w, { panicked := false, status := 409, bodies :=
      [bookError "NO_SLOT_ERROR" "This slot has already been scheduled." e] })
  | (tx, none) =>
    let w := w.log (.storeWrite "coach_slots")
    let tx := (tx.exec env.slotUpdateErr
      (slotsUnavailable top.ID req.StartTime endTime env.now)).1
    let w := w.log (.storeWrite "distribution_log")
    let tx := (tx.exec env.logInsertErr (distributionLogInsert
      { appointment_id := env.appointmentID, coaches_considered := "[]",
        selected_coach_id := top.ID, selection_reason := reason,
        distribution_score := 1 })).1
    match tx.commit env.commitErr w.db with
    | (_, some e) =>
      (w, { panicked := false, status := 409, bodies :=
        [bookError "TRANSACTION_ERROR" "Failed to create appointment" e] })
    | (db, none) => bookPostCommit { w with db := db } req env top endTime idemKey

/-- Lines 265-421: calendar lookup, the three stages, the empty check and the selection. -/
def bookPipeline (w : World) (tx : Tx) (r : BookRequest) (req : BookAppointmentRequest)
    (env : BookEnv) : World × Reply BookAppointmentResponse :=
  let w := w.log (.storeRead "calendars")
  match calendarQuery tx.work req.CalendarID with
  | none => (w, { panicked := false, status := 400, bodies := [] })
  | some (_, slotDuration) =>
    let w := w.log (.storeRead "coaches")
    let coaches := coachesQuery tx.work req.CalendarID
    let endTime := req.StartTime + wrapInt64 (slotDuration * minute)
    let w := w.logs (coaches.map (fun _ => .storeRead "coach_appointments"))
    let coachLister := stage2 tx.work env.countErr coaches
      (appointmentDay (req.StartTime + req.StartOffset))
    let w := w.logs (coachLister.map (fun _ => .storeRead "coach_slots"))
    let newCoachList := stage3 tx.work coaches coachLister req.StartTime
    match newCoachList with
    | [] =>
      (w, { panicked := false, status := 200, bodies :=
        [bookError "NO_SLOT_ERROR" "No slot available at this time for any coach" ""] })
    | first :: rest =>
      bookWrites w tx r req env (selectTop first rest) endTime
        (selectionReason coaches coachLister newCoachList)

/-- Go `(*SchedulingHandler).BookAppointment`. -/
def BookAppointment (w : World) (r : BookRequest) (env : BookEnv) :
    World × Reply BookAppointmentResponse :=
  if r.apiKey = "" then
    (w, { panicked := false, status := 400, bodies :=
      [bookError "VALIDATION_ERROR" "X-API-Key Header is missing" ""] })
  else
    let w := w.log (.authValidate r.apiKey)
    match env.auth with
    | (none, _) => (w, panicReply)
    | (some _, some e) =>
      (w, { panicked := false, status := 502, bodies :=
        [bookError "DOWNSTREAM_ERROR" "Downstream service failure" e] })
    | (some authApiValidationResponse, none) =>
      if authApiValidationResponse.Valid = false then
        (w, { panicked := false, status := 401, bodies :=
          [bookError "VALIDATION_ERROR" "Invalid API Key" ""] })
      else
        match r.body with
        | none => (w, { panicked := false, status := 400, bodies := [] })
        | some req =>
          match env.beginTxErr with
          | some _ => (w, { panicked := false, status := 409, bodies := [] })
          | none => bookPipeline w (Tx.begin w.db) r req env

/-! ## Idempotency records (`internal/db/redis.go` 84-110) -/

/-- Go `json.Marshal` of a `WebHookResponse`: the embedded `BaseResponse` members are
omitted when empty, then `received` and `event_id`. -/
def marshalWebHookResponse (r : WebHookResponse) : JObject :=
  (if r.Error = "" then [] else [("error", JValue.str r.Error)]) ++
  (if r.Message = "" then [] else [("message", JValue.str r.Message)]) ++
  (if r.ErrorDetails = "" then [] else [("error_details", JValue.str r.ErrorDetails)]) ++
  [("received", JValue.bool r.Received), ("event_id", JValue.str r.EventID)]

/-- Decoding one JSON member into a `WebHookResponse`; none is a type mismatch, members
with other names are skipped. -/
def unmarshalMember (r : WebHookResponse) (m : String × JValue) : Option WebHookResponse :=
  if m.1 = "error" then
    match m.2 with
    | .str s => some { r with Error := s }
    | .bool _ => none
  else if m.1 = "message" then
    match m.2 with
    | .str s => some { r with Message := s }
    | .bool _ => none
  else if m.1 = "error_details" then
    match m.2 with
    | .str s => some { r with ErrorDetails := s }
    | .bool _ => none
  else if m.1 = "received" then
    match m.2 with
    | .bool b => some { r with Received := b }
    | .str _ => none
  else if m.1 = "event_id" then
    match m.2 with
    | .str s => some { r with EventID := s }
    | .bool _ => none
  else some r

/-- The second argument of Go `json.Unmarshal` as the callers in this repository supply
it: a `WebHookResponse` passed by value, or a pointer to one. -/
inductive UnmarshalTarget where
  | value (v : WebHookResponse)
  | pointer (v : WebHookResponse)

/-- Go `json.Unmarshal`: an `InvalidUnmarshalError` (none) when the target is not a pointer,
otherwise the target after decoding every member (none on a type mismatch). -/
def jsonUnmarshal (data : JObject) : UnmarshalTarget → Option WebHookResponse
  | .value _ => none
  | .pointer r => data.foldlM unmarshalMember r

/-- Redis `GET` at instant `now`: the value under the key unless absent or expired. -/
def redisGet (rdb : Cache) (now : Time) (key : String) : Option JObject :=
  (rdb.find? (fun e => e.key = key)).bind (fun e =>
    if now < e.expires_at then some e.value else none)

/-- Redis `SET` with a time to live: replaces whatever the key held. -/
def redisSet (rdb : Cache) (now : Time) (key : String) (value : JObject) (ttl : Time) : Cache :=
  { key := key, value := value, expires_at := now + ttl } :: rdb.filter (fun e => e.key ≠ key)

/-- Go `db.SetIdempotencyKey`: the cache afterwards and the returned error (marshalling a
`WebHookResponse` cannot fail; the result of `Set` is not inspected). -/
def SetIdempotencyKey (rdb : Cache) (now : Time) (idemKey : String) (response : WebHookResponse) :
    Cache × Option String :=
  (redisSet rdb now idemKey (marshalWebHookResponse response) (24 * hour), none)

/-- Go `db.CheckIdempotency`: whether the key was found and decoded, and the decoded
response. -/
def CheckIdempotency (rdb : Cache) (now : Time) (idemKey : String) (response : UnmarshalTarget) :
    Bool × Option WebHookResponse :=
  match redisGet rdb now idemKey with
  | none => (false, none)
  | some val =>
    match jsonUnmarshal val response with
    | none => (false, none)
    | some r => (true, some r)

/-! ## WebhookHandler (`scheduling.go` 537-718) -/

/-- The HTTP request as `WebhookHandler` reads it: the two headers (empty when absent) and
the decoded body (none when decoding fails). -/
structure WebhookRequest where
  apiKey : String
  idempotencyKey : String
  body : Option WebHookRequest

/-- Everything `WebhookHandler` draws from outside during one run. -/
structure WebhookEnv where
  auth : GoResult ValidateResponse
  now : Time
  eventId : String
  eventInsertErr : Option String
  cancelUpdateErr : Option String
  slotFreeErr : Option String
  releaseSlot : GoResult ReleaseSlotResponse
  confirmUpdateErr : Option String

/-- The zero value of `WebHookResponse`. -/
def zeroWebHookResponse : WebHookResponse :=
  webhookError "" "" ""

/-- Encode an error document after `WriteHeader(code)`; the status stays 200 when a body was
already written. -/
def respond {β : Type} (written : List β) (code : Nat) (body : β) : Reply β :=
  { panicked := false, status := if written.isEmpty then code else 200,
    bodies := written ++ [body] }

/-- The appointment lookup of lines 603 and 644: no row, or a NULL `external_calendar_id`
scanned into a Go string, is an error. -/
def appointmentQuery (db : Store) (appointmentID : String) :
    Except String (String × String × Time × Time × String) :=
  match db.coach_appointments.find? (fun a => a.id = appointmentID) with
  | none => .error "sql: no rows in result set"
  | some a =>
    match a.external_calendar_id with
    | none => .error
      ("sql: Scan error on column index 4, name \"external_calendar_id\": " ++
        "converting NULL to string is unsupported")
    | some blockID => .ok (a.coach_id, a.calendar_id, a.start_time, a.end_time, blockID)

/-- The cancellation update of lines 605-606. -/
def appointmentCancellation (db : Store) (appointmentID : String) (now : Time) : Store :=
  { db with coach_appointments := db.coach_appointments.map (fun a =>
    if a.id = appointmentID then
      { a with status := "cancelled", updated_at := some now, cancelled_at := some now,
               webhook_attempts := a.webhook_attempts + 1, webhook_last_attempt := some now }
    else a) }

/-- The confirmation update of lines 608-609. -/
def appointmentConfirmed (db : Store) (appointmentID : String) (now : Time) : Store :=
  { db with coach_appointments := db.coach_appointments.map (fun a =>
    if a.id = appointmentID then
      { a with updated_at := some now, confirmed_at := some now,
               webhook_attempts := a.webhook_attempts + 1, webhook_last_attempt := some now }
    else a) }

/-- The slot update of lines 611-612. -/
def slotFreeing (db : Store) (coachID : String) (startTime endTime now : Time) : Store :=
  { db with coach_slots := db.coach_slots.map (fun s =>
    if s.coach_id = coachID ∧ s.start_time ≥ startTime ∧ s.start_time < endTime
    then { s with available := true, updated_at := now } else s) }

/-- The insert of lines 614-616 and 632. -/
def webhookEventInsert (db : Store) (row : WebhookEventRow) : Store :=
  { db with webhook_events := db.webhook_events ++ [row] }

/-- Lines 709-716: build the acknowledgment, store it under the idempotency key, encode it. -/
def webhookAck (w : World) (written : List WebHookResponse) (idempotencyKey : String)
    (env : WebhookEnv) : World × Reply WebHookResponse :=
  let webHookResponse : WebHookResponse :=
    { Error := "", Message := "", ErrorDetails := "", Received := true, EventID := env.eventId }
  let w := w.log (.cacheSet idempotencyKey)
  let w := { w with rdb := (SetIdempotencyKey w.rdb env.now idempotencyKey webHookResponse).1 }
  (w, { panicked := false, status := 200, bodies := written ++ [webHookResponse] })

/-- Lines 592-716: decode the body, record the event, look the appointment up, apply the
event and acknowledge. `written` holds what line 589 already encoded. -/
def webhookProcess (w : World) (written : List WebHookResponse) (r : WebhookRequest)
    (env : WebhookEnv) : World × Reply WebHookResponse :=
  match r.body with
  | none => (w, respond written 400 (webhookError "VAIDATION_ERROR" "Invalid request body"
      "invalid character"))
  | some req =>
    let w := w.log (.storeWrite "webhook_events")
    let event : WebhookEventRow :=
      { id := env.eventId, event_type := req.EventType, event_source := "webhook",
        payload := req, last_attempt := env.now, processed_at := env.now,
        created_at := env.now }
    let w :=
      match env.eventInsertErr with
      | some _ => w
      | none => { w with db := webhookEventInsert w.db event }
    let w := w.log (.storeRead "coach_appointments")
    match appointmentQuery w.db req.AppointmentID with
    | .error e => (w, respond written 500 (webhookError "INTERNAL_ERROR" "Database failure" e))
    | .ok (coachID, _, startTime, endTime, blockID) =>
      if req.EventType = "appointment.cancelled" then
        let w := w.log (.storeWrite "coach_appointments")
        match env.cancelUpdateErr with
        | some e => (w, respond written 500 (webhookError "INTERNAL_ERROR" "Database failure" e))
        | none =>
          let w := { w with db := appointmentCancellation w.db req.AppointmentID env.now }
          let w := w.log (.storeWrite "coach_slots")
          match env.slotFreeErr with
          | some e =>
            (w, respond written 500 (webhookError "INTERNAL_ERROR" "Database failure" e))
          | none =>
            let w := { w with db := slotFreeing w.db coachID startTime endTime env.now }
            let w := w.log (.calendarReleaseSlot coachID blockID)
            match env.releaseSlot with
            | (_, some e) =>
              (w, respond written 502 (webhookError "GATEWAY_ERROR"
                "Failed to send a request to block slot to calendar" e))
            | (none, none) => (w, panicReply)
            | (some _, none) => webhookAck w written r.idempotencyKey env
      else if req.EventType = "appointment.confirmed" then
        let w := w.log (.storeWrite "coach_appointments")
        match env.confirmUpdateErr with
        | some e => (w, respond written 500 (webhookError "INTERNAL_ERROR" "Database failure" e))
        | none =>
          let w := { w with db := appointmentConfirmed w.db req.AppointmentID env.now }
          webhookAck w written r.idempotencyKey env
      else webhookAck w written r.idempotencyKey env

/-- Go `(*SchedulingHandler).WebhookHandler`. -/
def WebhookHandler (w : World) (r : WebhookRequest) (env : WebhookEnv) :
    World × Reply WebHookResponse :=
  if r.apiKey = "" then
    (w, respond [] 400 (webhookError "VALIDATION_ERROR" "X-API-Key Header is missing" ""))
  else
    let w := w.log (.authValidate r.apiKey)
    match env.auth with
    | (none, _) => (w, panicReply)
    | (some _, some e) =>
      (w, respond [] 502 (webhookError "DOWNSTREAM_ERROR" "Downstream service failure" e))
    | (some authApiValidationResponse, none) =>
      if authApiValidationResponse.Valid = false then
        (w, respond [] 401 (webhookError "VALIDATION_ERROR" "Invalid API Key" ""))
      else if r.idempotencyKey = "" then
        (w, respond [] 400 (webhookError "VAIDATION_ERROR"
          "Invalid request header: No X-Idempotency-Key" ""))
      else
        let w := w.log (.cacheGet r.idempotencyKey)
        match CheckIdempotency w.rdb env.now r.idempotencyKey (.value zeroWebHookResponse) with
        | (true, response) => webhookProcess w response.toList r env
        | (false, _) => webhookProcess w [] r env

/-! ## Predicates used in the statements -/

/-- The loop invariant of the selection: `top` sits at some position of `l`, no element of
`l` has a greater score, and every element before that position has a strictly smaller one. -/
def IsFirstMax (l : List Coach) (top : Coach) : Prop :=
  ∃ i, l[i]? = some top ∧ (∀ c ∈ l, c.Score ≤ top.Score) ∧
    ∀ (j : Nat) (c : Coach), j < i → l[j]? = some c → c.Score < top.Score

/-- The `scheduled` appointments of a coach that start at a given instant. -/
def scheduledAt (db : Store) (coachID : String) (t : Time) : List AppointmentRow :=
  db.coach_appointments.filter (fun a =>
    a.coach_id = coachID ∧ a.start_time = t ∧ a.status = "scheduled")

/-- No double booking: at most one `scheduled` appointment per (coach, start time). -/
def NoDoubleBooking (db : Store) : Prop :=
  ∀ (coachID : String) (t : Time), (scheduledAt db coachID t).length ≤ 1

/-! ## Concrete scenarios -/

/-- A coach whose daily limit is one appointment. -/
def coachAda : Coach :=
  { ID := "coach-a", Name := "Ada", Email := "ada@example.org", Score := 9,
    MaxDailyAppointments := 1, WorkingHoursStart := 9 * hour, WorkingHoursEnd := 17 * hour,
    Timezone := "UTC" }

/-- A coach with room for three appointments a day. -/
def coachBen : Coach :=
  { ID := "coach-b", Name := "Ben", Email := "ben@example.org", Score := 5,
    MaxDailyAppointments := 3, WorkingHoursStart := 9 * hour, WorkingHoursEnd := 17 * hour,
    Timezone := "UTC" }

/-- Ada is booked at 10:00 on day zero; both references to the outside are recorded. -/
def adaAtTen : AppointmentRow :=
  { id := "appt-1", coach_id := "coach-a", calendar_id := "cal-1", contact_id := "user-0",
    title := "", start_time := 10 * hour, end_time := 10 * hour + 30 * minute,
    status := "scheduled", source := "api", crm_contact_id := some "crm-0",
    external_calendar_id := some "blk-0", updated_at := none, cancelled_at := none,
    confirmed_at := none, webhook_attempts := 0, webhook_last_attempt := none }

/-- Two coaches on one 30-minute calendar; Ada is booked at 10:00 and has reached her
daily limit, Ben is free at 10:00. -/
def busyStore : Store :=
  { coaches := [coachAda, coachBen],
    calendars := [{ id := "cal-1", name := "Intro", slot_duration := 30 }],
    coach_calendars := [{ coach_id := "coach-a", calendar_id := "cal-1" },
                        { coach_id := "coach-b", calendar_id := "cal-1" }],
    coach_slots := [{ coach_id := "coach-a", start_time := 10 * hour, available := false,
                      updated_at := 0 },
                    { coach_id := "coach-b", start_time := 10 * hour, available := true,
                      updated_at := 0 }],
    coach_appointments := [adaAtTen],
    distribution_log := [],
    webhook_events := [] }

/-- The world around `busyStore`: empty cache, empty trace. -/
def busyWorld : World :=
  { db := busyStore, rdb := [], trace := [] }

/-- A booking request for the calendar at 10:00 on day zero. -/
def tenOClockRequest : BookRequest :=
  { apiKey := "key-1", idempotencyKey := "",
    body := some { CalendarID := "cal-1", ContactEmail := "pat@example.org",
                   ContactName := "Pat", StartTime := 10 * hour, StartOffset := 0,
                   TimeZone := "UTC",
                   Notes := "first session" } }

/-- An environment in which every collaborator answers and no statement fails. -/
def calmEnv : BookEnv :=
  { auth := (some { Valid := true, Error := "", KeyType := "production" }, none),
    now := 8 * hour, appointmentID := "appt-2", contactUUID := "c-2", newIdemKey := "idem-2",
    beginTxErr := none, countErr := fun _ => none, insertErr := none, slotUpdateErr := none, logInsertErr := none,
    commitErr := none,
    crm := (some { Success := true, CrmID := "crm-2", ProcessedAt := "", Message := "" }, none),
    crmIdUpdateErr := none,
    blockSlot := (some { Success := true, CoachId := "coach-a", StartTime := 10 * hour,
                         EndTime := 10 * hour + 30 * minute, BlockedAt := 8 * hour,
                         BlockId := "blk-2" }, none),
    blockIdUpdateErr := none }

/-- One coach on the calendar, free at 10:00. -/
def soloStore : Store :=
  { coaches := [coachBen],
    calendars := [{ id := "cal-1", name := "Intro", slot_duration := 30 }],
    coach_calendars := [{ coach_id := "coach-b", calendar_id := "cal-1" }],
    coach_slots := [{ coach_id := "coach-b", start_time := 10 * hour, available := true,
                      updated_at := 0 }],
    coach_appointments := [],
    distribution_log := [],
    webhook_events := [] }

/-- The world around `soloStore`. -/
def soloWorld : World :=
  { db := soloStore, rdb := [], trace := [] }

/-- The store holds a `scheduled` appointment with this id for this coach and start time. -/
def Booked (db : Store) (appointmentID coachID : String) (start : Time) : Prop :=
  ∃ a ∈ db.coach_appointments,
    a.id = appointmentID ∧ a.coach_id = coachID ∧ a.start_time = start ∧ a.status = "scheduled"

/-- Every slot of the coach that starts in `[start, endTime)` is unavailable. -/
def SlotsClosed (db : Store) (coachID : String) (start endTime : Time) : Prop :=
  ∀ s ∈ db.coach_slots,
    s.coach_id = coachID → start ≤ s.start_time → s.start_time < endTime → s.available = false

/-- The appointment row written by lines 439-443. -/
def newAppointmentRow (req : BookAppointmentRequest) (env : BookEnv) (top : Coach)
    (endTime : Time) : AppointmentRow :=
  { id := env.appointmentID, coach_id := top.ID, calendar_id := req.CalendarID,
    contact_id := "user-" ++ env.contactUUID, title := req.Notes,
    start_time := req.StartTime, end_time := endTime, status := "scheduled",
    source := "api", crm_contact_id := none, external_calendar_id := none,
    updated_at := none, cancelled_at := none, confirmed_at := none,
    webhook_attempts := 0, webhook_last_attempt := none }

/-- The store right after a successful commit: the three writes of lines 439-462 applied. -/
def committedStore (db : Store) (req : BookAppointmentRequest) (env : BookEnv) (top : Coach)
    (endTime : Time) (reason : String) : Store :=
  { db with
    coach_appointments := db.coach_appointments ++ [newAppointmentRow req env top endTime],
    coach_slots := db.coach_slots.map (fun s =>
      if s.coach_id = top.ID ∧ s.start_time ≥ req.StartTime ∧ s.start_time < endTime
      then { s with available := false, updated_at := env.now } else s),
    distribution_log := db.distribution_log ++
      [{ appointment_id := env.appointmentID, coaches_considered := "[]",
         selected_coach_id := top.ID, selection_reason := reason,
         distribution_score := 1 }] }

/-- An environment in which the CRM call returns an error. -/
def crmDownEnv : BookEnv :=
  { calmEnv with crm := (none, some "client error: 400, Body: rejected") }

/-- An environment in which the slot update inside the transaction fails. -/
def slotFaultEnv : BookEnv :=
  { calmEnv with slotUpdateErr := some "pq: canceling statement due to statement timeout" }

/-- A calendar that no coach has. -/
def lonelyStore : Store :=
  { coaches := [coachAda],
    calendars := [{ id := "cal-1", name := "Intro", slot_duration := 30 }],
    coach_calendars := [],
    coach_slots := [],
    coach_appointments := [],
    distribution_log := [],
    webhook_events := [] }

/-- The world around `lonelyStore`. -/
def lonelyWorld : World :=
  { db := lonelyStore, rdb := [], trace := [] }

/-- The acknowledgment of an earlier delivery. -/
def storedAck : WebHookResponse :=
  { Error := "", Message := "", ErrorDetails := "", Received := true, EventID := "event-1" }

/-- The world of a redelivery: Ada is booked at 10:00 and the acknowledgment of the first
delivery was stored under `evt-key-1` at instant zero. -/
def replayWorld : World :=
  { db := busyStore, rdb := (SetIdempotencyKey [] 0 "evt-key-1" storedAck).1, trace := [] }

/-- A redelivered cancellation of Ada's appointment with the same idempotency key. -/
def replayRequest : WebhookRequest :=
  { apiKey := "key-1", idempotencyKey := "evt-key-1",
    body := some { EventType := "appointment.cancelled", AppointmentID := "appt-1" } }

/-- A webhook run nine hours later in which every collaborator answers. -/
def webhookCalmEnv : WebhookEnv :=
  { auth := (some { Valid := true, Error := "", KeyType := "production" }, none),
    now := 9 * hour, eventId := "event-2", eventInsertErr := none, cancelUpdateErr := none,
    slotFreeErr := none,
    releaseSlot := (some { Success := true, CoachId := "coach-a", ReleasedAt := 9 * hour,
                           BlockId := "blk-0" }, none),
    confirmUpdateErr := none }

/-- A delivery without the idempotency header. -/
def noIdemRequest : WebhookRequest :=
  { apiKey := "key-1", idempotencyKey := "",
    body := some { EventType := "appointment.confirmed", AppointmentID := "appt-1" } }

/-- A delivery of an event type the handler does not know, naming no existing appointment. -/
def strangerRequest : WebhookRequest :=
  { apiKey := "key-1", idempotencyKey := "evt-key-9",
    body := some { EventType := "appointment.rescheduled", AppointmentID := "appt-404" } }

/-- A delivery of an event type the handler does not know, naming Ada's appointment. -/
def rescheduleRequest : WebhookRequest :=
  { apiKey := "key-1", idempotencyKey := "evt-key-9",
    body := some { EventType := "appointment.rescheduled", AppointmentID := "appt-1" } }

/-! ## Outbound clients (`internal/clients`) -/

/-- What one HTTP attempt ends in: a transport error, or a response with its status code and
its body decoded into the expected shape (none when the body does not decode). -/
inductive HttpOutcome (α : Type) where
  | transportError (e : String)
  | response (status : Nat) (decoded : Option α)

/-- The two environment variables of the delivery loops as `strconv.Atoi` reads them (none
when the variable is not a number). -/
structure RetryConfig where
  retryAttempts : Option Int
  retryDelayMs : Option Int

/-- What a delivery loop did: whether it panicked, the error it returned, the response it
decoded, the number of HTTP attempts and the durations it slept. -/
structure Delivery (α : Type) where
  panicked : Bool
  err : Option String
  out : Option α
  attempts : Nat
  sleeps : List Time

/-- Go `time.Duration(webhookDelay) * time.Millisecond`. -/
def baseDelayOf (webhookDelay : Int) : Time :=
  wrapInt64 (webhookDelay * 1000000)

/-- The backoff of the delivery loops: `sleep := baseDelay * (1 << attempt)`, then
`jitter := rand.Int63n(int64(sleep / 2))`, then `time.Sleep(sleep + jitter)`. The result
is the duration slept; none when `rand.Int63n` panics because its argument is not positive.
`random` is the raw random number the jitter is reduced from. -/
def backoff (baseDelay : Time) (attempt : Nat) (random : Nat) : Option Time :=
  let sleep := wrapInt64 (baseDelay * wrapInt64 (2 ^ attempt))
  let n := sleep.tdiv 2
  if n ≤ 0 then none else some (wrapInt64 (sleep + (random : Int) % n))

/-- The loop of `CRMClient.postWithIdempotency` (crm-webhook.go 109-139) with `remaining`
iterations left, about to make attempt number `attempt`. -/
def postLoop {α : Type} (baseDelay : Time) (outcomes : Nat → HttpOutcome α)
    (random : Nat → Nat) : Nat → Nat → Option String → List Time → Delivery α
  | 0, attempt, lastErr, sleeps =>
    { panicked := false, err := lastErr, out := none, attempts := attempt, sleeps := sleeps }
  | remaining + 1, attempt, lastErr, sleeps =>
    match outcomes attempt with
    | .transportError e =>
      match backoff baseDelay attempt (random attempt) with
      | none =>
        { panicked := true, err := none, out := none, attempts := attempt + 1,
          sleeps := sleeps }
      | some d => postLoop baseDelay outcomes random remaining (attempt + 1) (some e)
          (sleeps ++ [d])
    | .response status decoded =>
      if status ≥ 500 then
        match backoff baseDelay attempt (random attempt) with
        | none =>
          { panicked := true, err := none, out := none, attempts := attempt + 1,
            sleeps := sleeps }
        | some d => postLoop baseDelay outcomes random remaining (attempt + 1) lastErr
            (sleeps ++ [d])
      else if status ≥ 400 then
        { panicked := false, err := some "client error", out := none,
          attempts := attempt + 1, sleeps := sleeps }
      else
        match decoded with
        | none =>
          { panicked := false, err := some "failed to decode response", out := none,
            attempts := attempt + 1, sleeps := sleeps }
        | some v =>
          { panicked := false, err := none, out := some v, attempts := attempt + 1,
            sleeps := sleeps }

/-- Go `(*CRMClient).postWithIdempotency` (crm-webhook.go 87-140): `outcomes i` is what
attempt `i` ends in, `random i` the random number drawn after it. -/
def postWithIdempotency {α : Type} (cfg : RetryConfig) (outcomes : Nat → HttpOutcome α)
    (random : Nat → Nat) : Delivery α :=
  match cfg.retryAttempts with
  | none =>
    { panicked := false, err := some "strconv.Atoi: invalid syntax", out := none,
      attempts := 0, sleeps := [] }
  | some maxAttempts =>
    match cfg.retryDelayMs with
    | none =>
      { panicked := false, err := some "strconv.Atoi: invalid syntax", out := none,
        attempts := 0, sleeps := [] }
    | some webhookDelay =>
      postLoop (baseDelayOf webhookDelay) outcomes random maxAttempts.toNat 0 none []

/-- The zero `AppointmentCreatedResponse`. -/
def zeroAppointmentCreatedResponse : AppointmentCreatedResponse :=
  { Success := false, CrmID := "", ProcessedAt := "", Message := "" }

/-- Go `(*CRMClient).SendAppointmentCreated` (crm-webhook.go 35-44); none when the delivery
loop panicked. -/
def SendAppointmentCreated (cfg : RetryConfig)
    (outcomes : Nat → HttpOutcome AppointmentCreatedResponse) (random : Nat → Nat) :
    Option (GoResult AppointmentCreatedResponse) :=
  let d := postWithIdempotency cfg outcomes random
  if d.panicked then none
  else
    match d.err with
    | some e => some (none, some e)
    | none => some (some (d.out.getD zeroAppointmentCreatedResponse), none)

/-- The loop of `AvailabilityClient.BlockSlot` (calendar-api.go 112-138): a status above 500
is retried, any other status from 400 on returns `nil, err` with the nil `err` of the
successful `Post`, and only a transport error sets `lastErr`. -/
def blockSlotLoop (baseDelay : Time) (outcomes : Nat → HttpOutcome BlockSlotResponse)
    (random : Nat → Nat) : Nat → Nat → Option String → List Time → Delivery BlockSlotResponse
  | 0, attempt, lastErr, sleeps =>
    { panicked := false, err := lastErr, out := none, attempts := attempt, sleeps := sleeps }
  | remaining + 1, attempt, lastErr, sleeps =>
    match outcomes attempt with
    | .transportError e =>
      match backoff baseDelay attempt (random attempt) with
      | none =>
        { panicked := true, err := none, out := none, attempts := attempt + 1,
          sleeps := sleeps }
      | some d => blockSlotLoop baseDelay outcomes random remaining (attempt + 1) (some e)
          (sleeps ++ [d])
    | .response status decoded =>
      if status > 500 then
        match backoff baseDelay attempt (random attempt) with
        | none =>
          { panicked := true, err := none, out := none, attempts := attempt + 1,
            sleeps := sleeps }
        | some d => blockSlotLoop baseDelay outcomes random remaining (attempt + 1) lastErr
            (sleeps ++ [d])
      else if status ≥ 400 then
        { panicked := false, err := none, out := none, attempts := attempt + 1,
          sleeps := sleeps }
      else
        match decoded with
        | none =>
          { panicked := false, err := some "failed to decode response", out := none,
            attempts := attempt + 1, sleeps := sleeps }
        | some v =>
          { panicked := false, err := none, out := some v, attempts := attempt + 1,
            sleeps := sleeps }

/-- Go `(*AvailabilityClient).BlockSlot` (calendar-api.go 85-141): the returned pair is
`(out, err)` of the delivery. -/
def BlockSlot (cfg : RetryConfig) (outcomes : Nat → HttpOutcome BlockSlotResponse)
    (random : Nat → Nat) : Delivery BlockSlotResponse :=
  match cfg.retryAttempts with
  | none =>
    { panicked := false, err := some "strconv.Atoi: invalid syntax", out := none,
      attempts := 0, sleeps := [] }
  | some maxAttempts =>
    match cfg.retryDelayMs with
    | none =>
      { panicked := false, err := some "strconv.Atoi: invalid syntax", out := none,
        attempts := 0, sleeps := [] }
    | some webhookDelay =>
      blockSlotLoop (baseDelayOf webhookDelay) outcomes random maxAttempts.toNat 0 none []

/-- Go `(*AuthClient).ValidateKey` (auth-api.go 31-58): the status code is not inspected, a
transport error or an undecodable body returns `nil, err`. -/
def ValidateKey : HttpOutcome ValidateResponse → GoResult ValidateResponse
  | .transportError e => (none, some e)
  | .response _ none => (none, some "invalid character")
  | .response _ (some out) => (some out, none)

/-! ## Slot synchronizer: `splitInto15MinStarts` and `GetAvailability` (`scheduling.go` 31-196) -/

/-- Go `structs.Slot`. -/
structure Slot where
  StartTime : Time
  EndTime : Time
  Available : Bool
deriving DecidableEq

/-- Go `structs.GetAvailabilityResponse`. -/
structure GetAvailabilityResponse where
  CoachID : String
  Slots : List Slot
  TotalAvailable : Int
deriving DecidableEq

/-- Go `structs.AvailabilitySlot`. -/
structure AvailabilitySlot where
  CoachID : String
  StartTime : Time
  EndTime : Time
deriving DecidableEq

/-- Go `structs.AvailabilityResponse`. -/
structure AvailabilityResponse extends BaseResponse where
  Slots : List AvailabilitySlot
  TotalAvailable : Nat
deriving DecidableEq

/-- Go `t.Truncate(time.Minute)`: round down to a whole minute. -/
def truncateMinute (t : Time) : Time :=
  t - t % minute

/-- The loop of lines 35-38: while `t` is before `end`, append `t` and advance by 15
minutes. `fuel` bounds the number of iterations. -/
def splitLoop (endTime : Time) : Nat → Time → List Time
  | 0, _ => []
  | fuel + 1, t =>
    if t < endTime then t :: splitLoop endTime fuel (t + 15 * minute) else []

/-- Go `splitInto15MinStarts`. The loop is run with as many iterations as the window has
nanoseconds, which it never uses up. -/
def splitInto15MinStarts (start endTime : Time) : List Time :=
  splitLoop endTime (endTime - truncateMinute start).toNat (truncateMinute start)

/-- What `GetAvailability` writes to the response: a JSON document, or the plain text of
`http.Error`. -/
inductive AvailabilityBody where
  | json (r : AvailabilityResponse)
  | text (s : String)
deriving DecidableEq

/-- The HTTP request as `GetAvailability` reads it: the API key header (empty when absent)
and the `days` query parameter as `strconv.Atoi` reads it (none when absent or not a
number). -/
structure AvailabilityRequest where
  apiKey : String
  days : Option Int

/-- Everything `GetAvailability` draws from outside during one run. -/
structure AvailabilityEnv where
  auth : GoResult ValidateResponse
  now : Time
  coachesQueryErr : Option String
  calendar : String → GoResult GetAvailabilityResponse
  upsertErr : String → Time → Option String
  selectErr : Option String

/-- The zero `AvailabilityResponse` with the error fields set. -/
def availabilityError (code message details : String) : AvailabilityBody :=
  .json { Error := code, Message := message, ErrorDetails := details, Slots := [],
          TotalAvailable := 0 }

/-- The `EXISTS` of lines 141-146: a `scheduled` appointment of the coach starts exactly at
the slot's start time. -/
def scheduledStartsAt (db : Store) (coachID : String) (st : Time) : Bool :=
  db.coach_appointments.any (fun a =>
    a.coach_id = coachID ∧ a.start_time = st ∧ a.status = "scheduled")

/-- The upsert of lines 136-150: a new row takes the reported flag; on conflict the flag
becomes false when a `scheduled` appointment starts at the slot, else the reported flag. -/
def upsertSlot (db : Store) (coachID : String) (st : Time) (available : Bool) (now : Time) :
    Store :=
  if db.coach_slots.any (fun s => s.coach_id = coachID ∧ s.start_time = st) then
    { db with coach_slots := db.coach_slots.map (fun s =>
      if s.coach_id = coachID ∧ s.start_time = st then
        { s with available := if scheduledStartsAt db coachID st then false else available,
                 updated_at := now }
      else s) }
  else
    { db with coach_slots := db.coach_slots ++
      [{ coach_id := coachID, start_time := st, available := available, updated_at := now }] }

/-- Lines 130-156 for one reported window: every 15-minute start is upserted; a failing
upsert is logged and skipped. -/
def syncSlot (env : AvailabilityEnv) (coachID : String) (db : Store) (s : Slot) : Store :=
  (splitInto15MinStarts s.StartTime s.EndTime).foldl (fun db st =>
    match env.upsertErr coachID st with
    | some _ => db
    | none => upsertSlot db coachID st s.Available env.now) db

/-- The loop of lines 123-157 over the coach ids: a coach whose calendar call returns an
error is skipped; a nil response with a nil error is dereferenced (the flag reports the
panic). -/
def syncCoaches (env : AvailabilityEnv) : List String → World → World × Bool
  | [], w => (w, false)
  | coachID :: rest, w =>
    let w := w.log (.calendarGetAvailability coachID)
    match env.calendar coachID with
    | (_, some _) => syncCoaches env rest w
    | (none, none) => (w, true)
    | (some avail, none) =>
      let w := w.logs ((avail.Slots.flatMap (fun s =>
        splitInto15MinStarts s.StartTime s.EndTime)).map (fun _ => .storeWrite "coach_slots"))
      syncCoaches env rest { w with db := avail.Slots.foldl (syncSlot env coachID) w.db }

/-- The order of the final query: by start time, then by coach id. -/
def slotOrder (a b : SlotRow) : Prop :=
  a.start_time < b.start_time ∨ (a.start_time = b.start_time ∧ a.coach_id ≤ b.coach_id)

instance slotOrderDecidable : DecidableRel slotOrder :=
  fun a b => by unfold slotOrder; exact inferInstance

/-- The query of lines 159-164: the available slots starting in `[now, windowEnd)`. -/
def availableSlotsQuery (db : Store) (now windowEnd : Time) : List SlotRow :=
  (db.coach_slots.filter (fun s =>
    s.start_time ≥ now ∧ s.start_time < windowEnd ∧ s.available = true)).insertionSort slotOrder

/-- Lines 85-90: the lookahead in days, 7 unless the parameter is a positive number. -/
def lookaheadDays : Option Int → Int
  | some d => if d > 0 then d else 7
  | none => 7

/-- Go `(*SchedulingHandler).GetAvailability`. -/
def GetAvailability (w : World) (r : AvailabilityRequest) (env : AvailabilityEnv) :
    World × Reply AvailabilityBody :=
  if r.apiKey = "" then
    (w, { panicked := false, status := 400, bodies :=
      [availabilityError "VALIDATION_ERROR" "X-API-Key Header is missing" ""] })
  else
    let w := w.log (.authValidate r.apiKey)
    match env.auth with
    | (none, _) => (w, panicReply)
    | (some _, some e) =>
      (w, { panicked := false, status := 502, bodies :=
        [availabilityError "DOWNSTREAM_ERROR" "Downstream service failure" e] })
    | (some authApiValidationResponse, none) =>
      if authApiValidationResponse.Valid = false then
        (w, { panicked := false, status := 401, bodies :=
          [availabilityError "VALIDATION_ERROR" "Invalid API Key" ""] })
      else
        let days := lookaheadDays r.days
        let windowEnd := env.now + days * dayLength
        let w := w.log (.storeRead "coaches")
        match env.coachesQueryErr with
        | some e =>
          (w, { panicked := false, status := 500, bodies :=
            [availabilityError "INTERNAL_ERROR" "Unhandled error" e] })
        | none =>
          let coachIDs := w.db.coaches.map (fun c => c.ID)
          match syncCoaches env coachIDs w with
          | (w, true) => (w, panicReply)
          | (w, false) =>
            let w := w.log (.storeRead "coach_slots")
            match env.selectErr with
            | some _ =>
              (w, { panicked := false, status := 500, bodies :=
                [.text "failed to query slots"] })
            | none =>
              let respSlots := (availableSlotsQuery w.db env.now windowEnd).map (fun s =>
                ({ CoachID := s.coach_id, StartTime := s.start_time,
                   EndTime := s.start_time + 15 * minute } : AvailabilitySlot))
              (w, { panicked := false, status := 200, bodies :=
                [.json { Error := "", Message := "", ErrorDetails := "", Slots := respSlots,
                         TotalAvailable := respSlots.length }] })

/-! ## Fairness scorer (`scheduling.go` 721-805) -/

/-- Go `ComputeFairnessScore`, over any number type with the arithmetic the function uses;
`sqrt` stands for `math.Sqrt`. -/
def ComputeFairnessScore {F : Type} [Zero F] [One F] [Add F] [Sub F] [Mul F] [Div F]
    [NatCast F] [LT F] [∀ a b : F, Decidable (a < b)] (sqrt : F → F)
    (utilizations : List F) : F :=
  if utilizations.length = 0 then 0
  else
    let sum := utilizations.foldl (fun sum u => sum + u) 0
    let mean := sum / (utilizations.length : F)
    let variance := utilizations.foldl (fun variance u =>
      let diff := u - mean
      variance + diff * diff) 0
    let variance := variance / (utilizations.length : F)
    let stdev := sqrt variance
    let score := 1 - stdev
    if score < 0 then 0 else score

/-- The count query of lines 730-731 for one coach: every appointment of the coach whose
start falls on the current day. -/
def appointmentsCount (db : Store) (coachID : String) (today : Time) : Nat :=
  (db.coach_appointments.filter (fun a =>
    appointmentDay a.start_time = today ∧ a.coach_id = coachID)).length

/-- The utilization list of lines 757-772: for each coach, today's appointment count
divided by `MaxDailyAppointments`, both converted to the number type. -/
def coachUtilizations {F : Type} [Div F] [NatCast F] [IntCast F] (db : Store) (today : Time) :
    List F :=
  db.coaches.map (fun coach =>
    ((appointmentsCount db coach.ID today : Nat) : F) / ((coach.MaxDailyAppointments : Int) : F))

/-- The `FairnessScore` that `GetCoachDistribution` puts in its response (lines 774-775). -/
def distributionFairnessScore {F : Type} [Zero F] [One F] [Add F] [Sub F] [Mul F] [Div F]
    [NatCast F] [IntCast F] [LT F] [∀ a b : F, Decidable (a < b)] (sqrt : F → F)
    (db : Store) (today : Time) : F :=
  ComputeFairnessScore sqrt (coachUtilizations db today)

/-- An outcome the delivery loop of `postWithIdempotency` retries: a transport error or a
status from 500 on. -/
def Retryable {α : Type} : HttpOutcome α → Prop
  | .transportError _ => True
  | .response status _ => status ≥ 500

/-! ## Delivery scenarios -/

/-- Three attempts, one second of base delay. -/
def steadyConfig : RetryConfig :=
  { retryAttempts := some 3, retryDelayMs := some 1000 }

/-- Three attempts, `WEBHOOK_RETRY_DELAY_MS=0`. -/
def zeroDelayConfig : RetryConfig :=
  { retryAttempts := some 3, retryDelayMs := some 0 }

/-- The CRM acknowledgment of a delivered event. -/
def crmAck : AppointmentCreatedResponse :=
  { Success := true, CrmID := "crm-7", ProcessedAt := "09:00", Message := "" }

/-- A 503 at the first attempt, then 200 with a decodable body. -/
def busyThenOk : Nat → HttpOutcome AppointmentCreatedResponse :=
  fun i => if i = 0 then .response 503 none else .response 200 (some crmAck)

/-- A 503 at the first attempt, then 404. -/
def busyThenRejected : Nat → HttpOutcome AppointmentCreatedResponse :=
  fun i => if i = 0 then .response 503 none else .response 404 none

/-- A 503 at every attempt. -/
def alwaysBusy : Nat → HttpOutcome AppointmentCreatedResponse :=
  fun _ => .response 503 none

/-- The random source that always draws zero. -/
def noJitter : Nat → Nat :=
  fun _ => 0

/-- The calendar answers the block request with 404. -/
def blockRejected : Nat → HttpOutcome BlockSlotResponse :=
  fun _ => .response 404 none

/-- The calendar answers every block request with 503. -/
def blockBusy : Nat → HttpOutcome BlockSlotResponse :=
  fun _ => .response 503 none

/-- A booking run whose CRM result is what `SendAppointmentCreated` returns when the CRM
answers 503 to every attempt. -/
def crmExhaustedEnv : BookEnv :=
  { calmEnv with
    crm := (SendAppointmentCreated steadyConfig alwaysBusy noJitter).getD (none, none) }

/-- A booking run whose calendar result is what `BlockSlot` returns on a 404. -/
def blockRejectedEnv : BookEnv :=
  { calmEnv with
    blockSlot := ((BlockSlot steadyConfig blockRejected noJitter).out,
                  (BlockSlot steadyConfig blockRejected noJitter).err) }

/-- A booking run whose calendar result is what `BlockSlot` returns when the calendar
answers 503 to every attempt. -/
def blockExhaustedEnv : BookEnv :=
  { calmEnv with
    blockSlot := ((BlockSlot steadyConfig blockBusy noJitter).out,
                  (BlockSlot steadyConfig blockBusy noJitter).err) }

/-! ## Scenarios for the auth step and the slot synchronizer -/

/-- The auth service cannot be reached. -/
def authUnreachable : HttpOutcome ValidateResponse :=
  .transportError "dial tcp: connection refused"

/-- The auth service answers with a body that is not JSON. -/
def authGarbled : HttpOutcome ValidateResponse :=
  .response 200 none

/-- A `GetAvailability` run in which every collaborator answers; the calendar reports Ada
free from 10:00 to 10:30 and nothing for the other coaches. -/
def calmAvailabilityEnv : AvailabilityEnv :=
  { auth := (some { Valid := true, Error := "", KeyType := "production" }, none),
    now := 8 * hour, coachesQueryErr := none,
    calendar := fun coachID =>
      if coachID = "coach-a" then
        (some { CoachID := "coach-a",
                Slots := [{ StartTime := 10 * hour, EndTime := 10 * hour + 30 * minute,
                            Available := true }],
                TotalAvailable := 1 }, none)
      else (some { CoachID := coachID, Slots := [], TotalAvailable := 0 }, none),
    upsertErr := fun _ _ => none, selectErr := none }

/-- An availability request with a key and the default window. -/
def weekRequest : AvailabilityRequest :=
  { apiKey := "key-1", days := none }

/-- Every `scheduled` appointment has a slot row at its (coach, start time). -/
def StartsHaveRows (db : Store) : Prop :=
  ∀ a ∈ db.coach_appointments, a.status = "scheduled" →
    ∃ s ∈ db.coach_slots, s.coach_id = a.coach_id ∧ s.start_time = a.start_time

/-- No slot row at which a `scheduled` appointment of its coach starts is available. -/
def BookedStartsClosed (db : Store) : Prop :=
  ∀ s ∈ db.coach_slots, scheduledStartsAt db s.coach_id s.start_time = true →
    s.available = false

/-- The invariant the synchronizer keeps. -/
def SyncInv (db : Store) : Prop :=
  StartsHaveRows db ∧ BookedStartsClosed db

/-- Ada is booked from 10:00 to 10:30; both of her slot rows are unavailable, Ben is free. -/
def coveredStore : Store :=
  { busyStore with
    coach_slots := [{ coach_id := "coach-a", start_time := 10 * hour, available := false,
                      updated_at := 0 },
                    { coach_id := "coach-a", start_time := 10 * hour + 15 * minute,
                      available := false, updated_at := 0 },
                    { coach_id := "coach-b", start_time := 10 * hour, available := true,
                      updated_at := 0 }] }

/-- The world around `coveredStore`. -/
def coveredWorld : World :=
  { db := coveredStore, rdb := [], trace := [] }

/-- Ada is booked at 10:00 but the slot table has no row yet. -/
def unsyncedStore : Store :=
  { busyStore with coach_slots := [] }

/-- The window 10:00 to 10:30, reported free. -/
def freeHalfHour : Slot :=
  { StartTime := 10 * hour, EndTime := 10 * hour + 30 * minute, Available := true }

/-- What a `GetAvailability` run from world `w` has to satisfy to keep the synchronizer's
invariant: the invariant holds in the world it leaves, the appointment table is the one of
`w`, and no slot of a JSON response is the start of a `scheduled` appointment. -/
def KeepsBookedStartsClosed (w : World) (out : World × Reply AvailabilityBody) : Prop :=
  StartsHaveRows out.1.db ∧ BookedStartsClosed out.1.db ∧
  out.1.db.coach_appointments = w.db.coach_appointments ∧
  ∀ resp : AvailabilityResponse, AvailabilityBody.json resp ∈ out.2.bodies →
    ∀ sl ∈ resp.Slots, scheduledStartsAt out.1.db sl.CoachID sl.StartTime = false

/-! ## Fairness: the formula of the specification and a number type with NaN -/

/-- The fairness score in the words of the specification: zero for the empty list,
otherwise one minus the population standard deviation, clamped at zero. -/
def fairnessFormula {F : Type} [Field F] [LinearOrder F] (sqrt : F → F) (u : List F) : F :=
  if u.length = 0 then 0
  else
    let n : F := (u.length : F)
    let mean := (1 / n) * u.sum
    max 0 (1 - sqrt ((1 / n) * (u.map (fun x => (x - mean) ^ 2)).sum))

/-- The special values of a `float64` next to its numbers. Arithmetic on numbers is exact:
rounding and overflow are not modelled, only the IEEE 754 rules for NaN, the infinities
and division by zero. -/
inductive F64 where
  | nan
  | posInf
  | negInf
  | num (q : ℚ)
deriving DecidableEq

/-- Addition of `float64` values. -/
def F64.add : F64 → F64 → F64
  | .nan, _ => .nan
  | _, .nan => .nan
  | .posInf, .negInf => .nan
  | .negInf, .posInf => .nan
  | .posInf, _ => .posInf
  | _, .posInf => .posInf
  | .negInf, _ => .negInf
  | _, .negInf => .negInf
  | .num a, .num b => .num (a + b)

/-- Negation of `float64` values. -/
def F64.neg : F64 → F64
  | .nan => .nan
  | .posInf => .negInf
  | .negInf => .posInf
  | .num a => .num (-a)

/-- The infinity with the sign of `positive`. -/
def F64.inf (positive : Bool) : F64 :=
  if positive then .posInf else .negInf

/-- Multiplication of `float64` values. -/
def F64.mul : F64 → F64 → F64
  | .nan, _ => .nan
  | _, .nan => .nan
  | .posInf, .posInf => .posInf
  | .posInf, .negInf => .negInf
  | .negInf, .posInf => .negInf
  | .negInf, .negInf => .posInf
  | .posInf, .num b => if b = 0 then .nan else F64.inf (decide (0 < b))
  | .negInf, .num b => if b = 0 then .nan else F64.inf (decide (b < 0))
  | .num a, .posInf => if a = 0 then .nan else F64.inf (decide (0 < a))
  | .num a, .negInf => if a = 0 then .nan else F64.inf (decide (a < 0))
  | .num a, .num b => .num (a * b)

/-- Division of `float64` values; a zero divisor counts as positive zero. -/
def F64.div : F64 → F64 → F64
  | .nan, _ => .nan
  | _, .nan => .nan
  | .posInf, .num b => F64.inf (decide (0 ≤ b))
  | .negInf, .num b => F64.inf (decide (b < 0))
  | .posInf, _ => .nan
  | .negInf, _ => .nan
  | .num _, .posInf => .num 0
  | .num _, .negInf => .num 0
  | .num a, .num b =>
    if b = 0 then (if a = 0 then .nan else F64.inf (decide (0 < a))) else .num (a / b)

/-- The order of `float64` values: every comparison with NaN is false. -/
def F64.lt : F64 → F64 → Bool
  | .nan, _ => false
  | _, .nan => false
  | .negInf, .negInf => false
  | .negInf, _ => true
  | _, .negInf => false
  | .posInf, _ => false
  | .num _, .posInf => true
  | .num a, .num b => decide (a < b)

/-- Go `math.Sqrt` on the special values; `sqrtNum` stands for the square root of a
non-negative number. -/
def F64.sqrt (sqrtNum : ℚ → ℚ) : F64 → F64
  | .nan => .nan
  | .posInf => .posInf
  | .negInf => .nan
  | .num a => if a < 0 then .nan else .num (sqrtNum a)

instance : Zero F64 := ⟨.num 0⟩

instance : One F64 := ⟨.num 1⟩

instance : Add F64 := ⟨F64.add⟩

instance : Sub F64 := ⟨fun a b => F64.add a (F64.neg b)⟩

instance : Mul F64 := ⟨F64.mul⟩

instance : Div F64 := ⟨F64.div⟩

instance : NatCast F64 := ⟨fun n => .num n⟩

instance : IntCast F64 := ⟨fun n => .num n⟩

instance : LT F64 := ⟨fun a b => F64.lt a b = true⟩

instance (a b : F64) : Decidable (a < b) :=
  inferInstanceAs (Decidable (F64.lt a b = true))

/-- One coach whose daily limit is zero and who has no appointment. -/
def idleStore : Store :=
  { coaches := [{ coachAda with MaxDailyAppointments := 0 }],
    calendars := [], coach_calendars := [], coach_slots := [], coach_appointments := [],
    distribution_log := [], webhook_events := [] }

/-! ## Calendar client: `GetAvailability` (`calendar-api.go` 33-83) -/

/-- The loop of `AvailabilityClient.GetAvailability` (calendar-api.go 54-80): a status from
500 on is retried, any other status from 400 on returns `nil, err` with the nil `err` of
the successful `Get`, and only a transport error sets `lastErr`. -/
def getAvailabilityLoop (baseDelay : Time)
    (outcomes : Nat → HttpOutcome GetAvailabilityResponse) (random : Nat → Nat) :
    Nat → Nat → Option String → List Time → Delivery GetAvailabilityResponse
  | 0, attempt, lastErr, sleeps =>
    { panicked := false, err := lastErr, out := none, attempts := attempt, sleeps := sleeps }
  | remaining + 1, attempt, lastErr, sleeps =>
    match outcomes attempt with
    | .transportError e =>
      match backoff baseDelay attempt (random attempt) with
      | none =>
        { panicked := true, err := none, out := none, attempts := attempt + 1,
          sleeps := sleeps }
      | some d => getAvailabilityLoop baseDelay outcomes random remaining (attempt + 1)
          (some e) (sleeps ++ [d])
    | .response status decoded =>
      if status ≥ 500 then
        match backoff baseDelay attempt (random attempt) with
        | none =>
          { panicked := true, err := none, out := none, attempts := attempt + 1,
            sleeps := sleeps }
        | some d => getAvailabilityLoop baseDelay outcomes random remaining (attempt + 1)
            lastErr (sleeps ++ [d])
      else if status ≥ 400 then
        { panicked := false, err := none, out := none, attempts := attempt + 1,
          sleeps := sleeps }
      else
        match decoded with
        | none =>
          { panicked := false, err := some "failed to decode response", out := none,
            attempts := attempt + 1, sleeps := sleeps }
        | some v =>
          { panicked := false, err := none, out := some v, attempts := attempt + 1,
            sleeps := sleeps }

/-- Go `(*AvailabilityClient).GetAvailability` (calendar-api.go 33-83): the returned pair is
`(out, err)` of the delivery. -/
def AvailabilityClient.GetAvailability (cfg : RetryConfig)
    (outcomes : Nat → HttpOutcome GetAvailabilityResponse) (random : Nat → Nat) :
    Delivery GetAvailabilityResponse :=
  match cfg.retryAttempts with
  | none =>
    { panicked := false, err := some "strconv.Atoi: invalid syntax", out := none,
      attempts := 0, sleeps := [] }
  | some maxAttempts =>
    match cfg.retryDelayMs with
    | none =>
      { panicked := false, err := some "strconv.Atoi: invalid syntax", out := none,
        attempts := 0, sleeps := [] }
    | some webhookDelay =>
      getAvailabilityLoop (baseDelayOf webhookDelay) outcomes random maxAttempts.toNat 0
        none []

/-! ## Stage 2 as the spec words it -/

/-- Modelled from the spec: the count of stage 2, the number of `scheduled` appointments of
the coach on the appointment day that lie within the coach's working hours. -/
def scheduledThatDay (db : Store) (c : Coach) (dayStart : Time) : Nat :=
  (db.coach_appointments.filter (fun a =>
    a.coach_id = c.ID ∧ a.status = "scheduled" ∧
    dayStart + c.WorkingHoursStart ≤ a.start_time ∧
    a.end_time ≤ dayStart + c.WorkingHoursEnd)).length

/-- Modelled from the spec: a candidate survives stage 2 if its count is below
`MaxDailyAppointments`; a candidate with zero matching appointments survives. A candidate
whose count query ends in an error is not counted and does not survive. -/
def survivesStage2 (db : Store) (countErr : String → Option String) (c : Coach)
    (dayStart : Time) : Bool :=
  (countErr c.ID).isNone &&
    (decide (scheduledThatDay db c dayStart = 0) ||
      decide ((scheduledThatDay db c dayStart : Int) < c.MaxDailyAppointments))

/-- Modelled from the spec: stage 3 as the design note asks for it, the survivors of stage 2
whose own availability check is true. -/
def stage3Intended (db : Store) (coachLister : List Coach) (start : Time) : List Coach :=
  coachLister.filter (fun c => isAvailable db c.ID start)

/-! ## Scenarios for the retry threshold and the slot granularity -/

/-- A 500 at the first attempt, then 200 with the body `v`. -/
def serverErrorThenOk {α : Type} (v : α) : Nat → HttpOutcome α :=
  fun i => if i = 0 then .response 500 none else .response 200 (some v)

/-- The calendar acknowledgment of a blocked slot. -/
def blockAck : BlockSlotResponse :=
  { Success := true, CoachId := "coach-a", StartTime := 10 * hour,
    EndTime := 10 * hour + 30 * minute, BlockedAt := 8 * hour, BlockId := "blk-7" }

/-- The calendar report of one free window for Ada. -/
def adaReport : GetAvailabilityResponse :=
  { CoachID := "coach-a",
    Slots := [{ StartTime := 10 * hour, EndTime := 10 * hour + 30 * minute,
                Available := true }],
    TotalAvailable := 1 }

/-- Thirty seconds past 10:07 on day zero. -/
def sevenPastTen : Time :=
  10 * hour + 7 * minute + 30000000000

/-- The window from 10:07:30 to 10:30, reported free. -/
def oddWindow : Slot :=
  { StartTime := sevenPastTen, EndTime := 10 * hour + 30 * minute, Available := true }

/-- A coach whose daily limit is zero. -/
def restingCoach : Coach :=
  { coachAda with MaxDailyAppointments := 0 }

/-- The count query of Ben ends in an error, every other one executes. -/
def benScanFails : String → Option String :=
  fun coachID => if coachID = "coach-b" then some "driver: bad connection" else none

/-- A request for 00:30 on day one, written with the offset +02:00: the instant is 22:30 UTC
on day zero. -/
def halfPastMidnightRequest : BookAppointmentRequest :=
  { CalendarID := "cal-1", ContactEmail := "pat@example.org", ContactName := "Pat",
    StartTime := 22 * hour + 30 * minute, StartOffset := 2 * hour, TimeZone := "Europe/Athens",
    Notes := "" }

/-- The world around `unsyncedStore`. -/
def unsyncedWorld : World :=
  { db := unsyncedStore, rdb := [], trace := [] }

/-- A store without any row. -/
def emptyStore : Store :=
  { coaches := [], calendars := [], coach_calendars := [], coach_slots := [],
    coach_appointments := [], distribution_log := [], webhook_events := [] }

/-- Every slot row of `db` either has the (coach, start time) key of a row of `db0` or
starts on a whole minute. -/
def NewStartsOnMinute (db0 db : Store) : Prop :=
  ∀ row ∈ db.coach_slots,
    (∃ old ∈ db0.coach_slots, old.coach_id = row.coach_id ∧ old.start_time = row.start_time) ∨
    row.start_time % minute = 0

/-! ## Selection (C2) -/

theorem isFirstMax_singleton (first : Coach) : IsFirstMax [first] first := by
  refine ⟨0, rfl, ?_, ?_⟩
  · intro c hc
    rw [List.mem_singleton] at hc
    rw [hc]
  · intro j c hj
    omega

theorem isFirstMax_step (l : List Coach) (top c : Coach) (h : IsFirstMax l top) :
    IsFirstMax (l ++ [c]) (if c.Score > top.Score then c else top) := by
  obtain ⟨i, hi, hmax, hlt⟩ := h
  have hil : i < l.length := by
    rcases Nat.lt_or_ge i l.length with h1 | h1
    · exact h1
    · rw [List.getElem?_eq_none h1] at hi
      cases hi
  by_cases hc : c.Score > top.Score
  · rw [if_pos hc]
    refine ⟨l.length, ?_, ?_, ?_⟩
    · simp
    · intro d hd
      rw [List.mem_append, List.mem_singleton] at hd
      rcases hd with hd | hd
      · exact le_of_lt (lt_of_le_of_lt (hmax d hd) hc)
      · rw [hd]
    · intro j d hj hjd
      rw [List.getElem?_append_left hj] at hjd
      exact lt_of_le_of_lt (hmax d (List.getElem?_mem hjd)) hc
  · rw [if_neg hc]
    refine ⟨i, ?_, ?_, ?_⟩
    · rw [List.getElem?_append_left hil]
      exact hi
    · intro d hd
      rw [List.mem_append, List.mem_singleton] at hd
      rcases hd with hd | hd
      · exact hmax d hd
      · rw [hd]
        exact not_lt.mp hc
    · intro j d hj hjd
      rw [List.getElem?_append_left (lt_trans hj hil)] at hjd
      exact hlt j d hj hjd

theorem isFirstMax_foldl (rest l : List Coach) (top : Coach) (h : IsFirstMax l top) :
    IsFirstMax (l ++ rest)
      (rest.foldl (fun top c => if c.Score > top.Score then c else top) top) := by
  induction rest generalizing l top with
  | nil => simpa using h
  | cons c rest ih =>
    have hstep := ih (l ++ [c]) _ (isFirstMax_step l top c h)
    simpa using hstep

/-- C2: the coach the selection loop picks from a non-empty candidate list `first :: rest`
has a score no smaller than any candidate, and it is the first candidate with that score:
it stands at a position `i` before which every candidate has a strictly smaller score. -/
theorem selectTop_first_greatest (first : Coach) (rest : List Coach) :
    ∃ i, (first :: rest)[i]? = some (selectTop first rest) ∧
      (∀ c ∈ first :: rest, c.Score ≤ (selectTop first rest).Score) ∧
      ∀ (j : Nat) (c : Coach), j < i → (first :: rest)[j]? = some c → c.Score < (selectTop first rest).Score := by
  have h := isFirstMax_foldl rest [first] first (isFirstMax_singleton first)
  simpa [IsFirstMax, selectTop] using h

/-! ## No double booking (C1) and the selection reason (C3) -/

/-- C1 at the failing input: in `busyStore` no coach is double booked and Ada already has a
`scheduled` appointment at 10:00; stage 3 tests Ben (position 0 of the stage-2 list) and
appends Ada (position 0 of the stage-1 list), the request is answered with a `scheduled`
appointment for Ada, and afterwards Ada has two `scheduled` appointments at 10:00. -/
theorem BookAppointment_double_books :
    NoDoubleBooking busyWorld.db ∧
    (scheduledAt busyWorld.db "coach-a" (10 * hour)).length = 1 ∧
    (stage2 busyStore calmEnv.countErr (coachesQuery busyStore "cal-1")
        (appointmentDay (10 * hour))).map
      (fun c => c.ID) = ["coach-b"] ∧
    (stage3 busyStore (coachesQuery busyStore "cal-1")
      (stage2 busyStore calmEnv.countErr (coachesQuery busyStore "cal-1")
        (appointmentDay (10 * hour)))
      (10 * hour)).map (fun c => c.ID) = ["coach-a"] ∧
    (BookAppointment busyWorld tenOClockRequest calmEnv).2.bodies.map
      (fun b => (b.Error, b.CoachID, b.Status)) = [("", "coach-a", "scheduled")] ∧
    (scheduledAt (BookAppointment busyWorld tenOClockRequest calmEnv).1.db "coach-a"
      (10 * hour)).length = 2 ∧
    ¬ NoDoubleBooking (BookAppointment busyWorld tenOClockRequest calmEnv).1.db := by
  refine ⟨?_, rfl, rfl, rfl, rfl, rfl, ?_⟩
  · intro coachID t
    exact List.length_filter_le _ _
  · intro h
    have h2 := h "coach-a" (10 * hour)
    have h3 : (scheduledAt (BookAppointment busyWorld tenOClockRequest calmEnv).1.db "coach-a"
      (10 * hour)).length = 2 := rfl
    omega

/-- C3 at the failing input: with a single coach on the calendar exactly one coach
survives each stage, and the reason written to the distribution log is still
"Selected coach with highest score". -/
theorem BookAppointment_singleton_reason :
    (stage3 soloStore (coachesQuery soloStore "cal-1")
      (stage2 soloStore calmEnv.countErr (coachesQuery soloStore "cal-1")
        (appointmentDay (10 * hour)))
      (10 * hour)).length = 1 ∧
    (BookAppointment soloWorld tenOClockRequest calmEnv).1.db.distribution_log.map
      (fun l => (l.selected_coach_id, l.selection_reason)) =
      [("coach-b", "Selected coach with highest score")] ∧
    ∀ coaches coachLister newCoachList : List Coach,
      selectionReason coaches coachLister newCoachList = "Selected coach with highest score" := by
  refine ⟨rfl, rfl, ?_⟩
  intro coaches coachLister newCoachList
  rfl

/-! ## No eligible coach (C4) -/

theorem stage3_no_survivor (db : Store) (coaches : List Coach) (start : Time) :
    stage3 db coaches [] start = [] := rfl

theorem stage2_no_candidate (db : Store) (countErr : String → Option String) (dayStart : Time) :
    stage2 db countErr [] dayStart = [] := rfl

/-- C4: an authenticated, well-formed request for an existing calendar whose candidate list
is empty after stage 3 (in particular when no coach has the calendar) is answered with
`NO_SLOT_ERROR`; the store and the cache are unchanged and no write statement is issued. -/
theorem BookAppointment_no_eligible_coach (w : World) (r : BookRequest) (env : BookEnv)
    (v : ValidateResponse) (req : BookAppointmentRequest) (calendarName : String)
    (slotDuration : Int)
    (hkey : r.apiKey ≠ "") (hauth : env.auth = (some v, none)) (hvalid : v.Valid = true)
    (hbody : r.body = some req) (hbegin : env.beginTxErr = none)
    (hcal : calendarQuery w.db req.CalendarID = some (calendarName, slotDuration))
    (hempty : coachesQuery w.db req.CalendarID = [] ∨
      stage3 w.db (coachesQuery w.db req.CalendarID)
        (stage2 w.db env.countErr (coachesQuery w.db req.CalendarID)
          (appointmentDay (req.StartTime + req.StartOffset)))
        req.StartTime = []) :
    (BookAppointment w r env).2.panicked = false ∧
    (BookAppointment w r env).2.bodies =
      [bookError "NO_SLOT_ERROR" "No slot available at this time for any coach" ""] ∧
    (BookAppointment w r env).1.db = w.db ∧
    (BookAppointment w r env).1.rdb = w.rdb ∧
    ∀ table : String,
      Effect.storeWrite table ∉ (BookAppointment w r env).1.trace.drop w.trace.length := by
  have hstage : stage3 w.db (coachesQuery w.db req.CalendarID)
      (stage2 w.db env.countErr (coachesQuery w.db req.CalendarID)
          (appointmentDay (req.StartTime + req.StartOffset)))
      req.StartTime = [] := by
    rcases hempty with h | h
    · rw [h]
      rfl
    · exact h
  simp [BookAppointment, bookPipeline, Tx.begin, World.log, World.logs, hkey, hauth, hvalid,
    hbody, hbegin, hcal, hstage]

/-! ## Atomic booking (C5) -/

/-- C5: when a run reaches the transactional writes and the appointment insert fails (an
injected failure or a duplicate appointment id), or the slot update fails, or the
distribution-log insert fails, or the commit fails, the store afterwards is the store
before (no appointment, no slot change, no log entry) and the caller receives status 409
with a single error document (`NO_SLOT_ERROR` or `TRANSACTION_ERROR`), never `scheduled`. -/
theorem BookAppointment_atomic (w : World) (r : BookRequest) (env : BookEnv)
    (v : ValidateResponse) (req : BookAppointmentRequest) (calendarName : String)
    (slotDuration : Int) (first : Coach) (rest : List Coach)
    (hkey : r.apiKey ≠ "") (hauth : env.auth = (some v, none)) (hvalid : v.Valid = true)
    (hbody : r.body = some req) (hbegin : env.beginTxErr = none)
    (hcal : calendarQuery w.db req.CalendarID = some (calendarName, slotDuration))
    (hstage : stage3 w.db (coachesQuery w.db req.CalendarID)
        (stage2 w.db env.countErr (coachesQuery w.db req.CalendarID)
          (appointmentDay (req.StartTime + req.StartOffset)))
        req.StartTime = first :: rest)
    (hfail : env.insertErr ≠ none ∨
      w.db.coach_appointments.any (fun a => a.id = env.appointmentID) = true ∨
      env.slotUpdateErr ≠ none ∨ env.logInsertErr ≠ none ∨ env.commitErr ≠ none) :
    (BookAppointment w r env).1.db = w.db ∧
    (BookAppointment w r env).2.panicked = false ∧
    (BookAppointment w r env).2.status = 409 ∧
    ∃ b : BookAppointmentResponse, (BookAppointment w r env).2.bodies = [b] ∧
      (b.Error = "NO_SLOT_ERROR" ∨ b.Error = "TRANSACTION_ERROR") ∧ b.Status = "" := by
  rcases hi : env.insertErr with _ | e1 <;>
  rcases hd : w.db.coach_appointments.any (fun a => a.id = env.appointmentID) with _ | _ <;>
  rcases hs : env.slotUpdateErr with _ | e2 <;>
  rcases hl : env.logInsertErr with _ | e3 <;>
  rcases hc : env.commitErr with _ | e4 <;>
  simp [hi, hd, hs, hl, hc] at hfail <;>
  simp [BookAppointment, bookPipeline, bookWrites, Tx.begin, Tx.exec, Tx.commit,
    appointmentInsert, slotsUnavailable, distributionLogInsert, World.log, World.logs,
    bookError, hkey, hauth, hvalid, hbody, hbegin, hcal, hstage, hi, hd, hs, hl, hc]

/-! ## Failures after the commit (C6) -/

theorem booked_setCrmContactId (db : Store) (appointmentID coachID : String) (start : Time)
    (target crmID : String) (h : Booked db appointmentID coachID start) :
    Booked (setCrmContactId db target crmID) appointmentID coachID start := by
  obtain ⟨a, ha, h1, h2, h3, h4⟩ := h
  by_cases ht : a.id = target
  · refine ⟨{ a with crm_contact_id := some crmID }, ?_, h1, h2, h3, h4⟩
    simp only [setCrmContactId, List.mem_map]
    exact ⟨a, ha, by simp [ht]⟩
  · refine ⟨a, ?_, h1, h2, h3, h4⟩
    simp only [setCrmContactId, List.mem_map]
    exact ⟨a, ha, by simp [ht]⟩

theorem booked_setExternalCalendarId (db : Store) (appointmentID coachID : String)
    (start : Time) (target blockID : String) (h : Booked db appointmentID coachID start) :
    Booked (setExternalCalendarId db target blockID) appointmentID coachID start := by
  obtain ⟨a, ha, h1, h2, h3, h4⟩ := h
  by_cases ht : a.id = target
  · refine ⟨{ a with external_calendar_id := some blockID }, ?_, h1, h2, h3, h4⟩
    simp only [setExternalCalendarId, List.mem_map]
    exact ⟨a, ha, by simp [ht]⟩
  · refine ⟨a, ?_, h1, h2, h3, h4⟩
    simp only [setExternalCalendarId, List.mem_map]
    exact ⟨a, ha, by simp [ht]⟩

/-- The post-commit steps keep every booking and leave the slot table alone. -/
theorem bookPostCommit_keeps (w : World) (req : BookAppointmentRequest) (env : BookEnv)
    (top : Coach) (endTime : Time) (idemKey : String) (appointmentID coachID : String)
    (start : Time) (h : Booked w.db appointmentID coachID start) :
    Booked (bookPostCommit w req env top endTime idemKey).1.db appointmentID coachID start ∧
    (bookPostCommit w req env top endTime idemKey).1.db.coach_slots = w.db.coach_slots := by
  have h1 := fun c => booked_setCrmContactId w.db appointmentID coachID start
    env.appointmentID c h
  have h2 := fun c b => booked_setExternalCalendarId _ appointmentID coachID start
    env.appointmentID b (h1 c)
  rcases hcrm : env.crm with ⟨_ | c, _ | e1⟩ <;>
  rcases hu1 : env.crmIdUpdateErr with _ | e2 <;>
  rcases hblk : env.blockSlot with ⟨_ | b, _ | e3⟩ <;>
  rcases hu2 : env.blockIdUpdateErr with _ | e4 <;>
  simp [bookPostCommit, World.log, hcrm, hu1, hblk, hu2, h, h1, h2] <;>
  rfl

theorem committedStore_booked (db : Store) (req : BookAppointmentRequest) (env : BookEnv)
    (top : Coach) (endTime : Time) (reason : String) :
    Booked (committedStore db req env top endTime reason) env.appointmentID top.ID
      req.StartTime := by
  refine ⟨newAppointmentRow req env top endTime, ?_, rfl, rfl, rfl, rfl⟩
  simp [committedStore]

theorem committedStore_slotsClosed (db : Store) (req : BookAppointmentRequest) (env : BookEnv)
    (top : Coach) (endTime : Time) (reason : String) :
    SlotsClosed (committedStore db req env top endTime reason) top.ID req.StartTime
      endTime := by
  intro s hs h1 h2 h3
  simp only [committedStore, List.mem_map] at hs
  obtain ⟨s0, _, hs0⟩ := hs
  by_cases hcond : s0.coach_id = top.ID ∧ s0.start_time ≥ req.StartTime ∧ s0.start_time < endTime
  · rw [if_pos hcond] at hs0
    rw [← hs0]
  · rw [if_neg hcond] at hs0
    rw [hs0] at hcond
    exact absurd ⟨h1, h2, h3⟩ hcond

/-- A run whose transaction commits continues with the post-commit steps on the store that
holds the three writes. -/
theorem BookAppointment_commits (w : World) (r : BookRequest) (env : BookEnv)
    (v : ValidateResponse) (req : BookAppointmentRequest) (calendarName : String)
    (slotDuration : Int) (first : Coach) (rest : List Coach)
    (hkey : r.apiKey ≠ "") (hauth : env.auth = (some v, none)) (hvalid : v.Valid = true)
    (hbody : r.body = some req) (hbegin : env.beginTxErr = none)
    (hcal : calendarQuery w.db req.CalendarID = some (calendarName, slotDuration))
    (hstage : stage3 w.db (coachesQuery w.db req.CalendarID)
        (stage2 w.db env.countErr (coachesQuery w.db req.CalendarID)
          (appointmentDay (req.StartTime + req.StartOffset)))
        req.StartTime = first :: rest)
    (hi : env.insertErr = none)
    (hd : w.db.coach_appointments.any (fun a => a.id = env.appointmentID) = false)
    (hs : env.slotUpdateErr = none) (hl : env.logInsertErr = none)
    (hc : env.commitErr = none) :
    ∃ w1 : World,
      BookAppointment w r env = bookPostCommit w1 req env (selectTop first rest)
        (req.StartTime + wrapInt64 (slotDuration * minute))
        (if r.idempotencyKey = "" then env.newIdemKey else r.idempotencyKey) ∧
      w1.db = committedStore w.db req env (selectTop first rest)
        (req.StartTime + wrapInt64 (slotDuration * minute))
        (selectionReason (coachesQuery w.db req.CalendarID)
          (stage2 w.db env.countErr (coachesQuery w.db req.CalendarID)
          (appointmentDay (req.StartTime + req.StartOffset)))
          (first :: rest)) ∧
      w1.rdb = w.rdb := by
  refine ⟨{ db := committedStore w.db req env (selectTop first rest)
                (req.StartTime + wrapInt64 (slotDuration * minute))
                (selectionReason (coachesQuery w.db req.CalendarID)
                  (stage2 w.db env.countErr (coachesQuery w.db req.CalendarID)
                    (appointmentDay (req.StartTime + req.StartOffset)))
                  (first :: rest)),
            rdb := w.rdb,
            trace := w.trace ++ [Effect.authValidate r.apiKey] ++
              [Effect.storeRead "calendars"] ++ [Effect.storeRead "coaches"] ++
              (coachesQuery w.db req.CalendarID).map
                (fun _ => Effect.storeRead "coach_appointments") ++
              (stage2 w.db env.countErr (coachesQuery w.db req.CalendarID)
                (appointmentDay (req.StartTime + req.StartOffset))).map (fun _ => Effect.storeRead "coach_slots") ++
              [Effect.storeWrite "coach_appointments"] ++ [Effect.storeWrite "coach_slots"] ++
              [Effect.storeWrite "distribution_log"] }, ?_, rfl, rfl⟩
  simp [BookAppointment, bookPipeline, bookWrites, Tx.begin, Tx.exec, Tx.commit,
    appointmentInsert, slotsUnavailable, distributionLogInsert, World.log, World.logs,
    committedStore, newAppointmentRow, hkey, hauth, hvalid, hbody, hbegin, hcal, hstage, hi,
    hd, hs, hl, hc]

/-- When the transaction of a run commits and a later step returns an error (the CRM
call, the update recording the CRM id, the calendar block call, the update recording the
block id), the caller receives one error document, `GATEWAY_ERROR` for the two calls and
`INTERNAL_ERROR` for the two updates; the appointment row of the selected coach is in the
store with status `scheduled` and every slot of that coach in the booked interval is
unavailable. -/
theorem BookAppointment_post_commit_failure (w : World) (r : BookRequest) (env : BookEnv)
    (v : ValidateResponse) (req : BookAppointmentRequest) (calendarName : String)
    (slotDuration : Int) (first : Coach) (rest : List Coach)
    (hkey : r.apiKey ≠ "") (hauth : env.auth = (some v, none)) (hvalid : v.Valid = true)
    (hbody : r.body = some req) (hbegin : env.beginTxErr = none)
    (hcal : calendarQuery w.db req.CalendarID = some (calendarName, slotDuration))
    (hstage : stage3 w.db (coachesQuery w.db req.CalendarID)
        (stage2 w.db env.countErr (coachesQuery w.db req.CalendarID)
          (appointmentDay (req.StartTime + req.StartOffset)))
        req.StartTime = first :: rest)
    (hi : env.insertErr = none)
    (hd : w.db.coach_appointments.any (fun a => a.id = env.appointmentID) = false)
    (hs : env.slotUpdateErr = none) (hl : env.logInsertErr = none)
    (hc : env.commitErr = none)
    (hpost : env.crm.2 ≠ none ∨
      (env.crm.1 ≠ none ∧ env.crmIdUpdateErr ≠ none) ∨
      (env.crm.1 ≠ none ∧ env.blockSlot.2 ≠ none) ∨
      (env.crm.1 ≠ none ∧ env.blockSlot.1 ≠ none ∧ env.blockIdUpdateErr ≠ none)) :
    (BookAppointment w r env).2.panicked = false ∧
    (∃ b : BookAppointmentResponse, (BookAppointment w r env).2.bodies = [b] ∧
      b.Status = "" ∧
      (env.crm.2 ≠ none → b.Error = "GATEWAY_ERROR") ∧
      (env.crm.2 = none → env.crmIdUpdateErr ≠ none → b.Error = "INTERNAL_ERROR") ∧
      (env.crm.2 = none → env.crmIdUpdateErr = none → env.blockSlot.2 ≠ none →
        b.Error = "GATEWAY_ERROR") ∧
      (env.crm.2 = none → env.crmIdUpdateErr = none → env.blockSlot.2 = none →
        b.Error = "INTERNAL_ERROR")) ∧
    (∃ a ∈ (BookAppointment w r env).1.db.coach_appointments,
      a.id = env.appointmentID ∧ a.coach_id = (selectTop first rest).ID ∧
      a.start_time = req.StartTime ∧ a.status = "scheduled") ∧
    ∀ s ∈ (BookAppointment w r env).1.db.coach_slots,
      s.coach_id = (selectTop first rest).ID → req.StartTime ≤ s.start_time →
      s.start_time < req.StartTime + wrapInt64 (slotDuration * minute) →
        s.available = false := by
  obtain ⟨w1, hrun, hdb, _⟩ := BookAppointment_commits w r env v req calendarName
    slotDuration first rest hkey hauth hvalid hbody hbegin hcal hstage hi hd hs hl hc
  rw [hrun]
  have hkeep := bookPostCommit_keeps w1 req env (selectTop first rest)
    (req.StartTime + wrapInt64 (slotDuration * minute))
    (if r.idempotencyKey = "" then env.newIdemKey else r.idempotencyKey)
    env.appointmentID (selectTop first rest).ID req.StartTime
    (by rw [hdb]; exact committedStore_booked _ _ _ _ _ _)
  refine ⟨?_, ?_, hkeep.1, ?_⟩
  · rcases hcrm : env.crm with ⟨_ | c, _ | e1⟩ <;>
    rcases hu1 : env.crmIdUpdateErr with _ | e2 <;>
    rcases hblk : env.blockSlot with ⟨_ | b, _ | e3⟩ <;>
    rcases hu2 : env.blockIdUpdateErr with _ | e4 <;>
    simp [hcrm, hu1, hblk, hu2] at hpost <;>
    simp [bookPostCommit, hcrm, hu1, hblk, hu2]
  · rcases hcrm : env.crm with ⟨_ | c, _ | e1⟩ <;>
    rcases hu1 : env.crmIdUpdateErr with _ | e2 <;>
    rcases hblk : env.blockSlot with ⟨_ | b, _ | e3⟩ <;>
    rcases hu2 : env.blockIdUpdateErr with _ | e4 <;>
    simp [hcrm, hu1, hblk, hu2] at hpost <;>
    simp [bookPostCommit, bookError, hcrm, hu1, hblk, hu2]
  · rw [hkeep.2, hdb]
    exact committedStore_slotsClosed _ _ _ _ _ _

/-! ## Inbound idempotency (C7, C8) -/

/-- C7 at the failing input: the idempotency key of the delivery is in the cache with the
acknowledgment of the first delivery, yet the handler answers with a fresh acknowledgment,
inserts a webhook event, cancels the appointment and bumps `webhook_attempts`, frees the
slot, calls `ReleaseSlot` and rewrites the cache entry. Even on a reported hit, the code
after line 589 runs on: the stored response is followed by a second document. -/
theorem WebhookHandler_replay_reprocesses :
    redisGet replayWorld.rdb webhookCalmEnv.now "evt-key-1" =
      some (marshalWebHookResponse storedAck) ∧
    (WebhookHandler replayWorld replayRequest webhookCalmEnv).2.bodies.map
      (fun b => (b.Received, b.EventID)) = [(true, "event-2")] ∧
    (WebhookHandler replayWorld replayRequest webhookCalmEnv).1.db.webhook_events.map
      (fun e => e.id) = ["event-2"] ∧
    replayWorld.db.coach_appointments.map (fun a => (a.id, a.status, a.webhook_attempts)) =
      [("appt-1", "scheduled", 0)] ∧
    (WebhookHandler replayWorld replayRequest webhookCalmEnv).1.db.coach_appointments.map
      (fun a => (a.id, a.status, a.webhook_attempts)) = [("appt-1", "cancelled", 1)] ∧
    (WebhookHandler replayWorld replayRequest webhookCalmEnv).1.db.coach_slots.map
      (fun s => (s.coach_id, s.available)) = [("coach-a", true), ("coach-b", true)] ∧
    (WebhookHandler replayWorld replayRequest webhookCalmEnv).1.trace =
      [Effect.authValidate "key-1", Effect.cacheGet "evt-key-1",
       Effect.storeWrite "webhook_events", Effect.storeRead "coach_appointments",
       Effect.storeWrite "coach_appointments", Effect.storeWrite "coach_slots",
       Effect.calendarReleaseSlot "coach-a" "blk-0", Effect.cacheSet "evt-key-1"] ∧
    (WebhookHandler replayWorld replayRequest webhookCalmEnv).1.rdb.map
      (fun e => (e.key, e.expires_at)) = [("evt-key-1", 9 * hour + 24 * hour)] ∧
    (webhookProcess replayWorld [storedAck] replayRequest webhookCalmEnv).2.bodies.map
      (fun b => (b.Received, b.EventID)) = [(true, "event-1"), (true, "event-2")] := by
  refine ⟨rfl, rfl, rfl, rfl, rfl, rfl, rfl, rfl, rfl⟩

theorem redisGet_after_set (rdb : Cache) (now later : Time) (k : String) (value : JObject)
    (ttl : Time) (h : later < now + ttl) :
    redisGet (redisSet rdb now k value ttl) later k = some value := by
  simp [redisGet, redisSet, h]

theorem unmarshal_marshal (r : WebHookResponse) :
    jsonUnmarshal (marshalWebHookResponse r) (.pointer zeroWebHookResponse) = some r := by
  obtain ⟨⟨e, m, d⟩, rc, ev⟩ := r
  by_cases he : e = "" <;> by_cases hm : m = "" <;> by_cases hd : d = "" <;>
  simp [jsonUnmarshal, marshalWebHookResponse, unmarshalMember, zeroWebHookResponse,
    webhookError, he, hm, hd]

/-- With a pointer as decoding target the stored acknowledgment is found again. -/
theorem CheckIdempotency_pointer_roundtrip (rdb : Cache) (now later : Time) (k : String)
    (r : WebHookResponse) (h : later < now + 24 * hour) :
    CheckIdempotency (SetIdempotencyKey rdb now k r).1 later k
      (.pointer zeroWebHookResponse) = (true, some r) := by
  simp [CheckIdempotency, SetIdempotencyKey, redisGet_after_set rdb now later k _ _ h,
    unmarshal_marshal]

/-- C8 evaluated: whatever was stored under a key and whenever the lookup happens, the
lookup as the handler performs it, with a `WebHookResponse` value as decoding target,
reports no hit and returns no response; at the concrete instance the entry is in the cache
and not expired. -/
theorem CheckIdempotency_value_target_misses :
    (∀ (rdb : Cache) (now later : Time) (k : String) (r v : WebHookResponse),
      CheckIdempotency (SetIdempotencyKey rdb now k r).1 later k (.value v) = (false, none)) ∧
    redisGet (SetIdempotencyKey [] 0 "evt-key-1" storedAck).1 (9 * hour) "evt-key-1" =
      some (marshalWebHookResponse storedAck) ∧
    CheckIdempotency (SetIdempotencyKey [] 0 "evt-key-1" storedAck).1 (9 * hour) "evt-key-1"
      (.value zeroWebHookResponse) = (false, none) := by
  refine ⟨?_, rfl, rfl⟩
  intro rdb now later k r v
  unfold CheckIdempotency
  cases redisGet (SetIdempotencyKey rdb now k r).1 later k with
  | none => rfl
  | some val => rfl

/-! ## Missing idempotency key (C9) and unknown event types (C10) -/

/-- C9 at the failing input: a delivery with a valid API key and no idempotency header is
answered with status 400 and the error code `VAIDATION_ERROR`, which is not
`VALIDATION_ERROR`; the store and the cache are unchanged and the only interaction is the
auth call. -/
theorem WebhookHandler_missing_idempotency_code :
    (WebhookHandler replayWorld noIdemRequest webhookCalmEnv).2.status = 400 ∧
    (WebhookHandler replayWorld noIdemRequest webhookCalmEnv).2.bodies =
      [webhookError "VAIDATION_ERROR" "Invalid request header: No X-Idempotency-Key" ""] ∧
    (WebhookHandler replayWorld noIdemRequest webhookCalmEnv).2.bodies.map
      (fun b => decide (b.Error = "VALIDATION_ERROR")) = [false] ∧
    (WebhookHandler replayWorld noIdemRequest webhookCalmEnv).1.db = replayWorld.db ∧
    (WebhookHandler replayWorld noIdemRequest webhookCalmEnv).1.rdb = replayWorld.rdb ∧
    (WebhookHandler replayWorld noIdemRequest webhookCalmEnv).1.trace =
      [Effect.authValidate "key-1"] ∧
    (WebhookHandler replayWorld { noIdemRequest with apiKey := "" } webhookCalmEnv).2.bodies =
      [webhookError "VALIDATION_ERROR" "X-API-Key Header is missing" ""] := by
  refine ⟨rfl, rfl, rfl, rfl, rfl, rfl, rfl⟩

/-- C10 as stated fails: an authenticated delivery with a fresh idempotency key and an
unknown event type that names no existing appointment is answered with status 500 and
`INTERNAL_ERROR`, not with an acknowledgment. -/
theorem WebhookHandler_stranger_event_rejected :
    redisGet replayWorld.rdb webhookCalmEnv.now "evt-key-9" = none ∧
    (WebhookHandler replayWorld strangerRequest webhookCalmEnv).2.status = 500 ∧
    (WebhookHandler replayWorld strangerRequest webhookCalmEnv).2.bodies =
      [webhookError "INTERNAL_ERROR" "Database failure" "sql: no rows in result set"] ∧
    ¬ ∃ b ∈ (WebhookHandler replayWorld strangerRequest webhookCalmEnv).2.bodies,
        b.Received = true := by
  refine ⟨rfl, rfl, rfl, ?_⟩
  have h : (WebhookHandler replayWorld strangerRequest webhookCalmEnv).2.bodies =
      [webhookError "INTERNAL_ERROR" "Database failure" "sql: no rows in result set"] := rfl
  rw [h]
  simp [webhookError]

theorem CheckIdempotency_value (rdb : Cache) (now : Time) (k : String) (v : WebHookResponse) :
    CheckIdempotency rdb now k (.value v) = (false, none) := by
  unfold CheckIdempotency
  cases redisGet rdb now k with
  | none => rfl
  | some val => rfl

theorem appointmentQuery_webhookEventInsert (db : Store) (row : WebhookEventRow)
    (appointmentID : String) :
    appointmentQuery (webhookEventInsert db row) appointmentID =
      appointmentQuery db appointmentID := rfl

theorem webhookEventInsert_appointments (db : Store) (row : WebhookEventRow) :
    (webhookEventInsert db row).coach_appointments = db.coach_appointments := rfl

theorem webhookEventInsert_slots (db : Store) (row : WebhookEventRow) :
    (webhookEventInsert db row).coach_slots = db.coach_slots := rfl

/-- C10 amended: an authenticated delivery with a fresh idempotency key (the cache holds no
live entry under it) and a well-formed body whose event type is neither
`appointment.cancelled` nor `appointment.confirmed` changes no appointment row and no slot
row; it is acknowledged with `received = true` and the generated event id when the
appointment lookup succeeds, and answered with status 500 and `INTERNAL_ERROR` when the
lookup fails. -/
theorem WebhookHandler_unknown_event (w : World) (r : WebhookRequest) (env : WebhookEnv)
    (v : ValidateResponse) (req : WebHookRequest)
    (hkey : r.apiKey ≠ "") (hauth : env.auth = (some v, none)) (hvalid : v.Valid = true)
    (hidem : r.idempotencyKey ≠ "")
    (hfresh : redisGet w.rdb env.now r.idempotencyKey = none) (hbody : r.body = some req)
    (hcancel : req.EventType ≠ "appointment.cancelled")
    (hconfirm : req.EventType ≠ "appointment.confirmed") :
    (WebhookHandler w r env).1.db.coach_appointments = w.db.coach_appointments ∧
    (WebhookHandler w r env).1.db.coach_slots = w.db.coach_slots ∧
    (WebhookHandler w r env).2.panicked = false ∧
    match appointmentQuery w.db req.AppointmentID with
    | .ok _ =>
      (WebhookHandler w r env).2.status = 200 ∧
      (WebhookHandler w r env).2.bodies =
        [{ Error := "", Message := "", ErrorDetails := "", Received := true,
           EventID := env.eventId }]
    | .error e =>
      (WebhookHandler w r env).2.status = 500 ∧
      (WebhookHandler w r env).2.bodies =
        [webhookError "INTERNAL_ERROR" "Database failure" e] := by
  rcases hev : env.eventInsertErr with _ | e0 <;>
  rcases hq : appointmentQuery w.db req.AppointmentID with e | ⟨c, cal, s, t, b⟩ <;>
  simp [WebhookHandler, webhookProcess, webhookAck, respond, World.log, CheckIdempotency,
    hfresh, appointmentQuery_webhookEventInsert, webhookEventInsert_appointments,
    webhookEventInsert_slots, SetIdempotencyKey, hkey, hauth, hvalid, hidem, hbody, hcancel,
    hconfirm, hev, hq]

/-- Witness for C10 amended: an unknown event type naming Ada's appointment, delivered
under a key the cache does not hold. -/
theorem WebhookHandler_unknown_event_witness :
    redisGet replayWorld.rdb webhookCalmEnv.now rescheduleRequest.idempotencyKey = none ∧
    (WebhookHandler replayWorld rescheduleRequest webhookCalmEnv).1.db.coach_appointments =
      replayWorld.db.coach_appointments ∧
    (WebhookHandler replayWorld rescheduleRequest webhookCalmEnv).2.bodies.map
      (fun b => (b.Received, b.EventID)) = [(true, "event-2")] :=
  ⟨rfl, (WebhookHandler_unknown_event replayWorld rescheduleRequest webhookCalmEnv _ _
      (by decide) rfl rfl (by decide) rfl rfl (by decide) (by decide)).1, rfl⟩

/-! ## Witnesses -/

/-- Witness for C4: a calendar that no coach has. -/
theorem BookAppointment_no_eligible_coach_witness :
    coachesQuery lonelyWorld.db "cal-1" = [] ∧
    (BookAppointment lonelyWorld tenOClockRequest calmEnv).2.bodies =
      [bookError "NO_SLOT_ERROR" "No slot available at this time for any coach" ""] ∧
    (BookAppointment lonelyWorld tenOClockRequest calmEnv).1.db = lonelyWorld.db :=
  have h := BookAppointment_no_eligible_coach lonelyWorld tenOClockRequest calmEnv
    { Valid := true, Error := "", KeyType := "production" }
    { CalendarID := "cal-1", ContactEmail := "pat@example.org", ContactName := "Pat",
      StartTime := 10 * hour, StartOffset := 0, TimeZone := "UTC", Notes := "first session" }
    "Intro" 30 (by decide) rfl rfl rfl rfl rfl (Or.inl rfl)
  ⟨rfl, h.2.1, h.2.2.1⟩

/-- Witness for C5: the slot update fails inside the transaction. -/
theorem BookAppointment_atomic_witness :
    slotFaultEnv.slotUpdateErr ≠ none ∧
    (BookAppointment soloWorld tenOClockRequest slotFaultEnv).1.db = soloWorld.db ∧
    (BookAppointment soloWorld tenOClockRequest slotFaultEnv).2.status = 409 :=
  have h := BookAppointment_atomic soloWorld tenOClockRequest slotFaultEnv
    { Valid := true, Error := "", KeyType := "production" }
    { CalendarID := "cal-1", ContactEmail := "pat@example.org", ContactName := "Pat",
      StartTime := 10 * hour, StartOffset := 0, TimeZone := "UTC", Notes := "first session" }
    "Intro" 30 coachBen [] (by decide) rfl rfl rfl rfl rfl rfl
    (Or.inr (Or.inr (Or.inl (by simp [slotFaultEnv]))))
  ⟨by simp [slotFaultEnv], h.1, h.2.2.1⟩

/-- A run in which the CRM call returns an error after the commit: the caller receives
`GATEWAY_ERROR` and the appointment stays booked. -/
theorem BookAppointment_post_commit_failure_witness :
    crmDownEnv.crm.2 ≠ none ∧
    (BookAppointment soloWorld tenOClockRequest crmDownEnv).2.panicked = false ∧
    (BookAppointment soloWorld tenOClockRequest crmDownEnv).2.bodies.map
      (fun b => b.Error) = ["GATEWAY_ERROR"] ∧
    ∃ a ∈ (BookAppointment soloWorld tenOClockRequest crmDownEnv).1.db.coach_appointments,
      a.id = "appt-2" ∧ a.coach_id = "coach-b" ∧ a.start_time = 10 * hour ∧
      a.status = "scheduled" :=
  have h := BookAppointment_post_commit_failure soloWorld tenOClockRequest crmDownEnv
    { Valid := true, Error := "", KeyType := "production" }
    { CalendarID := "cal-1", ContactEmail := "pat@example.org", ContactName := "Pat",
      StartTime := 10 * hour, StartOffset := 0, TimeZone := "UTC", Notes := "first session" }
    "Intro" 30 coachBen [] (by decide) rfl rfl rfl rfl rfl rfl rfl rfl rfl rfl rfl
    (Or.inl (by simp [crmDownEnv]))
  ⟨by simp [crmDownEnv], h.1, rfl, h.2.2.1⟩

/-! ## Slot decomposition (C16) -/

/-- Number of 15-minute starts from `t` strictly before `endTime`: the ceiling of
`(endTime - t) / 15min`, zero when `t` is not before `endTime`. -/
theorem splitLoop_eq (endTime : Int) (fuel : Nat) (t : Int)
    (h : ((endTime - t + 899999999999) / 900000000000).toNat ≤ fuel) :
    splitLoop endTime fuel t =
      (List.range ((endTime - t + 899999999999) / 900000000000).toNat).map
        (fun (k : Nat) => t + 900000000000 * (k : Int)) := by
  induction fuel generalizing t with
  | zero =>
    have h0 : ((endTime - t + 899999999999) / 900000000000).toNat = 0 := by omega
    rw [h0]
    rfl
  | succ fuel ih =>
    unfold splitLoop
    by_cases hlt : t < endTime
    · rw [if_pos hlt]
      have hm : ((endTime - t + 899999999999) / 900000000000).toNat =
          ((endTime - (t + 15 * minute) + 899999999999) / 900000000000).toNat + 1 := by
        simp only [minute]
        omega
      rw [hm, ih (t + 15 * minute) (by omega), List.range_succ_eq_map, List.map_cons,
        List.map_map]
      congr 1
      · simp
      · apply List.map_congr_left
        intro k _
        simp only [minute, Function.comp]
        push_cast
        ring
    · rw [if_neg hlt]
      have h0 : ((endTime - t + 899999999999) / 900000000000).toNat = 0 := by omega
      rw [h0]
      rfl

theorem truncateMinute_spec (t : Int) :
    truncateMinute t % 60000000000 = 0 ∧ truncateMinute t ≤ t ∧
      t < truncateMinute t + 60000000000 := by
  unfold truncateMinute minute Time
  omega

/-- The closed form of the decomposition, with the count written by integer division. -/
theorem splitInto15MinStarts_range (start endTime : Int) :
    splitInto15MinStarts start endTime =
      (List.range ((endTime - truncateMinute start + 899999999999) / 900000000000).toNat).map
        (fun (k : Nat) => truncateMinute start + 15 * minute * (k : Int)) := by
  unfold splitInto15MinStarts
  rw [splitLoop_eq endTime _ (truncateMinute start) (by omega)]
  simp only [minute]
  norm_num

/-- The decomposition is strictly increasing. -/
theorem splitInto15MinStarts_pairwise (start endTime : Int) :
    (splitInto15MinStarts start endTime).Pairwise (fun a b => a < b) := by
  rw [splitInto15MinStarts_range, List.pairwise_map]
  refine (List.pairwise_lt_range _).imp ?_
  intro a b hab
  simp only [minute]
  unfold Time at *
  omega

/-- The decomposition has no repeated timestamp. -/
theorem splitInto15MinStarts_nodup (start endTime : Int) :
    (splitInto15MinStarts start endTime).Nodup :=
  (splitInto15MinStarts_pairwise start endTime).imp (fun h => ne_of_lt h)


/-- The decomposition in terms of `truncateMinute start`: the list, which timestamps are
before the end, the length, when the list is empty, and the order. -/
theorem splitInto15MinStarts_closed_form (start endTime : Int) :
    splitInto15MinStarts start endTime =
      (List.range (Int.ceil (((endTime - truncateMinute start : Int) : ℚ) /
          ((15 * minute : Int) : ℚ))).toNat).map
        (fun (k : Nat) => truncateMinute start + 15 * minute * (k : Int)) ∧
    (∀ k : Nat, truncateMinute start + 15 * minute * (k : Int) < endTime ↔
      k < (Int.ceil (((endTime - truncateMinute start : Int) : ℚ) /
          ((15 * minute : Int) : ℚ))).toNat) ∧
    (splitInto15MinStarts start endTime).length =
      (Int.ceil (((endTime - truncateMinute start : Int) : ℚ) /
          ((15 * minute : Int) : ℚ))).toNat ∧
    (splitInto15MinStarts start endTime = [] ↔ ¬ truncateMinute start < endTime) ∧
    (splitInto15MinStarts start endTime).Pairwise (fun a b => a < b) := by
  have hceil : Int.ceil (((endTime - truncateMinute start : Int) : ℚ) /
      ((15 * minute : Int) : ℚ)) =
      (endTime - truncateMinute start + 899999999999) / 900000000000 := by
    rw [Int.ceil_eq_iff]
    have hq : ((15 * minute : Int) : ℚ) = 900000000000 := by
      simp only [minute]
      norm_num
    rw [hq]
    have h1 : ((endTime - truncateMinute start + 899999999999) / 900000000000 - 1) *
        900000000000 < endTime - truncateMinute start := by omega
    have h2 : endTime - truncateMinute start ≤
        (endTime - truncateMinute start + 899999999999) / 900000000000 * 900000000000 := by
      omega
    constructor
    · rw [lt_div_iff₀ (by norm_num)]
      exact_mod_cast h1
    · rw [div_le_iff₀ (by norm_num)]
      exact_mod_cast h2
  have hlist := splitInto15MinStarts_range start endTime
  rw [hceil]
  refine ⟨hlist, ?_, ?_, ?_, ?_⟩
  · intro k
    simp only [minute]
    unfold Time at *
    omega
  · rw [hlist]
    simp
  · rw [hlist]
    simp only [List.map_eq_nil_iff, List.range_eq_nil]
    unfold Time at *
    omega
  · exact splitInto15MinStarts_pairwise start endTime

/-- C16: with `t0` the start truncated to the minute, that is the whole multiple of one
minute (60 000 000 000 ns) with `t0 ≤ start < t0 + 1min`, `splitInto15MinStarts` returns
`t0, t0 + 15min, t0 + 30min, ...` (15 minutes are 900 000 000 000 ns) for
`k = 0, ..., n - 1`, where `n` is the ceiling of `(end - t0) / 15min` (zero when `t0` is not
before `end`); these are exactly the timestamps `t0 + 15min * k` strictly before `end`, the
list is strictly increasing, and it is empty exactly when `t0` is not before `end`. -/
theorem splitInto15MinStarts_spec (start endTime t0 : Int)
    (hmin : t0 % 60000000000 = 0) (hle : t0 ≤ start) (hlt : start < t0 + 60000000000) :
    splitInto15MinStarts start endTime =
      (List.range (Int.ceil (((endTime - t0 : Int) : ℚ) / 900000000000)).toNat).map
        (fun (k : Nat) => t0 + 900000000000 * (k : Int)) ∧
    (∀ k : Nat, t0 + 900000000000 * (k : Int) < endTime ↔
      k < (Int.ceil (((endTime - t0 : Int) : ℚ) / 900000000000)).toNat) ∧
    (splitInto15MinStarts start endTime).length =
      (Int.ceil (((endTime - t0 : Int) : ℚ) / 900000000000)).toNat ∧
    (splitInto15MinStarts start endTime = [] ↔ ¬ t0 < endTime) ∧
    (splitInto15MinStarts start endTime).Pairwise (fun a b => a < b) := by
  have ht0 : truncateMinute start = t0 := by
    unfold truncateMinute minute Time
    omega
  have hq15 : (15 * minute : Int) = 900000000000 := by
    simp only [minute]
    norm_num
  have h := splitInto15MinStarts_closed_form start endTime
  rw [ht0, hq15] at h
  have hcast : ((900000000000 : Int) : ℚ) = 900000000000 := by norm_num
  rw [hcast] at h
  exact h

/-! ## Outbound delivery (C12, C13, C14, C15) -/

theorem wrapInt64_of_range (x : Int) (h1 : -9223372036854775808 ≤ x)
    (h2 : x < 9223372036854775808) : wrapInt64 x = x := by
  unfold wrapInt64
  omega

/-- The backoff succeeds when the delay is positive and the doubled delay fits `int64`. -/
theorem backoff_isSome (webhookDelay : Int) (attempt random : Nat) (hpos : 0 < webhookDelay)
    (hfit : webhookDelay * 1000000 * 2 ^ attempt < 2 ^ 63) :
    (backoff (baseDelayOf webhookDelay) attempt random).isSome = true := by
  have hp : (1 : Int) ≤ 2 ^ attempt := by exact_mod_cast (Nat.one_le_two_pow : 1 ≤ 2 ^ attempt)
  have hb : webhookDelay * 1000000 ≤ webhookDelay * 1000000 * 2 ^ attempt := by nlinarith
  have hp2 : (2 : Int) ^ attempt ≤ webhookDelay * 1000000 * 2 ^ attempt := by nlinarith
  have h63 : (2 : Int) ^ 63 = 9223372036854775808 := by norm_num
  have e1 : wrapInt64 (webhookDelay * 1000000) = webhookDelay * 1000000 :=
    wrapInt64_of_range _ (by omega) (by omega)
  have e2 : wrapInt64 (2 ^ attempt) = 2 ^ attempt :=
    wrapInt64_of_range _ (by omega) (by omega)
  have e3 : wrapInt64 (webhookDelay * 1000000 * 2 ^ attempt) =
      webhookDelay * 1000000 * 2 ^ attempt := wrapInt64_of_range _ (by omega) (by omega)
  have hge : 2 ≤ webhookDelay * 1000000 * 2 ^ attempt := by nlinarith
  have hdiv : ¬ (webhookDelay * 1000000 * 2 ^ attempt).tdiv 2 ≤ 0 := by
    rw [Int.tdiv_eq_ediv (by omega) (by omega)]
    omega
  simp only [backoff, baseDelayOf, e1, e2, e3, hdiv, if_false, Option.isSome_some]

/-- A run of `j` retried attempts whose backoffs succeed brings the loop of
`postWithIdempotency` to attempt `attempt + j` with `j` more sleeps. -/
theorem postLoop_skip {α : Type} (baseDelay : Time) (outcomes : Nat → HttpOutcome α)
    (random : Nat → Nat) (j : Nat) :
    ∀ (remaining attempt : Nat) (lastErr : Option String) (sleeps : List Time),
      (∀ i, i < j → Retryable (outcomes (attempt + i))) →
      (∀ i, i < j → (backoff baseDelay (attempt + i) (random (attempt + i))).isSome = true) →
      ∃ (lastErr2 : Option String) (sleeps2 : List Time),
        postLoop baseDelay outcomes random (remaining + j) attempt lastErr sleeps =
          postLoop baseDelay outcomes random remaining (attempt + j) lastErr2 sleeps2 ∧
        sleeps2.length = sleeps.length + j ∧
        (lastErr2 = none → lastErr = none ∧
          ∀ i, i < j → ∀ e, outcomes (attempt + i) ≠ .transportError e) ∧
        ((∃ i, i < j ∧ ∃ e, outcomes (attempt + i) = .transportError e) → lastErr2 ≠ none) := by
  induction j with
  | zero =>
    intro remaining attempt lastErr sleeps _ _
    refine ⟨lastErr, sleeps, rfl, rfl, ?_, ?_⟩
    · intro h
      exact ⟨h, fun i hi => absurd hi (Nat.not_lt_zero i)⟩
    · rintro ⟨i, hi, _⟩
      exact absurd hi (Nat.not_lt_zero i)
  | succ j ih =>
    intro remaining attempt lastErr sleeps hretry hback
    have h0 := hretry 0 (Nat.succ_pos j)
    have b0 := hback 0 (Nat.succ_pos j)
    simp only [Nat.add_zero] at h0 b0
    obtain ⟨d, hd⟩ := Option.isSome_iff_exists.mp b0
    have hretry2 : ∀ i, i < j → Retryable (outcomes (attempt + 1 + i)) := by
      intro i hi
      have := hretry (i + 1) (Nat.succ_lt_succ hi)
      rwa [show attempt + (i + 1) = attempt + 1 + i by omega] at this
    have hback2 : ∀ i, i < j →
        (backoff baseDelay (attempt + 1 + i) (random (attempt + 1 + i))).isSome = true := by
      intro i hi
      have := hback (i + 1) (Nat.succ_lt_succ hi)
      rwa [show attempt + (i + 1) = attempt + 1 + i by omega] at this
    have hshape : remaining + (j + 1) = (remaining + j) + 1 := by omega
    rw [hshape]
    cases hout : outcomes attempt with
    | transportError e =>
      obtain ⟨l2, s2, heq, hlen, hnone, hsome⟩ :=
        ih remaining (attempt + 1) (some e) (sleeps ++ [d]) hretry2 hback2
      refine ⟨l2, s2, ?_, ?_, ?_, ?_⟩
      · rw [postLoop, hout]
        simp only [hd]
        rw [heq, show attempt + 1 + j = attempt + (j + 1) by omega]
      · rw [hlen, List.length_append, List.length_singleton]
        omega
      · intro h
        exact absurd (hnone h).1 (by simp)
      · intro _ h
        exact absurd (hnone h).1 (by simp)
    | response status decoded =>
      rw [hout] at h0
      have hst : status ≥ 500 := h0
      obtain ⟨l2, s2, heq, hlen, hnone, hsome⟩ :=
        ih remaining (attempt + 1) lastErr (sleeps ++ [d]) hretry2 hback2
      refine ⟨l2, s2, ?_, ?_, ?_, ?_⟩
      · rw [postLoop, hout]
        simp only [hst, if_true, hd]
        rw [heq, show attempt + 1 + j = attempt + (j + 1) by omega]
      · rw [hlen, List.length_append, List.length_singleton]
        omega
      · intro h
        refine ⟨(hnone h).1, ?_⟩
        intro i hi e
        rcases Nat.eq_zero_or_pos i with h0i | hpos
        · rw [h0i, Nat.add_zero, hout]
          simp
        · have := (hnone h).2 (i - 1) (by omega) e
          rwa [show attempt + 1 + (i - 1) = attempt + i by omega] at this
      · rintro ⟨i, hi, e, he⟩
        rcases Nat.eq_zero_or_pos i with h0i | hpos
        · rw [h0i, Nat.add_zero, hout] at he
          cases he
        · apply hsome
          refine ⟨i - 1, by omega, e, ?_⟩
          rwa [show attempt + 1 + (i - 1) = attempt + i by omega]

/-- C12 as stated fails: with `WEBHOOK_RETRY_DELAY_MS=0`, three attempts allowed and a 503
followed by a decodable 200, the loop panics in `rand.Int63n(0)` after the first attempt:
one attempt, no decoded body. -/
theorem postWithIdempotency_zero_delay_panics :
    Retryable (busyThenOk 0) ∧ busyThenOk 1 = .response 200 (some crmAck) ∧
    (postWithIdempotency zeroDelayConfig busyThenOk noJitter).panicked = true ∧
    (postWithIdempotency zeroDelayConfig busyThenOk noJitter).attempts = 1 ∧
    (postWithIdempotency zeroDelayConfig busyThenOk noJitter).out = none := by
  refine ⟨?_, rfl, rfl, rfl, rfl⟩
  show (503 : Nat) ≥ 500
  decide

/-- C12 amended: when the retry delay is positive and the doubled delays of the `k`
retried attempts fit `int64`, `k < maxAttempts` retryable outcomes followed by a 2xx
response whose body decodes give exactly `k + 1` attempts, `k` sleeps, no error and the
decoded body in the output value. -/
theorem postWithIdempotency_success {α : Type} (maxAttempts webhookDelay : Int)
    (outcomes : Nat → HttpOutcome α) (random : Nat → Nat) (k status : Nat) (v : α)
    (hk : (k : Int) < maxAttempts)
    (hretry : ∀ i, i < k → Retryable (outcomes i))
    (hok : outcomes k = .response status (some v)) (h2xx : 200 ≤ status ∧ status < 300)
    (hdelay : ∀ i, i < k → 0 < webhookDelay ∧ webhookDelay * 1000000 * 2 ^ i < 2 ^ 63) :
    (postWithIdempotency { retryAttempts := some maxAttempts, retryDelayMs := some webhookDelay }
      outcomes random).panicked = false ∧
    (postWithIdempotency { retryAttempts := some maxAttempts, retryDelayMs := some webhookDelay }
      outcomes random).err = none ∧
    (postWithIdempotency { retryAttempts := some maxAttempts, retryDelayMs := some webhookDelay }
      outcomes random).out = some v ∧
    (postWithIdempotency { retryAttempts := some maxAttempts, retryDelayMs := some webhookDelay }
      outcomes random).attempts = k + 1 ∧
    (postWithIdempotency { retryAttempts := some maxAttempts, retryDelayMs := some webhookDelay }
      outcomes random).sleeps.length = k := by
  obtain ⟨l2, s2, heq, hlen, _, _⟩ := postLoop_skip (baseDelayOf webhookDelay) outcomes random k
    (maxAttempts.toNat - k) 0 none []
    (fun i hi => by simpa using hretry i hi)
    (fun i hi => by
      simpa using backoff_isSome webhookDelay i (random i) (hdelay i hi).1 (hdelay i hi).2)
  have hn : maxAttempts.toNat = maxAttempts.toNat - k + k := by omega
  have hr : maxAttempts.toNat - k = (maxAttempts.toNat - k - 1) + 1 := by omega
  have h500 : ¬ status ≥ 500 := by omega
  have h400 : ¬ status ≥ 400 := by omega
  simp only [postWithIdempotency]
  rw [hn, heq, hr, postLoop, Nat.zero_add, hok]
  simp only [h500, h400, if_false]
  simp [hlen]

/-- Witness for C12 amended: a 503, then a 200, one second of base delay. -/
theorem postWithIdempotency_success_witness :
    (postWithIdempotency steadyConfig busyThenOk noJitter).err = none ∧
    (postWithIdempotency steadyConfig busyThenOk noJitter).out = some crmAck ∧
    (postWithIdempotency steadyConfig busyThenOk noJitter).attempts = 2 :=
  have h := postWithIdempotency_success 3 1000 busyThenOk noJitter 1 200 crmAck (by decide)
    (fun i hi => by
      have hi0 : i = 0 := by omega
      subst hi0
      show (503 : Nat) ≥ 500
      decide)
    rfl (by decide)
    (fun i hi => by
      have hi0 : i = 0 := by omega
      subst hi0
      norm_num)
  ⟨h.2.1, h.2.2.1, h.2.2.2.1⟩

/-- C13 as stated fails: with `WEBHOOK_RETRY_DELAY_MS=0` and a 503 followed by a 404, the
loop panics after the first attempt and never reaches the 404: no client error is
returned. -/
theorem postWithIdempotency_zero_delay_no_client_error :
    Retryable (busyThenRejected 0) ∧ busyThenRejected 1 = .response 404 none ∧
    (postWithIdempotency zeroDelayConfig busyThenRejected noJitter).panicked = true ∧
    (postWithIdempotency zeroDelayConfig busyThenRejected noJitter).attempts = 1 ∧
    (postWithIdempotency zeroDelayConfig busyThenRejected noJitter).err = none := by
  refine ⟨?_, rfl, rfl, rfl, rfl⟩
  show (503 : Nat) ≥ 500
  decide

/-- C13 amended: when the retry delay is positive and the doubled delays of the `k`
retried attempts fit `int64`, `k < maxAttempts` retryable outcomes followed by a 4xx
response give a client error right after attempt `k`: exactly `k + 1` attempts and exactly
`k` sleeps, none of them after the 4xx. -/
theorem postWithIdempotency_client_error {α : Type} (maxAttempts webhookDelay : Int)
    (outcomes : Nat → HttpOutcome α) (random : Nat → Nat) (k status : Nat)
    (decoded : Option α)
    (hk : (k : Int) < maxAttempts)
    (hretry : ∀ i, i < k → Retryable (outcomes i))
    (hrej : outcomes k = .response status decoded) (h4xx : 400 ≤ status ∧ status < 500)
    (hdelay : ∀ i, i < k → 0 < webhookDelay ∧ webhookDelay * 1000000 * 2 ^ i < 2 ^ 63) :
    (postWithIdempotency { retryAttempts := some maxAttempts, retryDelayMs := some webhookDelay }
      outcomes random).panicked = false ∧
    (postWithIdempotency { retryAttempts := some maxAttempts, retryDelayMs := some webhookDelay }
      outcomes random).err = some "client error" ∧
    (postWithIdempotency { retryAttempts := some maxAttempts, retryDelayMs := some webhookDelay }
      outcomes random).out = none ∧
    (postWithIdempotency { retryAttempts := some maxAttempts, retryDelayMs := some webhookDelay }
      outcomes random).attempts = k + 1 ∧
    (postWithIdempotency { retryAttempts := some maxAttempts, retryDelayMs := some webhookDelay }
      outcomes random).sleeps.length = k := by
  obtain ⟨l2, s2, heq, hlen, _, _⟩ := postLoop_skip (baseDelayOf webhookDelay) outcomes random k
    (maxAttempts.toNat - k) 0 none []
    (fun i hi => by simpa using hretry i hi)
    (fun i hi => by
      simpa using backoff_isSome webhookDelay i (random i) (hdelay i hi).1 (hdelay i hi).2)
  have hn : maxAttempts.toNat = maxAttempts.toNat - k + k := by omega
  have hr : maxAttempts.toNat - k = (maxAttempts.toNat - k - 1) + 1 := by omega
  have h500 : ¬ status ≥ 500 := by omega
  have h400 : status ≥ 400 := by omega
  simp only [postWithIdempotency]
  rw [hn, heq, hr, postLoop, Nat.zero_add, hrej]
  simp only [h500, h400, if_false, if_true]
  simp [hlen]

/-- Witness for C13 amended: a 503, then a 404, one second of base delay. -/
theorem postWithIdempotency_client_error_witness :
    (postWithIdempotency steadyConfig busyThenRejected noJitter).err = some "client error" ∧
    (postWithIdempotency steadyConfig busyThenRejected noJitter).attempts = 2 ∧
    (postWithIdempotency steadyConfig busyThenRejected noJitter).sleeps.length = 1 :=
  have h := postWithIdempotency_client_error 3 1000 busyThenRejected noJitter 1 404 none
    (by decide)
    (fun i hi => by
      have hi0 : i = 0 := by omega
      subst hi0
      show (503 : Nat) ≥ 500
      decide)
    rfl (by decide)
    (fun i hi => by
      have hi0 : i = 0 := by omega
      subst hi0
      norm_num)
  ⟨h.2.1, h.2.2.2.1, h.2.2.2.2⟩

/-- C14 at the failing input: three attempts allowed, one second of base delay, a 503 at
every attempt. The loop makes three attempts and returns a nil error, because only a
transport error sets `lastErr`; `SendAppointmentCreated` then returns the zero response
with a nil error, and a booking run on top of it ends in a `scheduled` answer with an
empty CRM id recorded. -/
theorem postWithIdempotency_exhausted_returns_nil :
    (∀ i : Nat, Retryable (alwaysBusy i)) ∧
    (postWithIdempotency steadyConfig alwaysBusy noJitter).panicked = false ∧
    (postWithIdempotency steadyConfig alwaysBusy noJitter).attempts = 3 ∧
    (postWithIdempotency steadyConfig alwaysBusy noJitter).err = none ∧
    SendAppointmentCreated steadyConfig alwaysBusy noJitter =
      some (some zeroAppointmentCreatedResponse, none) ∧
    (BookAppointment soloWorld tenOClockRequest crmExhaustedEnv).2.bodies.map
      (fun b => (b.Error, b.Status)) = [("", "scheduled")] ∧
    (BookAppointment soloWorld tenOClockRequest crmExhaustedEnv).1.db.coach_appointments.map
      (fun a => (a.id, a.crm_contact_id)) = [("appt-2", some "")] := by
  refine ⟨?_, rfl, rfl, rfl, rfl, rfl, rfl⟩
  intro i
  show (503 : Nat) ≥ 500
  decide

/-- C15 at the failing input: the transaction commits, the CRM step succeeds and the
calendar answers the block request with 404 (or with 503 to every attempt). `BlockSlot`
returns a nil response with a nil error, and `BookAppointment` panics on the nil response:
no document is written, while the appointment stays committed as `scheduled`. -/
theorem BlockSlot_client_error_returns_nil :
    (BlockSlot steadyConfig blockRejected noJitter).panicked = false ∧
    (BlockSlot steadyConfig blockRejected noJitter).attempts = 1 ∧
    (BlockSlot steadyConfig blockRejected noJitter).out = none ∧
    (BlockSlot steadyConfig blockRejected noJitter).err = none ∧
    (BookAppointment soloWorld tenOClockRequest blockRejectedEnv).2.panicked = true ∧
    (BookAppointment soloWorld tenOClockRequest blockRejectedEnv).2.bodies = [] ∧
    (BookAppointment soloWorld tenOClockRequest blockRejectedEnv).1.db.coach_appointments.map
      (fun a => (a.id, a.status, a.external_calendar_id)) = [("appt-2", "scheduled", none)] ∧
    (BlockSlot steadyConfig blockBusy noJitter).attempts = 3 ∧
    (BlockSlot steadyConfig blockBusy noJitter).out = none ∧
    (BlockSlot steadyConfig blockBusy noJitter).err = none ∧
    (BookAppointment soloWorld tenOClockRequest blockExhaustedEnv).2.panicked = true := by
  refine ⟨rfl, rfl, rfl, rfl, rfl, rfl, rfl, rfl, rfl, rfl, rfl⟩

/-! ## Auth failures (C11) -/

/-- C11 at the failing input: a non-empty API key and an auth call that returns an error
(service unreachable, or a reply that does not decode). `ValidateKey` returns a nil
response with the error, and each of the three handlers reads `Valid` from the nil response
before it looks at the error: the run panics, nothing is written to the response, and no
`DOWNSTREAM_ERROR` document is produced. The store and the cache are untouched and the
auth call is the only interaction. -/
theorem handlers_panic_on_auth_error :
    ValidateKey authUnreachable = (none, some "dial tcp: connection refused") ∧
    ValidateKey authGarbled = (none, some "invalid character") ∧
    (∀ (w : World) (x : HttpOutcome ValidateResponse), (ValidateKey x).2 ≠ none →
      (GetAvailability w weekRequest { calmAvailabilityEnv with auth := ValidateKey x }
        = (w.log (.authValidate "key-1"), panicReply)) ∧
      (BookAppointment w tenOClockRequest { calmEnv with auth := ValidateKey x }
        = (w.log (.authValidate "key-1"), panicReply)) ∧
      (WebhookHandler w replayRequest { webhookCalmEnv with auth := ValidateKey x }
        = (w.log (.authValidate "key-1"), panicReply))) ∧
    (GetAvailability busyWorld weekRequest
      { calmAvailabilityEnv with auth := ValidateKey authUnreachable }).2.bodies = [] ∧
    (BookAppointment busyWorld tenOClockRequest
      { calmEnv with auth := ValidateKey authUnreachable }).2.bodies = [] ∧
    (WebhookHandler replayWorld replayRequest
      { webhookCalmEnv with auth := ValidateKey authUnreachable }).2.bodies = [] ∧
    (BookAppointment busyWorld tenOClockRequest
      { calmEnv with auth := ValidateKey authUnreachable }).2.panicked = true ∧
    (BookAppointment busyWorld tenOClockRequest
      { calmEnv with auth := ValidateKey authUnreachable }).1.trace =
        [Effect.authValidate "key-1"] := by
  refine ⟨rfl, rfl, ?_, rfl, rfl, rfl, rfl, rfl⟩
  intro w x hx
  cases x with
  | transportError e => exact ⟨rfl, rfl, rfl⟩
  | response status decoded =>
    cases decoded with
    | none => exact ⟨rfl, rfl, rfl⟩
    | some out => exact absurd rfl hx

/-! ## Slot synchronization (C17, C18) -/

/-- C17 at the failing input: Ada has a `scheduled` appointment at 10:00 and the slot table
has no row for her; the calendar reports 10:00 to 10:30 as free. The timestamps of a
window are always distinct. The first upsert of the window inserts (coach-a, 10:00) with the
reported flag, the second upsert of the same window meets the row and forces it to
unavailable: upserting twice does not give the rows that upserting once gives. -/
theorem syncSlot_twice_differs :
    splitInto15MinStarts freeHalfHour.StartTime freeHalfHour.EndTime =
      [10 * hour, 10 * hour + 15 * minute] ∧
    (∀ start endTime : Int, (splitInto15MinStarts start endTime).Nodup) ∧
    (syncSlot calmAvailabilityEnv "coach-a" unsyncedStore freeHalfHour).coach_slots.map
      (fun s => (s.coach_id, s.start_time, s.available)) =
      [("coach-a", 10 * hour, true), ("coach-a", 10 * hour + 15 * minute, true)] ∧
    (syncSlot calmAvailabilityEnv "coach-a"
      (syncSlot calmAvailabilityEnv "coach-a" unsyncedStore freeHalfHour)
      freeHalfHour).coach_slots.map (fun s => (s.coach_id, s.start_time, s.available)) =
      [("coach-a", 10 * hour, false), ("coach-a", 10 * hour + 15 * minute, true)] := by
  exact ⟨rfl, splitInto15MinStarts_nodup, rfl, rfl⟩

theorem upsertSlot_appointments (db : Store) (coachID : String) (st : Time) (available : Bool)
    (now : Time) :
    (upsertSlot db coachID st available now).coach_appointments = db.coach_appointments := by
  unfold upsertSlot
  split <;> rfl

theorem scheduledStartsAt_congr (db1 db2 : Store)
    (h : db1.coach_appointments = db2.coach_appointments) (coachID : String) (st : Time) :
    scheduledStartsAt db1 coachID st = scheduledStartsAt db2 coachID st := by
  unfold scheduledStartsAt
  rw [h]

/-- One upsert keeps the synchronizer's invariant. -/
theorem upsertSlot_inv (db : Store) (coachID : String) (st : Time) (available : Bool)
    (now : Time) (h : SyncInv db) : SyncInv (upsertSlot db coachID st available now) := by
  obtain ⟨hrows, hclosed⟩ := h
  have happ := upsertSlot_appointments db coachID st available now
  by_cases hex : db.coach_slots.any (fun s => s.coach_id = coachID ∧ s.start_time = st) = true
  · have hslots : (upsertSlot db coachID st available now).coach_slots =
        db.coach_slots.map (fun s =>
          if s.coach_id = coachID ∧ s.start_time = st then
            { s with available := if scheduledStartsAt db coachID st then false else available,
                     updated_at := now }
          else s) := by
      unfold upsertSlot
      rw [if_pos hex]
    constructor
    · intro a ha hsched
      rw [happ] at ha
      obtain ⟨s, hs, h1, h2⟩ := hrows a ha hsched
      rw [hslots]
      by_cases hk : s.coach_id = coachID ∧ s.start_time = st
      · refine ⟨_, List.mem_map.mpr ⟨s, hs, rfl⟩, ?_, ?_⟩
        · rw [if_pos hk]
          exact h1
        · rw [if_pos hk]
          exact h2
      · refine ⟨s, List.mem_map.mpr ⟨s, hs, ?_⟩, h1, h2⟩
        rw [if_neg hk]
    · intro s2 hs2 hsched
      rw [hslots] at hs2
      obtain ⟨s, hs, rfl⟩ := List.mem_map.mp hs2
      by_cases hk : s.coach_id = coachID ∧ s.start_time = st
      · rw [if_pos hk] at hsched ⊢
        rw [scheduledStartsAt_congr _ db happ] at hsched
        simp only at hsched
        rw [hk.1, hk.2] at hsched
        simp [hsched]
      · rw [if_neg hk] at hsched ⊢
        rw [scheduledStartsAt_congr _ db happ] at hsched
        exact hclosed s hs hsched
  · have hslots : (upsertSlot db coachID st available now).coach_slots =
        db.coach_slots ++ [{ coach_id := coachID, start_time := st, available := available,
                             updated_at := now }] := by
      unfold upsertSlot
      rw [if_neg hex]
    constructor
    · intro a ha hsched
      rw [happ] at ha
      obtain ⟨s, hs, h1, h2⟩ := hrows a ha hsched
      rw [hslots]
      exact ⟨s, List.mem_append_left _ hs, h1, h2⟩
    · intro s2 hs2 hsched
      rw [hslots] at hs2
      rw [scheduledStartsAt_congr _ db happ] at hsched
      rcases List.mem_append.mp hs2 with hs | hs
      · exact hclosed s2 hs hsched
      · rw [List.mem_singleton] at hs
        subst hs
        exfalso
        apply hex
        simp only [scheduledStartsAt, List.any_eq_true, decide_eq_true_eq] at hsched
        obtain ⟨a, ha, hc, ht, hst⟩ := hsched
        obtain ⟨s, hs, h1, h2⟩ := hrows a ha hst
        simp only [List.any_eq_true, decide_eq_true_eq]
        exact ⟨s, hs, h1.trans hc, h2.trans ht⟩

theorem syncSlot_inv (env : AvailabilityEnv) (coachID : String) (db : Store) (s : Slot)
    (h : SyncInv db) : SyncInv (syncSlot env coachID db s) := by
  unfold syncSlot
  generalize splitInto15MinStarts s.StartTime s.EndTime = starts
  induction starts generalizing db with
  | nil => exact h
  | cons st rest ih =>
    rw [List.foldl_cons]
    apply ih
    cases env.upsertErr coachID st with
    | none => exact upsertSlot_inv db coachID st s.Available env.now h
    | some e => exact h

theorem syncSlot_appointments (env : AvailabilityEnv) (coachID : String) (db : Store)
    (s : Slot) : (syncSlot env coachID db s).coach_appointments = db.coach_appointments := by
  unfold syncSlot
  generalize splitInto15MinStarts s.StartTime s.EndTime = starts
  induction starts generalizing db with
  | nil => rfl
  | cons st rest ih =>
    rw [List.foldl_cons, ih]
    cases env.upsertErr coachID st with
    | none => exact upsertSlot_appointments db coachID st s.Available env.now
    | some e => rfl

theorem syncSlots_inv (env : AvailabilityEnv) (coachID : String) (slots : List Slot)
    (db : Store) (h : SyncInv db) :
    SyncInv (slots.foldl (syncSlot env coachID) db) ∧
    (slots.foldl (syncSlot env coachID) db).coach_appointments = db.coach_appointments := by
  induction slots generalizing db with
  | nil => exact ⟨h, rfl⟩
  | cons s rest ih =>
    rw [List.foldl_cons]
    obtain ⟨h1, h2⟩ := ih (syncSlot env coachID db s) (syncSlot_inv env coachID db s h)
    exact ⟨h1, h2.trans (syncSlot_appointments env coachID db s)⟩

theorem syncCoaches_inv (env : AvailabilityEnv) (coachIDs : List String) (w : World)
    (h : SyncInv w.db) :
    SyncInv (syncCoaches env coachIDs w).1.db ∧
    (syncCoaches env coachIDs w).1.db.coach_appointments = w.db.coach_appointments ∧
    (syncCoaches env coachIDs w).1.rdb = w.rdb := by
  induction coachIDs generalizing w with
  | nil => exact ⟨h, rfl, rfl⟩
  | cons coachID rest ih =>
    unfold syncCoaches
    rcases hcal : env.calendar coachID with ⟨_ | avail, _ | e⟩
    · exact ⟨h, rfl, rfl⟩
    · exact ih (w.log (.calendarGetAvailability coachID)) h
    · obtain ⟨hinv, happ⟩ := syncSlots_inv env coachID avail.Slots w.db h
      obtain ⟨h1, h2, h3⟩ := ih
        { (w.log (.calendarGetAvailability coachID)).logs
            ((avail.Slots.flatMap (fun s => splitInto15MinStarts s.StartTime s.EndTime)).map
              (fun _ => Effect.storeWrite "coach_slots")) with
          db := avail.Slots.foldl (syncSlot env coachID)
            ((w.log (.calendarGetAvailability coachID)).logs
              ((avail.Slots.flatMap (fun s => splitInto15MinStarts s.StartTime s.EndTime)).map
                (fun _ => Effect.storeWrite "coach_slots"))).db }
        hinv
      exact ⟨h1, h2.trans happ, h3⟩
    · exact ih (w.log (.calendarGetAvailability coachID)) h

/-- C18 at the failing inputs. Ada has a `scheduled` appointment from 10:00 to 10:30 and the
calendar reports 10:00 to 10:30 as free. When both of her slot rows exist and are
unavailable, the synchronization leaves the slot at 10:00 unavailable, but the slot at
10:15, covered by the appointment, is stored as available and returned in the response: the
upsert compares the appointment start with the slot start only, where the slot update of
`BookAppointment` closes every slot of the booked interval, 10:15 included. When her slot
rows do not exist yet, both are inserted with the reported flag, without the check of the
conflict path, and the slot at 10:00, at which the appointment starts, is stored as
available and returned as well. -/
theorem GetAvailability_reopens_covered_slot :
    adaAtTen ∈ coveredWorld.db.coach_appointments ∧
    (adaAtTen.coach_id, adaAtTen.status) = ("coach-a", "scheduled") ∧
    adaAtTen.start_time ≤ 10 * hour + 15 * minute ∧
    10 * hour + 15 * minute < adaAtTen.end_time ∧
    coveredWorld.db.coach_slots.map (fun s => (s.coach_id, s.start_time, s.available)) =
      [("coach-a", 10 * hour, false), ("coach-a", 10 * hour + 15 * minute, false),
       ("coach-b", 10 * hour, true)] ∧
    (GetAvailability coveredWorld weekRequest calmAvailabilityEnv).1.db.coach_slots.map
      (fun s => (s.coach_id, s.start_time, s.available)) =
      [("coach-a", 10 * hour, false), ("coach-a", 10 * hour + 15 * minute, true),
       ("coach-b", 10 * hour, true)] ∧
    (GetAvailability coveredWorld weekRequest calmAvailabilityEnv).2.bodies =
      [.json { Error := "", Message := "", ErrorDetails := "",
               Slots := [{ CoachID := "coach-b", StartTime := 10 * hour,
                           EndTime := 10 * hour + 15 * minute },
                         { CoachID := "coach-a", StartTime := 10 * hour + 15 * minute,
                           EndTime := 10 * hour + 30 * minute }],
               TotalAvailable := 2 }] ∧
    (slotsUnavailable "coach-a" adaAtTen.start_time adaAtTen.end_time (9 * hour)
        (GetAvailability coveredWorld weekRequest calmAvailabilityEnv).1.db).map
      (fun db => db.coach_slots.map (fun s => (s.coach_id, s.start_time, s.available))) =
      some [("coach-a", 10 * hour, false), ("coach-a", 10 * hour + 15 * minute, false),
            ("coach-b", 10 * hour, true)] ∧
    unsyncedWorld.db.coach_appointments = [adaAtTen] ∧
    unsyncedWorld.db.coach_slots = [] ∧
    (GetAvailability unsyncedWorld weekRequest calmAvailabilityEnv).1.db.coach_slots.map
      (fun s => (s.coach_id, s.start_time, s.available)) =
      [("coach-a", 10 * hour, true), ("coach-a", 10 * hour + 15 * minute, true)] ∧
    (GetAvailability unsyncedWorld weekRequest calmAvailabilityEnv).2.bodies =
      [.json { Error := "", Message := "", ErrorDetails := "",
               Slots := [{ CoachID := "coach-a", StartTime := 10 * hour,
                           EndTime := 10 * hour + 15 * minute },
                         { CoachID := "coach-a", StartTime := 10 * hour + 15 * minute,
                           EndTime := 10 * hour + 30 * minute }],
               TotalAvailable := 2 }] := by
  refine ⟨?_, rfl, ?_, ?_, rfl, rfl, rfl, rfl, rfl, rfl, rfl, rfl⟩
  · exact List.mem_singleton.mpr rfl
  · decide
  · decide

theorem availableSlotsQuery_mem (db : Store) (now windowEnd : Time) (s : SlotRow)
    (h : s ∈ availableSlotsQuery db now windowEnd) : s ∈ db.coach_slots ∧ s.available = true := by
  unfold availableSlotsQuery at h
  rw [List.mem_insertionSort, List.mem_filter] at h
  refine ⟨h.1, ?_⟩
  have h2 := h.2
  simp only [decide_eq_true_eq] at h2
  exact h2.2.2

theorem bookedStartsClosed_query (db : Store) (now windowEnd : Time)
    (h : BookedStartsClosed db) (s : SlotRow) (hs : s ∈ availableSlotsQuery db now windowEnd) :
    scheduledStartsAt db s.coach_id s.start_time = false := by
  obtain ⟨hmem, hav⟩ := availableSlotsQuery_mem db now windowEnd s hs
  cases hsched : scheduledStartsAt db s.coach_id s.start_time with
  | false => rfl
  | true =>
    have := h s hmem hsched
    rw [hav] at this
    cases this

/-- A run that leaves the store alone and writes no slot keeps the invariant. -/
theorem keeps_of_unchanged (w w2 : World) (reply : Reply AvailabilityBody)
    (hinv : SyncInv w.db) (hdb : w2.db = w.db)
    (hb : ∀ resp : AvailabilityResponse, AvailabilityBody.json resp ∈ reply.bodies →
      resp.Slots = []) :
    KeepsBookedStartsClosed w (w2, reply) := by
  refine ⟨?_, ?_, ?_, ?_⟩
  · show StartsHaveRows w2.db
    rw [hdb]
    exact hinv.1
  · show BookedStartsClosed w2.db
    rw [hdb]
    exact hinv.2
  · show w2.db.coach_appointments = w.db.coach_appointments
    rw [hdb]
  · intro resp hresp sl hsl
    rw [hb resp hresp] at hsl
    cases hsl

theorem GetAvailability_keeps (w : World) (r : AvailabilityRequest) (env : AvailabilityEnv)
    (hinv : SyncInv w.db) : KeepsBookedStartsClosed w (GetAvailability w r env) := by
  unfold GetAvailability
  split
  · exact keeps_of_unchanged w _ _ hinv rfl (by simp [availabilityError])
  · split
    · exact keeps_of_unchanged w _ _ hinv rfl (by simp [panicReply])
    · exact keeps_of_unchanged w _ _ hinv rfl (by simp [availabilityError])
    · split
      · exact keeps_of_unchanged w _ _ hinv rfl (by simp [availabilityError])
      · split
        · exact keeps_of_unchanged w _ _ hinv rfl (by simp [availabilityError])
        · have hs := syncCoaches_inv env
            ((((w.log (.authValidate r.apiKey)).log (.storeRead "coaches")).db.coaches).map
              (fun c => c.ID))
            ((w.log (.authValidate r.apiKey)).log (.storeRead "coaches")) hinv
          dsimp only
          generalize syncCoaches env _ _ = res at hs ⊢
          obtain ⟨w2, p⟩ := res
          cases p with
          | true =>
            refine ⟨hs.1.1, hs.1.2, hs.2.1, ?_⟩
            intro resp hresp
            simp [panicReply] at hresp
          | false =>
            simp only
            split
            · refine ⟨hs.1.1, hs.1.2, hs.2.1, ?_⟩
              intro resp hresp
              simp at hresp
            · refine ⟨hs.1.1, hs.1.2, hs.2.1, ?_⟩
              intro resp hresp sl hsl
              simp only [List.mem_singleton, AvailabilityBody.json.injEq] at hresp
              rw [hresp] at hsl
              simp only [List.mem_map] at hsl
              obtain ⟨s, hs2, rfl⟩ := hsl
              exact bookedStartsClosed_query _ _ _ hs.1.2 s hs2

/-- What the conflict path of the upsert does protect: if every `scheduled` appointment has a
slot row at its (coach, start time) and no slot row at which a `scheduled` appointment of
its coach starts is available, then the same holds after `GetAvailability`, whatever the
calendar reports and whichever upserts fail; the appointment table is unchanged, and no
slot returned in the response is the start of a `scheduled` appointment of its coach. -/
theorem GetAvailability_keeps_booked_starts_closed (w : World) (r : AvailabilityRequest)
    (env : AvailabilityEnv) (hrows : StartsHaveRows w.db) (hclosed : BookedStartsClosed w.db) :
    StartsHaveRows (GetAvailability w r env).1.db ∧
    BookedStartsClosed (GetAvailability w r env).1.db ∧
    (GetAvailability w r env).1.db.coach_appointments = w.db.coach_appointments ∧
    ∀ resp : AvailabilityResponse,
      AvailabilityBody.json resp ∈ (GetAvailability w r env).2.bodies →
      ∀ sl ∈ resp.Slots,
        scheduledStartsAt (GetAvailability w r env).1.db sl.CoachID sl.StartTime = false :=
  GetAvailability_keeps w r env ⟨hrows, hclosed⟩

/-! ## Fairness score (C19, C20) -/

theorem foldl_squares (m : ℝ) (l : List ℝ) (a : ℝ) :
    l.foldl (fun variance u => variance + (u - m) * (u - m)) a =
      a + (l.map (fun x => (x - m) ^ 2)).sum := by
  induction l generalizing a with
  | nil => simp
  | cons x xs ih =>
    rw [List.foldl_cons, ih, List.map_cons, List.sum_cons]
    ring

/-- Over the real numbers the loop computes the formula of the specification. -/
theorem computeFairnessScore_real (v : List ℝ) :
    ComputeFairnessScore Real.sqrt v = fairnessFormula Real.sqrt v := by
  unfold ComputeFairnessScore fairnessFormula
  by_cases h : v.length = 0
  · rw [if_pos h, if_pos h]
  · rw [if_neg h, if_neg h]
    simp only
    rw [← List.sum_eq_foldl, foldl_squares, zero_add]
    have e1 : v.sum / (v.length : ℝ) = 1 / (v.length : ℝ) * v.sum := by ring
    have e2 : ∀ t : ℝ, t / (v.length : ℝ) = 1 / (v.length : ℝ) * t := by
      intro t
      ring
    rw [e1, e2]
    by_cases hneg : 1 - Real.sqrt (1 / (v.length : ℝ) *
        (v.map (fun x => (x - 1 / (v.length : ℝ) * v.sum) ^ 2)).sum) < 0
    · rw [if_pos hneg, max_eq_left (le_of_lt hneg)]
    · rw [if_neg hneg, max_eq_right (not_lt.mp hneg)]

/-- C19: over the real numbers `ComputeFairnessScore` returns 0 for the empty list, and for
a non-empty list `max(0, 1 - sqrt((1/n) * sum_i (u_i - mean)^2))` with
`mean = (1/n) * sum_i u_i`: the formula of the specification. -/
theorem ComputeFairnessScore_eq_formula (u : List ℝ) :
    ComputeFairnessScore Real.sqrt ([] : List ℝ) = 0 ∧
    ComputeFairnessScore Real.sqrt u = fairnessFormula Real.sqrt u ∧
    ∀ (x : ℝ) (xs : List ℝ),
      ComputeFairnessScore Real.sqrt (x :: xs) =
        max 0 (1 - Real.sqrt ((1 / ((x :: xs).length : ℝ)) *
          ((x :: xs).map (fun y =>
            (y - (1 / ((x :: xs).length : ℝ)) * (x :: xs).sum) ^ 2)).sum)) := by
  refine ⟨rfl, computeFairnessScore_real u, ?_⟩
  intro x xs
  rw [computeFairnessScore_real]
  unfold fairnessFormula
  rw [if_neg (by simp)]

/-- Over the real numbers the score lies between 0 and 1 and is 1 for a non-empty list of
equal ratios. -/
theorem computeFairnessScore_real_bounds (u : List ℝ) :
    0 ≤ ComputeFairnessScore Real.sqrt u ∧ ComputeFairnessScore Real.sqrt u ≤ 1 ∧
    ∀ (c : ℝ) (n : Nat), ComputeFairnessScore Real.sqrt (List.replicate (n + 1) c) = 1 := by
  refine ⟨?_, ?_, ?_⟩
  · rw [computeFairnessScore_real]
    unfold fairnessFormula
    split
    · exact le_refl 0
    · exact le_max_left _ _
  · rw [computeFairnessScore_real]
    unfold fairnessFormula
    split
    · exact zero_le_one
    · apply max_le zero_le_one
      have := Real.sqrt_nonneg (1 / (u.length : ℝ) *
        (u.map (fun x => (x - 1 / (u.length : ℝ) * u.sum) ^ 2)).sum)
      linarith
  · intro c n
    rw [computeFairnessScore_real]
    unfold fairnessFormula
    rw [if_neg (by simp)]
    have hn : ((n : ℝ) + 1) ≠ 0 := by positivity
    have hmean : 1 / (((List.replicate (n + 1) c).length : Nat) : ℝ) *
        (List.replicate (n + 1) c).sum = c := by
      simp only [List.length_replicate, List.sum_replicate, smul_eq_mul, nsmul_eq_mul]
      push_cast
      field_simp
    simp only [hmean]
    simp

/-- C20 at the failing input: a coach with `MaxDailyAppointments = 0` and no appointment
today has utilization `0 / 0`, which is NaN; `ComputeFairnessScore` on that list returns
NaN, because NaN goes through every operation and `score < 0` is false for it. A coach with
limit zero and one appointment has utilization `+Inf`, which also ends in NaN. NaN is
neither at least 0 nor at most 1. -/
theorem ComputeFairnessScore_nan :
    (coachUtilizations idleStore 0 : List F64) = [F64.nan] ∧
    (∀ sqrtNum : ℚ → ℚ, distributionFairnessScore (F64.sqrt sqrtNum) idleStore 0 = F64.nan) ∧
    (∀ sqrtNum : ℚ → ℚ, ComputeFairnessScore (F64.sqrt sqrtNum) [F64.nan] = F64.nan) ∧
    ((1 : F64) / (0 : F64) = F64.posInf) ∧
    (∀ sqrtNum : ℚ → ℚ, ComputeFairnessScore (F64.sqrt sqrtNum) [F64.posInf] = F64.nan) ∧
    F64.lt F64.nan 0 = false ∧ F64.lt 0 F64.nan = false ∧ F64.lt F64.nan 1 = false ∧
    F64.nan ≠ 0 ∧ F64.nan ≠ 1 := by
  refine ⟨rfl, fun _ => rfl, fun _ => rfl, rfl, fun _ => rfl, rfl, rfl, rfl, ?_, ?_⟩
  · intro h
    cases h
  · intro h
    cases h

/-- The conflict path at work: Ada booked from 10:00, her rows closed, the calendar reporting
her free. -/
theorem GetAvailability_keeps_booked_starts_closed_witness :
    StartsHaveRows coveredWorld.db ∧ BookedStartsClosed coveredWorld.db ∧
    BookedStartsClosed (GetAvailability coveredWorld weekRequest calmAvailabilityEnv).1.db :=
  have h1 : StartsHaveRows coveredWorld.db := by
    intro a ha _
    have ha2 : a = adaAtTen := List.mem_singleton.mp ha
    subst ha2
    exact ⟨_, List.mem_cons_self _ _, rfl, rfl⟩
  have h2 : BookedStartsClosed coveredWorld.db := by
    intro s hs hsched
    have hs2 : s ∈ [({ coach_id := "coach-a", start_time := 10 * hour, available := false,
                       updated_at := 0 } : SlotRow),
                    { coach_id := "coach-a", start_time := 10 * hour + 15 * minute,
                      available := false, updated_at := 0 },
                    { coach_id := "coach-b", start_time := 10 * hour, available := true,
                      updated_at := 0 }] := hs
    simp only [List.mem_cons, List.mem_singleton, List.not_mem_nil, or_false] at hs2
    rcases hs2 with h | h | h
    · rw [h]
    · rw [h]
    · rw [h] at hsched
      have hno : scheduledStartsAt coveredWorld.db "coach-b" (10 * hour) = false := rfl
      rw [hno] at hsched
      cases hsched
  ⟨h1, h2, (GetAvailability_keeps_booked_starts_closed coveredWorld weekRequest
    calmAvailabilityEnv h1 h2).2.1⟩

/-! ## Eligibility stages (C21, C22) -/

/-- The count query matches the appointments the spec's count counts. -/
theorem dailyCountQuery_eq (db : Store) (c : Coach) (dayStart : Time) :
    dailyCountQuery db c dayStart =
      if scheduledThatDay db c dayStart = 0 then none
      else some (scheduledThatDay db c dayStart, c.MaxDailyAppointments) := by
  have h : (db.coach_appointments.filter (fun a =>
      decide (a.coach_id = c.ID ∧ a.start_time ≥ dayStart + c.WorkingHoursStart ∧
        a.end_time ≤ dayStart + c.WorkingHoursEnd ∧ a.status = "scheduled"))).length =
      scheduledThatDay db c dayStart := by
    unfold scheduledThatDay
    congr 1
    apply List.filter_congr
    intro a _
    rw [decide_eq_decide]
    constructor
    · rintro ⟨h1, h2, h3, h4⟩
      exact ⟨h1, h4, h2, h3⟩
    · rintro ⟨h1, h2, h3, h4⟩
      exact ⟨h1, h3, h4, h2⟩
  unfold dailyCountQuery
  simp only [h]

/-- One iteration of the loop of stage 2 appends the candidate exactly when it survives. -/
theorem stage2_step (db : Store) (countErr : String → Option String) (dayStart : Time)
    (coachLister : List Coach) (c : Coach) :
    (match countErr c.ID with
      | some _ => coachLister
      | none =>
        match dailyCountQuery db c dayStart with
        | none => coachLister ++ [c]
        | some (currentAppointments, maxDaily) =>
          if (currentAppointments : Int) < maxDaily then coachLister ++ [c]
          else coachLister) =
      if survivesStage2 db countErr c dayStart = true then coachLister ++ [c]
      else coachLister := by
  rw [dailyCountQuery_eq]
  unfold survivesStage2
  cases countErr c.ID with
  | some e => simp
  | none =>
    by_cases h0 : scheduledThatDay db c dayStart = 0
    · simp [h0]
    · by_cases hlt : (scheduledThatDay db c dayStart : Int) < c.MaxDailyAppointments
      · simp [h0, hlt]
      · simp [h0, hlt]

/-- The loop of stage 2 from any accumulated list. -/
theorem stage2_foldl (db : Store) (countErr : String → Option String) (dayStart : Time)
    (coaches acc : List Coach) :
    coaches.foldl (fun coachLister c =>
      match countErr c.ID with
      | some _ => coachLister
      | none =>
        match dailyCountQuery db c dayStart with
        | none => coachLister ++ [c]
        | some (currentAppointments, maxDaily) =>
          if (currentAppointments : Int) < maxDaily then coachLister ++ [c]
          else coachLister) acc =
      acc ++ coaches.filter (fun c => survivesStage2 db countErr c dayStart) := by
  induction coaches generalizing acc with
  | nil => simp
  | cons c rest ih =>
    rw [List.foldl_cons, stage2_step, ih]
    by_cases hs : survivesStage2 db countErr c dayStart = true
    · simp [hs]
    · simp [hs]

/-- Stage 2 is the filter of the candidates by the survival test. -/
theorem stage2_eq_filter (db : Store) (countErr : String → Option String)
    (coaches : List Coach) (dayStart : Time) :
    stage2 db countErr coaches dayStart =
      coaches.filter (fun c => survivesStage2 db countErr c dayStart) := by
  unfold stage2
  rw [stage2_foldl]
  simp

/-- The day of `appointmentDay` is the whole day that holds the reading. -/
theorem appointmentDay_spec (t : Int) :
    appointmentDay t % 86400000000000 = 0 ∧ appointmentDay t ≤ t ∧
      t < appointmentDay t + 86400000000000 := by
  unfold appointmentDay dayLength hour minute Time
  omega

/-- C22 as stated fails in two ways. A coach whose limit is zero and who has no appointment
has a count of zero, which is not below the limit, and survives stage 2, because the count
query yields no row. A coach with no appointment and a limit of three, whose count query
ends in an error other than `sql.ErrNoRows`, is dropped although the count is below the
limit. -/
theorem stage2_zero_limit_survives :
    idleStore.coaches = [restingCoach] ∧
    restingCoach.MaxDailyAppointments = 0 ∧
    scheduledThatDay idleStore restingCoach (appointmentDay (10 * hour)) = 0 ∧
    dailyCountQuery idleStore restingCoach (appointmentDay (10 * hour)) = none ∧
    stage2 idleStore calmEnv.countErr [restingCoach] (appointmentDay (10 * hour)) =
      [restingCoach] ∧
    coachBen.MaxDailyAppointments = 3 ∧
    scheduledThatDay soloStore coachBen (appointmentDay (10 * hour)) = 0 ∧
    benScanFails coachBen.ID = some "driver: bad connection" ∧
    stage2 soloStore benScanFails [coachBen] (appointmentDay (10 * hour)) = [] := by
  refine ⟨rfl, rfl, rfl, rfl, rfl, rfl, rfl, rfl, rfl⟩

/-- C22 amended: with `day` the calendar day that the requested start time shows in the zone
offset it was written with (a whole multiple of 24 hours, at most 24 hours before the
shifted start time), stage 2 keeps, in the order of the candidate list, exactly the
candidates whose count query does not end in an error and either yields no row (no
`scheduled` appointment of the candidate within its working hours on that day) or yields a
count below the candidate's `MaxDailyAppointments`. The survivors form a sublist of the
candidates; a candidate with at least one matching appointment and a count at or above the
limit does not survive, and neither does a candidate whose count query ends in an error. -/
theorem stage2_spec (db : Store) (countErr : String → Option String) (coaches : List Coach)
    (req : BookAppointmentRequest) (day : Time)
    (hday : day = appointmentDay (req.StartTime + req.StartOffset)) :
    (dayLength = 86400000000000 ∧ day % dayLength = 0 ∧
      day ≤ req.StartTime + req.StartOffset ∧
      req.StartTime + req.StartOffset < day + dayLength) ∧
    stage2 db countErr coaches (appointmentDay (req.StartTime + req.StartOffset)) =
      coaches.filter (fun c => survivesStage2 db countErr c day) ∧
    (stage2 db countErr coaches (appointmentDay (req.StartTime + req.StartOffset))).Sublist
      coaches ∧
    (∀ c : Coach, dailyCountQuery db c day = none ↔ scheduledThatDay db c day = 0) ∧
    (∀ c : Coach,
      c ∈ stage2 db countErr coaches (appointmentDay (req.StartTime + req.StartOffset)) ↔
        c ∈ coaches ∧ countErr c.ID = none ∧
          (scheduledThatDay db c day = 0 ∨
            (scheduledThatDay db c day : Int) < c.MaxDailyAppointments)) ∧
    (∀ c : Coach, 0 < scheduledThatDay db c day ∧
      c.MaxDailyAppointments ≤ (scheduledThatDay db c day : Int) →
        c ∉ stage2 db countErr coaches (appointmentDay (req.StartTime + req.StartOffset))) ∧
    (∀ c : Coach, countErr c.ID ≠ none →
      c ∉ stage2 db countErr coaches (appointmentDay (req.StartTime + req.StartOffset))) := by
  subst hday
  have hnone : ∀ c : Coach,
      dailyCountQuery db c (appointmentDay (req.StartTime + req.StartOffset)) = none ↔
        scheduledThatDay db c (appointmentDay (req.StartTime + req.StartOffset)) = 0 := by
    intro c
    rw [dailyCountQuery_eq]
    by_cases h0 : scheduledThatDay db c (appointmentDay (req.StartTime + req.StartOffset)) = 0
    · simp [h0]
    · simp [h0]
  have hmem : ∀ c : Coach,
      c ∈ stage2 db countErr coaches (appointmentDay (req.StartTime + req.StartOffset)) ↔
        c ∈ coaches ∧ countErr c.ID = none ∧
          (scheduledThatDay db c (appointmentDay (req.StartTime + req.StartOffset)) = 0 ∨
            (scheduledThatDay db c (appointmentDay (req.StartTime + req.StartOffset)) : Int) <
              c.MaxDailyAppointments) := by
    intro c
    rw [stage2_eq_filter, List.mem_filter]
    unfold survivesStage2
    simp [Option.isNone_iff_eq_none]
  have hspec := appointmentDay_spec (req.StartTime + req.StartOffset)
  have hlen : dayLength = 86400000000000 := rfl
  refine ⟨⟨hlen, ?_, ?_, ?_⟩, stage2_eq_filter db countErr coaches _, ?_, hnone, hmem, ?_, ?_⟩
  · rw [hlen]
    exact hspec.1
  · exact hspec.2.1
  · rw [hlen]
    exact hspec.2.2
  · rw [stage2_eq_filter]
    exact List.filter_sublist _
  · rintro c ⟨hpos, hge⟩ hin
    rcases ((hmem c).mp hin).2.2 with h | h
    · omega
    · omega
  · intro c herr hin
    exact herr ((hmem c).mp hin).2.1

/-- Witness for C22 amended: a request for 10:00 UTC on day zero. The count query of Ada
yields the row (1, 1), so she is at her limit and stage 2 drops her, while Ben, for whom the
query yields no row, survives. For a request written as 00:30+02:00 the day is the one of
the written date, two hours after the instant's own UTC day began. -/
theorem stage2_spec_witness :
    appointmentDay (10 * hour + 0) = 0 ∧
    dailyCountQuery busyStore coachAda 0 = some (1, 1) ∧
    dailyCountQuery busyStore coachBen 0 = none ∧
    coachAda ∉ stage2 busyStore calmEnv.countErr [coachAda, coachBen]
      (appointmentDay (10 * hour + 0)) ∧
    coachBen ∈ stage2 busyStore calmEnv.countErr [coachAda, coachBen]
      (appointmentDay (10 * hour + 0)) ∧
    appointmentDay (halfPastMidnightRequest.StartTime + halfPastMidnightRequest.StartOffset) =
      dayLength ∧
    appointmentDay halfPastMidnightRequest.StartTime = 0 :=
  have hq : dailyCountQuery busyStore coachAda 0 = some (1, 1) := rfl
  have hb : dailyCountQuery busyStore coachBen 0 = none := rfl
  have hs : scheduledThatDay busyStore coachAda 0 = 1 := rfl
  have hspec := stage2_spec busyStore calmEnv.countErr [coachAda, coachBen]
    { CalendarID := "cal-1", ContactEmail := "pat@example.org", ContactName := "Pat",
      StartTime := 10 * hour, StartOffset := 0, TimeZone := "UTC", Notes := "first session" }
    0 rfl
  ⟨rfl, hq, hb,
    hspec.2.2.2.2.2.1 coachAda ⟨by rw [hs]; decide, by rw [hs]; decide⟩,
    (hspec.2.2.2.2.1 coachBen).mpr
      ⟨List.mem_cons_of_mem _ (List.mem_singleton.mpr rfl), rfl,
        Or.inl ((hspec.2.2.2.1 coachBen).mp hb)⟩,
    rfl, rfl⟩

/-- The loop of stage 3 from any accumulated list: the coach appended at position `i` is
the one at position `i` of the stage-1 list, kept when the check of the coach at position
`i` of the stage-2 list is true. -/
theorem stage3_foldl (db : Store) (start : Time) (coachLister coaches acc : List Coach) :
    (List.range coachLister.length).foldl (fun newCoachList i =>
      match coachLister[i]?, coaches[i]? with
      | some tested, some appended =>
        if isAvailable db tested.ID start then newCoachList ++ [appended] else newCoachList
      | _, _ => newCoachList) acc =
      acc ++ ((coachLister.zip coaches).filter
        (fun p => isAvailable db p.1.ID start)).map Prod.snd := by
  induction coachLister generalizing coaches acc with
  | nil => simp
  | cons x l ih =>
    rw [List.length_cons, List.range_succ_eq_map, List.foldl_cons, List.foldl_map]
    cases coaches with
    | nil =>
      have hconst : ∀ (is : List Nat) (a : List Coach),
          is.foldl (fun (newCoachList : List Coach) (_ : Nat) => newCoachList) a = a := by
        intro is
        induction is with
        | nil => intro a; rfl
        | cons i is ihs => intro a; rw [List.foldl_cons, ihs]
      simp [hconst]
    | cons y cs =>
      simp only [List.getElem?_cons_succ, List.getElem?_cons_zero]
      rw [ih cs]
      by_cases hx : isAvailable db x.ID start = true
      · simp [hx]
      · simp [hx]

/-- Stage 3 pairs the stage-2 list with the stage-1 list by position and returns the
stage-1 members of the pairs whose stage-2 member passes the check. -/
theorem stage3_eq_zip (db : Store) (coaches coachLister : List Coach) (start : Time) :
    stage3 db coaches coachLister start =
      ((coachLister.zip coaches).filter (fun p => isAvailable db p.1.ID start)).map
        Prod.snd := by
  unfold stage3
  rw [stage3_foldl]
  simp

/-- C21: stage 3 tests `coachLister[i]` and appends `coaches[i]`. With Ada (booked at 10:00,
at her daily limit) and Ben (free) on the calendar, stage 2 keeps only Ben, the check of Ben
is true and the check of Ada is false, and stage 3 returns Ada, who was neither checked nor
available, instead of the sublist of survivors whose own check is true, which is Ben. -/
theorem stage3_returns_untested_coach :
    coachesQuery busyStore "cal-1" = [coachAda, coachBen] ∧
    stage2 busyStore calmEnv.countErr [coachAda, coachBen] (appointmentDay (10 * hour)) =
      [coachBen] ∧
    isAvailable busyStore coachBen.ID (10 * hour) = true ∧
    isAvailable busyStore coachAda.ID (10 * hour) = false ∧
    stage3 busyStore [coachAda, coachBen] [coachBen] (10 * hour) = [coachAda] ∧
    stage3Intended busyStore [coachBen] (10 * hour) = [coachBen] ∧
    coachAda ∉ stage3Intended busyStore [coachBen] (10 * hour) ∧
    (∀ (db : Store) (coaches coachLister : List Coach) (start : Time),
      stage3 db coaches coachLister start =
        ((coachLister.zip coaches).filter (fun p => isAvailable db p.1.ID start)).map
          Prod.snd) := by
  refine ⟨rfl, rfl, rfl, rfl, rfl, rfl, ?_, stage3_eq_zip⟩
  decide

/-! ## Retry threshold (C23) -/

/-- A status from 500 on whose backoff succeeds sends the loop of `postWithIdempotency` into
its next iteration. -/
theorem postLoop_retries {α : Type} (baseDelay : Time) (outcomes : Nat → HttpOutcome α)
    (random : Nat → Nat) (remaining attempt : Nat) (lastErr : Option String)
    (sleeps : List Time) (status : Nat) (decoded : Option α) (d : Time)
    (hout : outcomes attempt = .response status decoded) (hs : 500 ≤ status)
    (hb : backoff baseDelay attempt (random attempt) = some d) :
    postLoop baseDelay outcomes random (remaining + 1) attempt lastErr sleeps =
      postLoop baseDelay outcomes random remaining (attempt + 1) lastErr (sleeps ++ [d]) := by
  rw [postLoop, hout]
  simp only [ge_iff_le, hs, if_true, hb]

/-- A status from 500 on whose backoff succeeds sends the loop of the calendar client's
`GetAvailability` into its next iteration. -/
theorem getAvailabilityLoop_retries (baseDelay : Time)
    (outcomes : Nat → HttpOutcome GetAvailabilityResponse) (random : Nat → Nat)
    (remaining attempt : Nat) (lastErr : Option String) (sleeps : List Time) (status : Nat)
    (decoded : Option GetAvailabilityResponse) (d : Time)
    (hout : outcomes attempt = .response status decoded) (hs : 500 ≤ status)
    (hb : backoff baseDelay attempt (random attempt) = some d) :
    getAvailabilityLoop baseDelay outcomes random (remaining + 1) attempt lastErr sleeps =
      getAvailabilityLoop baseDelay outcomes random remaining (attempt + 1) lastErr
        (sleeps ++ [d]) := by
  rw [getAvailabilityLoop, hout]
  simp only [ge_iff_le, hs, if_true, hb]

/-- A status of exactly 500 ends the loop of `BlockSlot` at once. -/
theorem blockSlotLoop_returns_on_500 (baseDelay : Time)
    (outcomes : Nat → HttpOutcome BlockSlotResponse) (random : Nat → Nat)
    (remaining attempt : Nat) (lastErr : Option String) (sleeps : List Time)
    (decoded : Option BlockSlotResponse) (hout : outcomes attempt = .response 500 decoded) :
    blockSlotLoop baseDelay outcomes random (remaining + 1) attempt lastErr sleeps =
      { panicked := false, err := none, out := none, attempts := attempt + 1,
        sleeps := sleeps } := by
  rw [blockSlotLoop, hout]
  rfl

/-- C23 at the failing input: three attempts allowed, one second of base delay, a 500 at the
first attempt (index 0, below `maxAttempts - 1 = 2`) and a decodable 200 afterwards. The
loops of `postWithIdempotency` and of the calendar client's `GetAvailability` sleep and make
the second attempt, which succeeds; the loop of `BlockSlot`, whose test is
`resp.StatusCode > 500`, returns on the 500 after one attempt with a nil response and a nil
error, while it does retry a 501. In general the two other loops go into the next iteration
on every status from 500 on whose backoff succeeds, and `BlockSlot` returns on a 500 at any
attempt without sleeping and without a further attempt. -/
theorem BlockSlot_status_500_not_retried :
    postWithIdempotency steadyConfig (serverErrorThenOk crmAck) noJitter =
      { panicked := false, err := none, out := some crmAck, attempts := 2,
        sleeps := [1000000000] } ∧
    AvailabilityClient.GetAvailability steadyConfig (serverErrorThenOk adaReport) noJitter =
      { panicked := false, err := none, out := some adaReport, attempts := 2,
        sleeps := [1000000000] } ∧
    BlockSlot steadyConfig (serverErrorThenOk blockAck) noJitter =
      { panicked := false, err := none, out := none, attempts := 1, sleeps := [] } ∧
    BlockSlot steadyConfig
        (fun i => if i = 0 then .response 501 none else .response 200 (some blockAck))
        noJitter =
      { panicked := false, err := none, out := some blockAck, attempts := 2,
        sleeps := [1000000000] } ∧
    (∀ (baseDelay : Time) (outcomes : Nat → HttpOutcome AppointmentCreatedResponse)
        (random : Nat → Nat) (remaining attempt : Nat) (lastErr : Option String)
        (sleeps : List Time) (status : Nat) (decoded : Option AppointmentCreatedResponse)
        (d : Time),
      outcomes attempt = .response status decoded → 500 ≤ status →
      backoff baseDelay attempt (random attempt) = some d →
        postLoop baseDelay outcomes random (remaining + 1) attempt lastErr sleeps =
          postLoop baseDelay outcomes random remaining (attempt + 1) lastErr
            (sleeps ++ [d])) ∧
    (∀ (baseDelay : Time) (outcomes : Nat → HttpOutcome GetAvailabilityResponse)
        (random : Nat → Nat) (remaining attempt : Nat) (lastErr : Option String)
        (sleeps : List Time) (status : Nat) (decoded : Option GetAvailabilityResponse)
        (d : Time),
      outcomes attempt = .response status decoded → 500 ≤ status →
      backoff baseDelay attempt (random attempt) = some d →
        getAvailabilityLoop baseDelay outcomes random (remaining + 1) attempt lastErr sleeps =
          getAvailabilityLoop baseDelay outcomes random remaining (attempt + 1) lastErr
            (sleeps ++ [d])) ∧
    (∀ (baseDelay : Time) (outcomes : Nat → HttpOutcome BlockSlotResponse)
        (random : Nat → Nat) (remaining attempt : Nat) (lastErr : Option String)
        (sleeps : List Time) (decoded : Option BlockSlotResponse),
      outcomes attempt = .response 500 decoded →
        blockSlotLoop baseDelay outcomes random (remaining + 1) attempt lastErr sleeps =
          { panicked := false, err := none, out := none, attempts := attempt + 1,
            sleeps := sleeps }) := by
  refine ⟨rfl, rfl, rfl, rfl, ?_, ?_, ?_⟩
  · intro baseDelay outcomes random remaining attempt lastErr sleeps status decoded d h1 h2 h3
    exact postLoop_retries baseDelay outcomes random remaining attempt lastErr sleeps status
      decoded d h1 h2 h3
  · intro baseDelay outcomes random remaining attempt lastErr sleeps status decoded d h1 h2 h3
    exact getAvailabilityLoop_retries baseDelay outcomes random remaining attempt lastErr
      sleeps status decoded d h1 h2 h3
  · intro baseDelay outcomes random remaining attempt lastErr sleeps decoded h1
    exact blockSlotLoop_returns_on_500 baseDelay outcomes random remaining attempt lastErr
      sleeps decoded h1

/-! ## Slot granularity (C24) -/

/-- C24 as stated fails: the window from 10:07:30 to 10:30 is decomposed into the starts
10:07 and 10:22, truncated to the minute but not to the quarter hour (7 and 22 minutes past
the hour), and the synchronizer upserts rows with these start times. -/
theorem splitInto15MinStarts_unaligned_window :
    sevenPastTen % (15 * minute) = 7 * minute + 30000000000 ∧
    splitInto15MinStarts sevenPastTen (10 * hour + 30 * minute) =
      [10 * hour + 7 * minute, 10 * hour + 22 * minute] ∧
    (10 * hour + 7 * minute) % (15 * minute) = 7 * minute ∧
    (10 * hour + 22 * minute) % (15 * minute) = 7 * minute ∧
    (10 * hour + 7 * minute) % hour = 7 * minute ∧
    (10 * hour + 22 * minute) % hour = 22 * minute ∧
    (syncSlot calmAvailabilityEnv "coach-a" emptyStore oddWindow).coach_slots.map
      (fun s => (s.coach_id, s.start_time)) =
      [("coach-a", 10 * hour + 7 * minute), ("coach-a", 10 * hour + 22 * minute)] := by
  refine ⟨rfl, rfl, rfl, rfl, rfl, rfl, rfl⟩

/-- Every start of the decomposition is the minute-truncated window start plus a whole
number of quarter hours. -/
theorem splitInto15MinStarts_mem (start endTime t : Int)
    (h : t ∈ splitInto15MinStarts start endTime) :
    ∃ k : Nat, t = truncateMinute start + 900000000000 * (k : Int) := by
  rw [splitInto15MinStarts_range, List.mem_map] at h
  obtain ⟨k, _, hk⟩ := h
  refine ⟨k, ?_⟩
  rw [← hk]
  simp only [minute]
  norm_num

/-- Every start of the decomposition is a whole multiple of one minute. -/
theorem splitInto15MinStarts_minute (start endTime t : Int)
    (h : t ∈ splitInto15MinStarts start endTime) : t % minute = 0 := by
  obtain ⟨k, hk⟩ := splitInto15MinStarts_mem start endTime t h
  have h0 := (truncateMinute_spec start).1
  simp only [minute]
  unfold Time at *
  omega

/-- An upsert keeps a row at every (coach, start time) key that had one. -/
theorem upsertSlot_keeps_key (db : Store) (coachID : String) (st : Time) (available : Bool)
    (now : Time) (c : String) (t : Time)
    (h : ∃ row ∈ db.coach_slots, row.coach_id = c ∧ row.start_time = t) :
    ∃ row ∈ (upsertSlot db coachID st available now).coach_slots,
      row.coach_id = c ∧ row.start_time = t := by
  obtain ⟨s, hs, h1, h2⟩ := h
  unfold upsertSlot
  split
  · by_cases hk : s.coach_id = coachID ∧ s.start_time = st
    · refine ⟨_, List.mem_map.mpr ⟨s, hs, rfl⟩, ?_, ?_⟩
      · rw [if_pos hk]
        exact h1
      · rw [if_pos hk]
        exact h2
    · refine ⟨s, List.mem_map.mpr ⟨s, hs, ?_⟩, h1, h2⟩
      rw [if_neg hk]
  · exact ⟨s, List.mem_append_left _ hs, h1, h2⟩

/-- After an upsert the table has a row at the upserted (coach, start time) key. -/
theorem upsertSlot_has_key (db : Store) (coachID : String) (st : Time) (available : Bool)
    (now : Time) :
    ∃ row ∈ (upsertSlot db coachID st available now).coach_slots,
      row.coach_id = coachID ∧ row.start_time = st := by
  by_cases hex : db.coach_slots.any (fun s => s.coach_id = coachID ∧ s.start_time = st) = true
  · apply upsertSlot_keeps_key
    simp only [List.any_eq_true, decide_eq_true_eq] at hex
    exact hex
  · unfold upsertSlot
    rw [if_neg hex]
    exact ⟨_, List.mem_append_right _ (List.mem_singleton.mpr rfl), rfl, rfl⟩

/-- The upserts of a list of starts leave a row at every start whose upsert does not fail. -/
theorem upserts_have_key (env : AvailabilityEnv) (coachID : String) (available : Bool)
    (starts : List Time) (db : Store) (t : Time) :
    ((∃ row ∈ db.coach_slots, row.coach_id = coachID ∧ row.start_time = t) ∨
      (t ∈ starts ∧ env.upsertErr coachID t = none)) →
    ∃ row ∈ (starts.foldl (fun db st =>
        match env.upsertErr coachID st with
        | some _ => db
        | none => upsertSlot db coachID st available env.now) db).coach_slots,
      row.coach_id = coachID ∧ row.start_time = t := by
  induction starts generalizing db with
  | nil =>
    rintro (h | ⟨h, _⟩)
    · exact h
    · cases h
  | cons st rest ih =>
    intro h
    rw [List.foldl_cons]
    apply ih
    rcases h with h | ⟨hmem, herr⟩
    · left
      cases env.upsertErr coachID st with
      | none => exact upsertSlot_keeps_key db coachID st available env.now coachID t h
      | some e => exact h
    · rcases List.mem_cons.mp hmem with heq | hrest
      · left
        subst heq
        rw [herr]
        exact upsertSlot_has_key db coachID t available env.now
      · exact Or.inr ⟨hrest, herr⟩

theorem newStartsOnMinute_refl (db : Store) : NewStartsOnMinute db db :=
  fun row hrow => Or.inl ⟨row, hrow, rfl, rfl⟩

/-- One upsert of a start on a whole minute keeps `NewStartsOnMinute`. -/
theorem upsertSlot_newStarts (db0 db : Store) (coachID : String) (st : Time)
    (available : Bool) (now : Time) (hst : st % minute = 0) (h : NewStartsOnMinute db0 db) :
    NewStartsOnMinute db0 (upsertSlot db coachID st available now) := by
  intro row hrow
  unfold upsertSlot at hrow
  split at hrow
  · obtain ⟨s, hs, rfl⟩ := List.mem_map.mp hrow
    by_cases hk : s.coach_id = coachID ∧ s.start_time = st
    · rw [if_pos hk]
      exact h s hs
    · rw [if_neg hk]
      exact h s hs
  · rcases List.mem_append.mp hrow with hs | hs
    · exact h row hs
    · rw [List.mem_singleton] at hs
      subst hs
      exact Or.inr hst

theorem syncSlot_newStarts (env : AvailabilityEnv) (coachID : String) (db0 db : Store)
    (s : Slot) (h : NewStartsOnMinute db0 db) :
    NewStartsOnMinute db0 (syncSlot env coachID db s) := by
  unfold syncSlot
  have hall : ∀ t ∈ splitInto15MinStarts s.StartTime s.EndTime, t % minute = 0 :=
    fun t ht => splitInto15MinStarts_minute s.StartTime s.EndTime t ht
  generalize splitInto15MinStarts s.StartTime s.EndTime = starts at hall
  induction starts generalizing db with
  | nil => exact h
  | cons st rest ih =>
    rw [List.foldl_cons]
    apply ih
    · cases env.upsertErr coachID st with
      | none =>
        exact upsertSlot_newStarts db0 db coachID st s.Available env.now
          (hall st (List.mem_cons_self _ _)) h
      | some e => exact h
    · intro t ht
      exact hall t (List.mem_cons_of_mem _ ht)

theorem syncSlots_newStarts (env : AvailabilityEnv) (coachID : String) (slots : List Slot)
    (db0 db : Store) (h : NewStartsOnMinute db0 db) :
    NewStartsOnMinute db0 (slots.foldl (syncSlot env coachID) db) := by
  induction slots generalizing db with
  | nil => exact h
  | cons s rest ih =>
    rw [List.foldl_cons]
    exact ih (syncSlot env coachID db s) (syncSlot_newStarts env coachID db0 db s h)

theorem syncCoaches_newStarts (env : AvailabilityEnv) (coachIDs : List String) (db0 : Store)
    (w : World) (h : NewStartsOnMinute db0 w.db) :
    NewStartsOnMinute db0 (syncCoaches env coachIDs w).1.db := by
  induction coachIDs generalizing w with
  | nil => exact h
  | cons coachID rest ih =>
    unfold syncCoaches
    rcases hcal : env.calendar coachID with ⟨_ | avail, _ | e⟩
    · exact h
    · exact ih (w.log (.calendarGetAvailability coachID)) h
    · exact ih
        { (w.log (.calendarGetAvailability coachID)).logs
            ((avail.Slots.flatMap (fun s => splitInto15MinStarts s.StartTime s.EndTime)).map
              (fun _ => Effect.storeWrite "coach_slots")) with
          db := avail.Slots.foldl (syncSlot env coachID)
            ((w.log (.calendarGetAvailability coachID)).logs
              ((avail.Slots.flatMap (fun s => splitInto15MinStarts s.StartTime s.EndTime)).map
                (fun _ => Effect.storeWrite "coach_slots"))).db }
        (syncSlots_newStarts env coachID avail.Slots db0 w.db h)
    · exact ih (w.log (.calendarGetAvailability coachID)) h

theorem GetAvailability_newStarts (w : World) (r : AvailabilityRequest)
    (env : AvailabilityEnv) : NewStartsOnMinute w.db (GetAvailability w r env).1.db := by
  have h0 := newStartsOnMinute_refl w.db
  unfold GetAvailability
  split
  · exact h0
  · split
    · exact h0
    · exact h0
    · split
      · exact h0
      · split
        · exact h0
        · have hs := syncCoaches_newStarts env
            ((((w.log (.authValidate r.apiKey)).log (.storeRead "coaches")).db.coaches).map
              (fun c => c.ID)) w.db
            ((w.log (.authValidate r.apiKey)).log (.storeRead "coaches")) h0
          dsimp only
          generalize syncCoaches env _ _ = res at hs ⊢
          obtain ⟨w2, p⟩ := res
          cases p with
          | true => exact hs
          | false =>
            simp only
            split
            · exact hs
            · exact hs

/-- C24 amended: every start that `splitInto15MinStarts` produces is a whole multiple of one
minute (zero seconds) and equals the window start truncated to the minute plus a whole
number of quarter hours, so it is a whole multiple of 15 minutes exactly when the
minute-truncated window start is one, in particular when the window start is; and every
slot row in the table after `GetAvailability` either has the (coach, start time) key of a
row that was there before or starts on a whole minute. -/
theorem splitInto15MinStarts_minute_granularity (start endTime t : Int)
    (h : t ∈ splitInto15MinStarts start endTime) :
    t % minute = 0 ∧
    (∃ k : Nat, t = truncateMinute start + 15 * minute * (k : Int)) ∧
    (t % (15 * minute) = 0 ↔ truncateMinute start % (15 * minute) = 0) ∧
    (start % (15 * minute) = 0 → t % (15 * minute) = 0) ∧
    (∀ (coachID : String) (env : AvailabilityEnv) (db : Store) (available : Bool),
      env.upsertErr coachID t = none →
        ∃ row ∈ (syncSlot env coachID db
            { StartTime := start, EndTime := endTime, Available := available }).coach_slots,
          row.coach_id = coachID ∧ row.start_time = t) ∧
    (∀ (w : World) (r : AvailabilityRequest) (env : AvailabilityEnv),
      NewStartsOnMinute w.db (GetAvailability w r env).1.db) := by
  obtain ⟨k, hk⟩ := splitInto15MinStarts_mem start endTime t h
  have h0 := truncateMinute_spec start
  refine ⟨splitInto15MinStarts_minute start endTime t h, ⟨k, ?_⟩, ?_, ?_, ?_,
    GetAvailability_newStarts⟩
  · rw [hk]
    simp only [minute]
    norm_num
  · simp only [minute]
    unfold Time at *
    omega
  · simp only [minute]
    unfold truncateMinute minute Time at *
    omega
  · intro coachID env db available herr
    exact upserts_have_key env coachID available _ db t (Or.inr ⟨h, herr⟩)

/-- Witness for C24 amended: 10:22 is a start of the window from 10:07:30 to 10:30; it is a
whole multiple of one minute and not of 15 minutes, as the truncated window start 10:07. -/
theorem splitInto15MinStarts_minute_granularity_witness :
    (10 * hour + 22 * minute : Int) ∈
      splitInto15MinStarts sevenPastTen (10 * hour + 30 * minute) ∧
    (10 * hour + 22 * minute : Int) % minute = 0 ∧
    ((10 * hour + 22 * minute : Int) % (15 * minute) = 0 ↔
      truncateMinute sevenPastTen % (15 * minute) = 0) ∧
    truncateMinute sevenPastTen % (15 * minute) = 7 * minute :=
  have hmem : (10 * hour + 22 * minute : Int) ∈
      splitInto15MinStarts sevenPastTen (10 * hour + 30 * minute) :=
    have hlist : splitInto15MinStarts sevenPastTen (10 * hour + 30 * minute) =
        [10 * hour + 7 * minute, 10 * hour + 22 * minute] := rfl
    hlist ▸ List.mem_cons_of_mem (10 * hour + 7 * minute : Int)
      (List.mem_singleton.mpr (rfl : (10 * hour + 22 * minute : Int) = 10 * hour + 22 * minute))
  ⟨hmem,
    (splitInto15MinStarts_minute_granularity sevenPastTen (10 * hour + 30 * minute)
      (10 * hour + 22 * minute) hmem).1,
    (splitInto15MinStarts_minute_granularity sevenPastTen (10 * hour + 30 * minute)
      (10 * hour + 22 * minute) hmem).2.2.1,
    rfl⟩

/-- Witness for C16: for the window from 10:07:30 to 10:30 the truncated start `t0` is
10:07, and the list has the two elements 10:07 and 10:22. -/
theorem splitInto15MinStarts_spec_witness :
    (10 * hour + 7 * minute : Int) % 60000000000 = 0 ∧
    (10 * hour + 7 * minute : Int) ≤ sevenPastTen ∧
    sevenPastTen < (10 * hour + 7 * minute : Int) + 60000000000 ∧
    splitInto15MinStarts sevenPastTen (10 * hour + 30 * minute) =
      [10 * hour + 7 * minute, 10 * hour + 22 * minute] ∧
    (splitInto15MinStarts sevenPastTen (10 * hour + 30 * minute)).length =
      (Int.ceil ((((10 * hour + 30 * minute) - (10 * hour + 7 * minute) : Int) : ℚ) /
        900000000000)).toNat :=
  ⟨by decide, by decide, by decide, rfl,
    (splitInto15MinStarts_spec sevenPastTen (10 * hour + 30 * minute) (10 * hour + 7 * minute)
      (by decide) (by decide) (by decide)).2.2.1⟩

/-! ## Post-commit failures that are not reported (C6) -/

/-- C6 at the failing inputs: the transaction of the run commits and a post-commit step fails
without its client returning an error. When the calendar answers the block request with 404,
or with 503 to each of the three attempts, `BlockSlot` returns a nil response with a nil
error and the handler panics on the nil response: no document is written, so no
`GATEWAY_ERROR`. When the CRM answers 503 to each of the three attempts,
`SendAppointmentCreated` returns the zero response with a nil error and the handler answers
`scheduled` with an empty error code. In each run the appointment row stays committed as
`scheduled` and the booked slot stays unavailable. -/
theorem BookAppointment_post_commit_failure_unreported :
    blockRejected 0 = .response 404 none ∧
    blockRejectedEnv.blockSlot = (none, none) ∧
    (BookAppointment soloWorld tenOClockRequest blockRejectedEnv).2.panicked = true ∧
    (BookAppointment soloWorld tenOClockRequest blockRejectedEnv).2.bodies = [] ∧
    (BookAppointment soloWorld tenOClockRequest blockRejectedEnv).1.db.coach_appointments.map
      (fun a => (a.id, a.coach_id, a.start_time, a.status)) =
      [("appt-2", "coach-b", 10 * hour, "scheduled")] ∧
    (BookAppointment soloWorld tenOClockRequest blockRejectedEnv).1.db.coach_slots.map
      (fun s => (s.coach_id, s.start_time, s.available)) = [("coach-b", 10 * hour, false)] ∧
    (∀ i : Nat, blockBusy i = .response 503 none) ∧
    blockExhaustedEnv.blockSlot = (none, none) ∧
    (BookAppointment soloWorld tenOClockRequest blockExhaustedEnv).2.panicked = true ∧
    (BookAppointment soloWorld tenOClockRequest blockExhaustedEnv).2.bodies = [] ∧
    (BookAppointment soloWorld tenOClockRequest blockExhaustedEnv).1.db.coach_appointments.map
      (fun a => (a.id, a.coach_id, a.start_time, a.status)) =
      [("appt-2", "coach-b", 10 * hour, "scheduled")] ∧
    (∀ i : Nat, alwaysBusy i = .response 503 none) ∧
    (postWithIdempotency steadyConfig alwaysBusy noJitter).out = none ∧
    crmExhaustedEnv.crm = (some zeroAppointmentCreatedResponse, none) ∧
    (BookAppointment soloWorld tenOClockRequest crmExhaustedEnv).2.panicked = false ∧
    (BookAppointment soloWorld tenOClockRequest crmExhaustedEnv).2.status = 200 ∧
    (BookAppointment soloWorld tenOClockRequest crmExhaustedEnv).2.bodies.map
      (fun b => (b.Error, b.CoachID, b.Status)) = [("", "coach-b", "scheduled")] ∧
    (BookAppointment soloWorld tenOClockRequest crmExhaustedEnv).1.db.coach_appointments.map
      (fun a => (a.id, a.coach_id, a.status, a.crm_contact_id)) =
      [("appt-2", "coach-b", "scheduled", some "")] := by
  refine ⟨rfl, rfl, rfl, rfl, rfl, rfl, fun _ => rfl, rfl, rfl, rfl, rfl, fun _ => rfl, rfl,
    rfl, rfl, rfl, rfl, rfl⟩

end CoachAssignment
